import Mathlib

/-!
Shallow embedding of `src/src/dynamic_programming/stress_damage_lh.cpp`,
a stochastic-dynamic-programming model of stress response under predation
risk and somatic damage, together with proofs about its core routines.

Conventions.
* C++ `double` arithmetic is modelled by exact rational arithmetic (`ℚ`);
  C++ `int` by `ℤ` (or `ℕ` for loop indices that are always nonnegative).
* Global arrays become functions; a C++ routine that overwrites a global
  array becomes a function from the old array (and the static parameter
  arrays it reads) to the new array.
* The rounded golden-ratio split `round((b-a)*phi_inv)` with
  `phi_inv = 1.0/((sqrt(5.0)+1.0)/2.0)` is embedded by the executable
  integer function `rndN` below; the lemma `rndN_eq_round` proves that
  `rndN` agrees with exact real rounding of `m * (1/((√5+1)/2))`, so no
  precision is lost by the integer formulation.  (For `0 ≤ m ≤ 500` the
  C++ `double` evaluation also agrees with exact real rounding: `m·φ⁻¹`
  never comes within `4·10⁻⁴` of a half-integer on that range, far above
  the rounding error of `double`.)
-/

/-! ### Fixed configuration constants (lines 35-47 of the source) -/

/-- `maxT = 100`: maximum number of time steps since last saw predator. -/
def maxT : ℕ := 100

/-- `maxTs = 10`: duration of a season. -/
def maxTs : ℕ := 10

/-- `maxD = 20`: maximum damage level. -/
def maxD : ℕ := 20

/-- `maxH = 500`: maximum hormone level. -/
def maxH : ℕ := 500

/-- `mu0 = 0.002`: background mortality. -/
def mu0 : ℚ := 2 / 1000

/-- `hmin = 0.3`: hormone level that minimises damage. -/
def hmin : ℚ := 3 / 10

/-- `hslope = 20.0`: slope of damage increase with deviation from `hmin`. -/
def hslope : ℚ := 20

/-- `repair = 1`: damage units removed per time step. -/
def repair : ℕ := 1

/-! ### The rounded inverse-golden-ratio split

The source computes `round((double)m * phi_inv)` where
`phi_inv = 1.0/((sqrt(5.0)+1.0)/2.0)`.  `rndN m` computes the same value
by integer arithmetic: `round(m·(√5-1)/2) = ⌊(m·√5 - m + 1)/2⌋ =
(⌊m·√5⌋ - m + 1)/2` (the last step uses that `m·√5` is never exactly a
half-integer); `⌊m·√5⌋ = Nat.sqrt (5·m²)`.  `rndN_eq_round` proves the
agreement with the real-number specification. -/

/-- Integer square root by fueled binary search (structurally recursive,
so it evaluates inside the kernel, unlike `Nat.sqrt`).  Invariant:
`lo*lo ≤ n < hi*hi`. -/
def sqrtGo (n : ℕ) : ℕ → ℕ → ℕ → ℕ
  | 0, lo, _ => lo
  | fuel + 1, lo, hi =>
    if hi ≤ lo + 1 then lo
    else
      let mid := (lo + hi) / 2
      if mid * mid ≤ n then sqrtGo n fuel mid hi else sqrtGo n fuel lo mid

/-- Executable integer square root: `isqrt n = ⌊√n⌋`. -/
def isqrt (n : ℕ) : ℕ := sqrtGo n n 0 (n + 1)

lemma sqrtGo_correct (n : ℕ) : ∀ fuel lo hi, lo * lo ≤ n → n < hi * hi →
    hi ≤ lo + 2 ^ fuel →
    sqrtGo n fuel lo hi * sqrtGo n fuel lo hi ≤ n ∧
      n < (sqrtGo n fuel lo hi + 1) * (sqrtGo n fuel lo hi + 1) := by
  intro fuel
  induction fuel with
  | zero =>
    intro lo hi hlo hhi hfuel
    simp only [sqrtGo]
    have : hi ≤ lo + 1 := by simpa using hfuel
    exact ⟨hlo, lt_of_lt_of_le hhi (by nlinarith)⟩
  | succ fuel ih =>
    intro lo hi hlo hhi hfuel
    simp only [sqrtGo]
    by_cases hsmall : hi ≤ lo + 1
    · simp only [if_pos hsmall]
      exact ⟨hlo, lt_of_lt_of_le hhi (by nlinarith)⟩
    · simp only [if_neg hsmall]
      have hpow : 2 ^ (fuel + 1) = 2 ^ fuel + 2 ^ fuel := by rw [pow_succ]; omega
      by_cases hmid : ((lo + hi) / 2) * ((lo + hi) / 2) ≤ n
      · simp only [if_pos hmid]
        exact ih _ _ hmid hhi (by omega)
      · simp only [if_neg hmid]
        exact ih _ _ hlo (by omega) (by omega)

lemma isqrt_correct (n : ℕ) :
    isqrt n * isqrt n ≤ n ∧ n < (isqrt n + 1) * (isqrt n + 1) := by
  have h2 : n + 1 ≤ 0 + 2 ^ n := by
    have := Nat.lt_two_pow n
    omega
  exact sqrtGo_correct n n 0 (n + 1) (by simp) (by nlinarith) h2

/-- Integer form of `round(m * phi_inv)` for a nonnegative argument:
`(⌊√(5m²)⌋ - m + 1) / 2`. -/
def rndN (m : ℕ) : ℕ := (isqrt (5 * m * m) - m + 1) / 2

/-- `round(m * phi_inv)` on `ℤ`; C++ `round` is odd (half away from zero). -/
def rndZ (m : ℤ) : ℤ := if 0 ≤ m then (rndN m.toNat : ℤ) else -(rndN (-m).toNat : ℤ)

/-- `2*m ≤ ⌊√(5m²)⌋ ≤ 3*m`. -/
lemma isqrt5_bounds (m : ℕ) :
    2 * m ≤ isqrt (5 * m * m) ∧ isqrt (5 * m * m) ≤ 3 * m := by
  obtain ⟨h1, h2⟩ := isqrt_correct (5 * m * m)
  constructor
  · nlinarith
  · nlinarith

lemma rndN_le (m : ℕ) : rndN m ≤ m := by
  obtain ⟨h1, h2⟩ := isqrt5_bounds m
  unfold rndN
  omega

lemma one_le_rndN (m : ℕ) (hm : 1 ≤ m) : 1 ≤ rndN m := by
  obtain ⟨h1, h2⟩ := isqrt_correct (5 * m * m)
  have : m + 1 ≤ isqrt (5 * m * m) := by nlinarith
  unfold rndN
  omega

lemma rndN_lt (m : ℕ) (hm : 2 ≤ m) : rndN m < m := by
  obtain ⟨h1, h2⟩ := isqrt_correct (5 * m * m)
  have : isqrt (5 * m * m) + 2 ≤ 3 * m := by nlinarith
  unfold rndN
  omega

lemma rndZ_nonneg {m : ℤ} (hm : 0 ≤ m) : 0 ≤ rndZ m := by
  simp [rndZ, hm]

lemma rndZ_le {m : ℤ} (hm : 0 ≤ m) : rndZ m ≤ m := by
  simp only [rndZ, if_pos hm]
  have := rndN_le m.toNat
  omega

lemma one_le_rndZ {m : ℤ} (hm : 1 ≤ m) : 1 ≤ rndZ m := by
  simp only [rndZ, if_pos (by omega : (0:ℤ) ≤ m)]
  have := one_le_rndN m.toNat (by omega)
  omega

lemma rndZ_lt {m : ℤ} (hm : 2 ≤ m) : rndZ m < m := by
  simp only [rndZ, if_pos (by omega : (0:ℤ) ≤ m)]
  have := rndN_lt m.toNat (by omega)
  omega

/-! ### Derived static arrays -/

/-- `PredProb` (lines 119-132): probability that the predator is present,
as a function of the time `t` since it was last seen.  `pPred[0]` is never
written by the routine and keeps the zero initialisation of the global
array; `pPred[1] = 1 - pLeave`; for `t ≥ 2`,
`pPred[t] = (pPred[t-1]·(1-pAttack)·(1-pLeave) + (1-pPred[t-1])·pArrive)
/ (1 - pPred[t-1]·pAttack)`. -/
def pPredFn (pLeave pArrive pAttack : ℚ) : ℕ → ℚ
  | 0 => 0
  | 1 => 1 - pLeave
  | t + 2 =>
    (pPredFn pLeave pArrive pAttack (t + 1) * (1 - pAttack) * (1 - pLeave) +
        (1 - pPredFn pLeave pArrive pAttack (t + 1)) * pArrive) /
      (1 - pPredFn pLeave pArrive pAttack (t + 1) * pAttack)

/-- Denominator of the `PredProb` update that computes `pPred[t]`
(meaningful for `t ≥ 2`): `1 - pPred[t-1]·pAttack`. -/
def pPredDenom (pLeave pArrive pAttack : ℚ) (t : ℕ) : ℚ :=
  1 - pPredFn pLeave pArrive pAttack (t - 1) * pAttack

/-- `Mortality` (lines 149-157): `mu[d] = min(1, mu0 + Kmort·d)`. -/
def muFn (Kmort : ℚ) (d : ℕ) : ℚ := min 1 (mu0 + Kmort * d)

/-- `Damage` (lines 162-173):
`dnew[d][h] = max(0, min(maxD, d + hslope·(hmin - h/maxH)² - repair))`. -/
def dnewFn (d h : ℕ) : ℚ :=
  max 0 (min (maxD : ℚ)
    ((d : ℚ) + hslope * (hmin - (h : ℚ) / (maxH : ℚ)) * (hmin - (h : ℚ) / (maxH : ℚ)) -
      (repair : ℚ)))

/-- `Reproduction` (lines 177-193):
`repro[ts][d] = (ts % maxTs == 0) ? max(0, 1 - Kfec·d) : 0`. -/
def reproFn (Kfec : ℚ) (ts d : ℕ) : ℚ :=
  if ts % maxTs = 0 then max 0 (1 - Kfec * (d : ℚ)) else 0

example : pPredFn (1/2) (1/10) (1/2) 1 = 1/2 := by norm_num [pPredFn]
example : muFn 0 5 = 2 / 1000 := by norm_num [muFn, mu0]
example : dnewFn 0 0 = 4/5 := by norm_num [dnewFn, maxD, maxH, hslope, hmin, repair]
example : reproFn (1/20) 10 2 = 9/10 := by norm_num [reproFn, maxTs]

/-! ### The golden-section search of `OptDec` (lines 214-246)

For fixed `(t, ts, d)` the search reads the row
`f = fun h => Wnext[min(maxT,t+1)][ts+1][d][h]` and maintains the bracket
`LHS ≤ x1 ≤ x2 ≤ RHS`.  The loop variable `fitness_x1` is carried
separately from the four control variables (it is a `double`, assigned at
the top of each loop iteration and read after the loop). -/

/-- Control state of the golden-section search: the C++ variables
`LHS, RHS, x1, x2`. -/
structure GssState where
  LHS : ℤ
  RHS : ℤ
  x1 : ℤ
  x2 : ℤ
deriving DecidableEq, Repr

/-- Branch taken when `fitness_x1 < fitness_x2` (lines 230-235):
`LHS = x1; x1 = x2; x2 = RHS - round((RHS - x1)*phi_inv)` — note that the
new `x2` is computed from the already-updated `x1`. -/
def gssBranchLow (s : GssState) : GssState :=
  ⟨s.x1, s.RHS, s.x2, s.RHS - rndZ (s.RHS - s.x2)⟩

/-- Branch taken otherwise (lines 236-241):
`RHS = x2; x2 = x1; x1 = LHS + round((x2 - LHS)*phi_inv)` — the new `x1`
is computed from the already-updated `x2`. -/
def gssBranchHigh (s : GssState) : GssState :=
  ⟨s.LHS, s.x2, s.LHS + rndZ (s.x1 - s.LHS), s.x1⟩

/-- One iteration of the `while (x1 < x2)` body, acting on the control
state paired with the running value of `fitness_x1`. -/
def gssStep (f : ℤ → ℚ) (s : GssState × ℚ) : GssState × ℚ :=
  if f s.1.x1 < f s.1.x2 then (gssBranchLow s.1, f s.1.x1)
  else (gssBranchHigh s.1, f s.1.x1)

/-- The `while (x1 < x2)` loop, with fuel (the loop in fact terminates
within 12 iterations; `gss_terminates` below proves that 500 units of
fuel always suffice). -/
def gssAux (f : ℤ → ℚ) : ℕ → GssState × ℚ → GssState × ℚ
  | 0, s => s
  | n + 1, s => if s.1.x1 < s.1.x2 then gssAux f n (gssStep f s) else s

/-- Initial control state (lines 216-219): `LHS = 0; RHS = maxH;
x1 = RHS - round((RHS-LHS)*phi_inv); x2 = LHS + round((RHS-LHS)*phi_inv)`. -/
def gssInit : GssState :=
  ⟨0, (maxH : ℤ), (maxH : ℤ) - rndZ (maxH : ℤ), 0 + rndZ (maxH : ℤ)⟩

/-- The whole search.  The second component models the C++ `fitness_x1`
variable, which is uninitialised before the first loop iteration; the
loop always runs at least once from `gssInit` (`191 < 309`), so the
placeholder initial value `0` is always overwritten. -/
def gssRun (f : ℤ → ℚ) : GssState × ℚ := gssAux f 500 (gssInit, 0)

/-- After the loop, line 245: `hormone[t][ts][d] = x1`. -/
def gssHormone (f : ℤ → ℚ) : ℤ := (gssRun f).1.x1

/-- After the loop, line 246: `Wopt[t][ts][d] = fitness_x1`. -/
def gssWopt (f : ℤ → ℚ) : ℚ := (gssRun f).2

set_option maxRecDepth 4000 in
example : gssInit = ⟨0, 500, 191, 309⟩ := by decide

/-! ### Invariants and termination of the search -/

/-- Basic bracket invariant of the search: probes between the bracket
ends, bracket inside the hormone lattice `[0, maxH]`. -/
def GssInv (s : GssState) : Prop :=
  0 ≤ s.LHS ∧ s.LHS ≤ s.x1 ∧ s.x1 ≤ s.RHS ∧ s.LHS ≤ s.x2 ∧ s.x2 ≤ s.RHS ∧
    s.RHS ≤ (maxH : ℤ)

/-- Strictness on loop entry: whenever the loop runs, the probes are
strictly inside the bracket. -/
def GssStrict (s : GssState) : Prop :=
  s.x1 < s.x2 → s.LHS < s.x1 ∧ s.x2 < s.RHS

set_option maxRecDepth 4000 in
lemma gssInit_eq : gssInit = ⟨0, 500, 191, 309⟩ := by decide

lemma gssInv_init : GssInv gssInit := by
  rw [gssInit_eq]
  simp only [GssInv, maxH]
  norm_num

lemma gssStrict_init : GssStrict gssInit := by
  rw [gssInit_eq]
  intro h
  norm_num

lemma gssInv_branchLow {s : GssState} (hinv : GssInv s) (hrun : s.x1 < s.x2) :
    GssInv (gssBranchLow s) := by
  obtain ⟨h0, h1, h2, h3, h4, h5⟩ := hinv
  have hb : (0:ℤ) ≤ s.RHS - s.x2 := by omega
  have hb1 := rndZ_nonneg hb
  have hb2 := rndZ_le hb
  simp only [GssInv, gssBranchLow]
  omega

lemma gssInv_branchHigh {s : GssState} (hinv : GssInv s) (hrun : s.x1 < s.x2) :
    GssInv (gssBranchHigh s) := by
  obtain ⟨h0, h1, h2, h3, h4, h5⟩ := hinv
  have ha : (0:ℤ) ≤ s.x1 - s.LHS := by omega
  have ha1 := rndZ_nonneg ha
  have ha2 := rndZ_le ha
  simp only [GssInv, gssBranchHigh]
  omega

lemma gssStrict_branchLow {s : GssState} (hinv : GssInv s) (hstr : GssStrict s)
    (hrun : s.x1 < s.x2) : GssStrict (gssBranchLow s) := by
  obtain ⟨h0, h1, h2, h3, h4, h5⟩ := hinv
  obtain ⟨hs1, hs2⟩ := hstr hrun
  have hb : (1:ℤ) ≤ s.RHS - s.x2 := by omega
  have hb1 := one_le_rndZ hb
  simp only [GssStrict, gssBranchLow]
  omega

lemma gssStrict_branchHigh {s : GssState} (hinv : GssInv s) (hstr : GssStrict s)
    (hrun : s.x1 < s.x2) : GssStrict (gssBranchHigh s) := by
  obtain ⟨h0, h1, h2, h3, h4, h5⟩ := hinv
  obtain ⟨hs1, hs2⟩ := hstr hrun
  have ha : (1:ℤ) ≤ s.x1 - s.LHS := by omega
  have ha1 := one_le_rndZ ha
  simp only [GssStrict, gssBranchHigh]
  omega

/-- While the loop runs from an invariant state, the bracket width
`RHS - LHS` strictly shrinks at every iteration. -/
lemma gss_width_decrease (f : ℤ → ℚ) (s : GssState × ℚ)
    (hstr : GssStrict s.1) (hrun : s.1.x1 < s.1.x2) :
    (gssStep f s).1.RHS - (gssStep f s).1.LHS < s.1.RHS - s.1.LHS := by
  obtain ⟨hs1, hs2⟩ := hstr hrun
  by_cases hc : f s.1.x1 < f s.1.x2 <;>
    simp only [gssStep, hc, if_true, if_false, gssBranchLow, gssBranchHigh] <;> omega

/-- A state in which the loop guard fails is a fixed point of `gssAux`. -/
lemma gssAux_stable {f : ℤ → ℚ} {s : GssState × ℚ} (h : ¬ s.1.x1 < s.1.x2) :
    ∀ n, gssAux f n s = s := by
  intro n
  cases n with
  | zero => rfl
  | succ n => simp [gssAux, h]

lemma gssAux_add (f : ℤ → ℚ) (a b : ℕ) (s : GssState × ℚ) :
    gssAux f (a + b) s = gssAux f b (gssAux f a s) := by
  induction a generalizing s with
  | zero => simp [gssAux]
  | succ a ih =>
    by_cases hrun : s.1.x1 < s.1.x2
    · have : a + 1 + b = (a + b) + 1 := by omega
      rw [this]
      simp only [gssAux, hrun, if_true]
      exact ih (gssStep f s)
    · rw [gssAux_stable hrun, gssAux_stable hrun, gssAux_stable hrun]

/-- Termination: from any invariant state, fuel at least the bracket
width makes the loop guard fail. -/
lemma gss_fuel_enough (f : ℤ → ℚ) :
    ∀ (n : ℕ) (s : GssState × ℚ), GssInv s.1 → GssStrict s.1 →
      s.1.RHS - s.1.LHS ≤ (n : ℤ) →
      ¬ ((gssAux f n s).1.x1 < (gssAux f n s).1.x2) := by
  intro n
  induction n with
  | zero =>
    intro s hinv hstr hw
    obtain ⟨h0, h1, h2, h3, h4, h5⟩ := hinv
    simp only [gssAux]
    intro hrun
    obtain ⟨hs1, hs2⟩ := hstr hrun
    omega
  | succ n ih =>
    intro s hinv hstr hw
    by_cases hrun : s.1.x1 < s.1.x2
    · simp only [gssAux, hrun, if_true]
      have hw' := gss_width_decrease f s hstr hrun
      refine ih (gssStep f s) ?_ ?_ (by omega)
      · unfold gssStep
        by_cases hc : f s.1.x1 < f s.1.x2 <;> simp only [hc, if_true, if_false]
        · exact gssInv_branchLow hinv hrun
        · exact gssInv_branchHigh hinv hrun
      · unfold gssStep
        by_cases hc : f s.1.x1 < f s.1.x2 <;> simp only [hc, if_true, if_false]
        · exact gssStrict_branchLow hinv hstr hrun
        · exact gssStrict_branchHigh hinv hstr hrun
    · rw [gssAux_stable hrun]
      exact hrun

/-- The search always terminates with 500 units of fuel. -/
lemma gss_terminates (f : ℤ → ℚ) :
    ¬ ((gssRun f).1.x1 < (gssRun f).1.x2) := by
  refine gss_fuel_enough f 500 (gssInit, 0) gssInv_init gssStrict_init ?_
  simp [gssInit, maxH]

/-! ### Correctness of the search for strictly unimodal rows

The claim assumes the fitness row is strictly unimodal in `h`.  The proof
combines a small symbolic argument with a kernel-checked certificate: a
tree (`gssCert` below) covering every branch of the loop that is
consistent with strict unimodality around some peak position `p` — when
both probes are at or above `p` the comparison outcome is forced
downhill, when both are at or below `p` it is forced uphill, so each node
carries the interval of peak positions that can reach it, and at every
exit the certificate checker verifies the required conclusion for the
whole interval. -/

/-- Strict unimodality of a fitness row on the hormone lattice
`[0, maxH]`, with peak at `p`: strictly increasing up to `p` and strictly
decreasing after `p`. -/
def StrictUnimodalOn (f : ℤ → ℚ) (p : ℤ) : Prop :=
  0 ≤ p ∧ p ≤ (maxH : ℤ) ∧
    (∀ i j : ℤ, 0 ≤ i → i < j → j ≤ p → f i < f j) ∧
    (∀ i j : ℤ, p ≤ i → i < j → j ≤ (maxH : ℤ) → f j < f i)

/-- Conversion between the `ℤ` arithmetic of the loop body and the `ℕ`
arithmetic of the certificate: the new `x2` of the first branch. -/
lemma cast_sub_rnd (a b : ℕ) (h : b ≤ a) :
    (a : ℤ) - rndZ ((a : ℤ) - (b : ℤ)) = ((a - rndN (a - b) : ℕ) : ℤ) := by
  have h1 : (a : ℤ) - (b : ℤ) = ((a - b : ℕ) : ℤ) := by omega
  rw [h1]
  have h2 : rndZ ((a - b : ℕ) : ℤ) = (rndN (a - b) : ℤ) := by
    simp [rndZ]
  rw [h2]
  have h3 := rndN_le (a - b)
  omega

/-- Conversion for the new `x1` of the second branch. -/
lemma cast_add_rnd (a b : ℕ) (h : a ≤ b) :
    (a : ℤ) + rndZ ((b : ℤ) - (a : ℤ)) = ((a + rndN (b - a) : ℕ) : ℤ) := by
  have h1 : (b : ℤ) - (a : ℤ) = ((b - a : ℕ) : ℤ) := by omega
  rw [h1]
  have h2 : rndZ ((b - a : ℕ) : ℤ) = (rndN (b - a) : ℤ) := by
    simp [rndZ]
  rw [h2]
  push_cast
  ring

/-- Certificate tree for the unimodal-correctness proof.  A `node` records
a running control state `(LHS, RHS, x1, x2)` of the loop together with the
interval `[pa, pb]` of peak positions `p` whose consistent comparison
outcomes can reach it, and one subtree per loop branch; `stop` marks a
branch that no peak position in the node's interval can take, or a branch
whose successor exits the loop (its conditions are checked arithmetically
at the parent). -/
inductive GTree where
  | stop : GTree
  | node (L R x1 x2 pa pb : ℕ) (lo hi : GTree) : GTree

/-- Certificate checker.  At `node L R x1 x2 pa pb lo hi` (a running
state, reachable for peaks `p ∈ [pa, pb]`):
* the first loop branch is taken only when `x1 < p`, so it concerns peaks
  in `[max pa (x1+1), pb]`; if that interval is nonempty, the successor
  state is `(x1, R, x2, R - rnd (R - x2))`; if the successor still runs,
  `lo` must record exactly it, else the exit conditions (`x1` lands on
  `x2`, which must be within one unit of every peak in the interval, and
  the two probes must be adjacent) are checked here;
* symmetrically for the second branch, taken only when `p < x2`, with
  successor `(L, x2, L + rnd (x1 - L), x1)`. -/
def certOK : ℕ → GTree → Bool
  | 0, _ => false
  | _ + 1, .stop => true
  | n + 1, .node L R x1 x2 pa pb lo hi =>
    (if pb < max pa (x1 + 1) then true
     else
       if x2 < R - rndN (R - x2) then
         match lo with
         | .node cL cR cx1 cx2 cpa cpb _ _ =>
           decide (cL = x1 ∧ cR = R ∧ cx1 = x2 ∧ cx2 = R - rndN (R - x2) ∧
               cpa = max pa (x1 + 1) ∧ cpb = pb) &&
             certOK n lo
         | .stop => false
       else decide (pb ≤ x2 + 1 ∧ x2 ≤ max pa (x1 + 1) + 1 ∧ x2 ≤ x1 + 1)) &&
    (if min pb (x2 - 1) < pa then true
     else
       if L + rndN (x1 - L) < x1 then
         match hi with
         | .node cL cR cx1 cx2 cpa cpb _ _ =>
           decide (cL = L ∧ cR = x2 ∧ cx1 = L + rndN (x1 - L) ∧ cx2 = x1 ∧
               cpa = pa ∧ cpb = min pb (x2 - 1)) &&
             certOK n hi
         | .stop => false
       else decide (min pb (x2 - 1) ≤ L + rndN (x1 - L) + 1 ∧ L + rndN (x1 - L) ≤ pa + 1))

/-- The conclusion of the unimodal-correctness argument for a finished
search state `r`: the recorded `x1` is within one lattice unit of the
peak `p`, and the recorded `fitness_x1` is the row value at an index
within one lattice unit of the recorded `x1`. -/
def GssGood (f : ℤ → ℚ) (p : ℤ) (r : GssState × ℚ) : Prop :=
  (p - 1 ≤ r.1.x1 ∧ r.1.x1 ≤ p + 1) ∧
    ∃ j : ℤ, r.1.x1 - 1 ≤ j ∧ j ≤ r.1.x1 + 1 ∧ r.2 = f j

/-- Soundness of the certificate checker: a checked node covering peak
position `p` guarantees the conclusion for every strictly unimodal row
with peak `p`, for any run of the loop from the node's state. -/
lemma certOK_sound (f : ℤ → ℚ) (p : ℕ) (hu : StrictUnimodalOn f (p : ℤ)) :
    ∀ (n : ℕ) (L R x1 x2 pa pb : ℕ) (lo hi : GTree) (fx : ℚ),
      certOK n (GTree.node L R x1 x2 pa pb lo hi) = true →
      pa ≤ p → p ≤ pb → L ≤ x1 → x2 ≤ R → R ≤ maxH → x1 < x2 →
      GssGood f (p : ℤ)
        (gssAux f n (⟨(L : ℤ), (R : ℤ), (x1 : ℤ), (x2 : ℤ)⟩, fx)) := by
  obtain ⟨hp0, hp1, hinc, hdec⟩ := hu
  intro n
  induction n with
  | zero =>
    intro L R x1 x2 pa pb lo hi fx hcert
    simp [certOK] at hcert
  | succ n ih =>
    intro L R x1 x2 pa pb lo hi fx hcert hpa hpb hLx1 hx2R hRmax hrun
    have hrunZ : ((x1 : ℕ) : ℤ) < ((x2 : ℕ) : ℤ) := by exact_mod_cast hrun
    simp only [certOK, Bool.and_eq_true] at hcert
    obtain ⟨hlow, hhigh⟩ := hcert
    simp only [gssAux, hrunZ, if_true]
    by_cases hc : f ((x1 : ℕ) : ℤ) < f ((x2 : ℕ) : ℤ)
    · -- the loop takes the first branch, so the peak is forced above `x1`
      have hforce : x1 < p := by
        by_contra hpx
        push_neg at hpx
        have hx2m : ((x2 : ℕ) : ℤ) ≤ (maxH : ℤ) := by
          have : x2 ≤ maxH := le_trans hx2R hRmax
          exact_mod_cast this
        have := hdec ((x1 : ℕ) : ℤ) ((x2 : ℕ) : ℤ) (by exact_mod_cast hpx) hrunZ hx2m
        exact absurd hc (not_lt_of_gt this)
      rw [if_neg (by omega : ¬ pb < max pa (x1 + 1))] at hlow
      have hstep : gssStep f (⟨(L : ℤ), (R : ℤ), (x1 : ℤ), (x2 : ℤ)⟩, fx) =
          (⟨(x1 : ℤ), (R : ℤ), (x2 : ℤ),
              ((R - rndN (R - x2) : ℕ) : ℤ)⟩, f ((x1 : ℕ) : ℤ)) := by
        simp only [gssStep, gssBranchLow, hc, if_true]
        rw [← cast_sub_rnd R x2 hx2R]
      rw [hstep]
      by_cases hy : x2 < R - rndN (R - x2)
      · rw [if_pos hy] at hlow
        cases lo with
        | stop => exact absurd hlow (by simp)
        | node cL cR cx1 cx2 cpa cpb clo chi =>
          rw [Bool.and_eq_true] at hlow
          obtain ⟨heq, hclo⟩ := hlow
          obtain ⟨e1, e2, e3, e4, e5, e6⟩ := of_decide_eq_true heq
          rw [e1, e2, e3, e4, e5, e6] at hclo
          have hyR : R - rndN (R - x2) ≤ R := by omega
          exact ih x1 R x2 (R - rndN (R - x2)) (max pa (x1 + 1)) pb clo chi
            (f ((x1 : ℕ) : ℤ)) hclo (by omega) hpb (le_of_lt hrun) hyR hRmax hy
      · rw [if_neg hy] at hlow
        obtain ⟨l1, l2, l3⟩ := of_decide_eq_true hlow
        have hterm : ¬ ((⟨(x1 : ℤ), (R : ℤ), (x2 : ℤ),
            ((R - rndN (R - x2) : ℕ) : ℤ)⟩ : GssState), f ((x1 : ℕ) : ℤ)).1.x1 <
            (⟨(x1 : ℤ), (R : ℤ), (x2 : ℤ),
              ((R - rndN (R - x2) : ℕ) : ℤ)⟩ : GssState).x2 := by
          have : ¬ x2 < R - rndN (R - x2) := hy
          simp only []
          exact_mod_cast this
        rw [gssAux_stable hterm]
        refine ⟨⟨?_, ?_⟩, ⟨((x1 : ℕ) : ℤ), ?_, ?_, rfl⟩⟩
        · simp only []
          have : p ≤ x2 + 1 := le_trans hpb l1
          omega
        · simp only []
          have : x2 ≤ p + 1 := by omega
          omega
        · simp only []
          omega
        · simp only []
          omega
    · -- the loop takes the second branch, so the peak is forced below `x2`
      have hforce : p < x2 := by
        by_contra hpx
        push_neg at hpx
        have := hinc ((x1 : ℕ) : ℤ) ((x2 : ℕ) : ℤ) (by positivity) hrunZ
          (by exact_mod_cast hpx)
        exact hc this
      rw [if_neg (by omega : ¬ min pb (x2 - 1) < pa)] at hhigh
      have hstep : gssStep f (⟨(L : ℤ), (R : ℤ), (x1 : ℤ), (x2 : ℤ)⟩, fx) =
          (⟨(L : ℤ), (x2 : ℤ), ((L + rndN (x1 - L) : ℕ) : ℤ),
              (x1 : ℤ)⟩, f ((x1 : ℕ) : ℤ)) := by
        simp only [gssStep, gssBranchHigh, hc, if_false]
        rw [← cast_add_rnd L x1 hLx1]
      rw [hstep]
      by_cases hw : L + rndN (x1 - L) < x1
      · rw [if_pos hw] at hhigh
        cases hi with
        | stop => exact absurd hhigh (by simp)
        | node cL cR cx1 cx2 cpa cpb clo chi =>
          rw [Bool.and_eq_true] at hhigh
          obtain ⟨heq, hchi⟩ := hhigh
          obtain ⟨e1, e2, e3, e4, e5, e6⟩ := of_decide_eq_true heq
          rw [e1, e2, e3, e4, e5, e6] at hchi
          exact ih L x2 (L + rndN (x1 - L)) x1 pa (min pb (x2 - 1)) clo chi
            (f ((x1 : ℕ) : ℤ)) hchi hpa (by omega) (by omega) (le_of_lt hrun)
            (le_trans hx2R hRmax) hw
      · rw [if_neg hw] at hhigh
        obtain ⟨l1, l2⟩ := of_decide_eq_true hhigh
        have hwx1 : L + rndN (x1 - L) = x1 := by
          have := rndN_le (x1 - L)
          omega
        have hterm : ¬ ((⟨(L : ℤ), (x2 : ℤ), ((L + rndN (x1 - L) : ℕ) : ℤ),
            (x1 : ℤ)⟩ : GssState), f ((x1 : ℕ) : ℤ)).1.x1 <
            (⟨(L : ℤ), (x2 : ℤ), ((L + rndN (x1 - L) : ℕ) : ℤ),
              (x1 : ℤ)⟩ : GssState).x2 := by
          simp only []
          exact_mod_cast hw
        rw [gssAux_stable hterm]
        refine ⟨⟨?_, ?_⟩, ⟨((x1 : ℕ) : ℤ), ?_, ?_, rfl⟩⟩
        · simp only []
          have : p ≤ L + rndN (x1 - L) + 1 := by omega
          push_cast
          omega
        · simp only []
          have : L + rndN (x1 - L) ≤ p + 1 := by omega
          push_cast
          omega
        · simp only []
          push_cast
          omega
        · simp only []
          push_cast
          omega

/-- First-branch subtree of the certificate (generated by exploring the
loop from `(LHS,RHS,x1,x2) = (0,500,191,309)`; `gssCert_ok` below checks
it in the kernel). -/
def gssCertLo : GTree :=
  (.node 191 500 309 382 192 500 (.node 309 500 382 427 310 500 (.node 382 500 427 455 383 500
  (.node 427 500 455 472 428 500 (.node 455 500 472 483 456 500 (.node 472 500 483 489 473 500
  (.node 483 500 489 493 484 500 (.node 489 500 493 496 490 500 (.node 493 500 496 498 494 500
  (.node 496 500 498 499 497 500 .stop (.node 496 499 497 498 497 498 .stop .stop)) (.node 493 498
  495 496 494 497 (.node 495 498 496 497 496 497 .stop .stop) (.node 493 496 494 495 494 495 .stop
  .stop))) (.node 489 496 491 493 490 495 (.node 491 496 493 494 492 495 (.node 493 496 494 495
  494 495 .stop .stop) (.node 491 494 492 493 492 493 .stop .stop)) (.node 489 493 490 491 490 492
  (.node 490 493 491 492 491 492 .stop .stop) .stop))) (.node 483 493 487 489 484 492 (.node 487
  493 489 491 488 492 (.node 489 493 491 492 490 492 .stop (.node 489 492 490 491 490 491 .stop
  .stop)) (.node 487 491 488 489 488 490 (.node 488 491 489 490 489 490 .stop .stop) .stop))
  (.node 483 489 485 487 484 488 (.node 485 489 487 488 486 488 .stop (.node 485 488 486 487 486
  487 .stop .stop)) (.node 483 487 484 485 484 486 (.node 484 487 485 486 485 486 .stop .stop)
  .stop)))) (.node 472 489 479 483 473 488 (.node 479 489 483 485 480 488 (.node 483 489 485 487
  484 488 (.node 485 489 487 488 486 488 .stop (.node 485 488 486 487 486 487 .stop .stop)) (.node
  483 487 484 485 484 486 (.node 484 487 485 486 485 486 .stop .stop) .stop)) (.node 479 485 481
  483 480 484 (.node 481 485 483 484 482 484 .stop (.node 481 484 482 483 482 483 .stop .stop))
  (.node 479 483 480 481 480 482 (.node 480 483 481 482 481 482 .stop .stop) .stop))) (.node 472
  483 476 479 473 482 (.node 476 483 479 481 477 482 (.node 479 483 481 482 480 482 .stop (.node
  479 482 480 481 480 481 .stop .stop)) (.node 476 481 478 479 477 480 (.node 478 481 479 480 479
  480 .stop .stop) (.node 476 479 477 478 477 478 .stop .stop))) (.node 472 479 474 476 473 478
  (.node 474 479 476 477 475 478 (.node 476 479 477 478 477 478 .stop .stop) (.node 474 477 475
  476 475 476 .stop .stop)) (.node 472 476 473 474 473 475 (.node 473 476 474 475 474 475 .stop
  .stop) .stop))))) (.node 455 483 466 472 456 482 (.node 466 483 472 476 467 482 (.node 472 483
  476 479 473 482 (.node 476 483 479 481 477 482 (.node 479 483 481 482 480 482 .stop (.node 479
  482 480 481 480 481 .stop .stop)) (.node 476 481 478 479 477 480 (.node 478 481 479 480 479 480
  .stop .stop) (.node 476 479 477 478 477 478 .stop .stop))) (.node 472 479 474 476 473 478 (.node
  474 479 476 477 475 478 (.node 476 479 477 478 477 478 .stop .stop) (.node 474 477 475 476 475
  476 .stop .stop)) (.node 472 476 473 474 473 475 (.node 473 476 474 475 474 475 .stop .stop)
  .stop))) (.node 466 476 470 472 467 475 (.node 470 476 472 474 471 475 (.node 472 476 474 475
  473 475 .stop (.node 472 475 473 474 473 474 .stop .stop)) (.node 470 474 471 472 471 473 (.node
  471 474 472 473 472 473 .stop .stop) .stop)) (.node 466 472 468 470 467 471 (.node 468 472 470
  471 469 471 .stop (.node 468 471 469 470 469 470 .stop .stop)) (.node 466 470 467 468 467 469
  (.node 467 470 468 469 468 469 .stop .stop) .stop)))) (.node 455 472 462 466 456 471 (.node 462
  472 466 468 463 471 (.node 466 472 468 470 467 471 (.node 468 472 470 471 469 471 .stop (.node
  468 471 469 470 469 470 .stop .stop)) (.node 466 470 467 468 467 469 (.node 467 470 468 469 468
  469 .stop .stop) .stop)) (.node 462 468 464 466 463 467 (.node 464 468 466 467 465 467 .stop
  (.node 464 467 465 466 465 466 .stop .stop)) (.node 462 466 463 464 463 465 (.node 463 466 464
  465 464 465 .stop .stop) .stop))) (.node 455 466 459 462 456 465 (.node 459 466 462 464 460 465
  (.node 462 466 464 465 463 465 .stop (.node 462 465 463 464 463 464 .stop .stop)) (.node 459 464
  461 462 460 463 (.node 461 464 462 463 462 463 .stop .stop) (.node 459 462 460 461 460 461 .stop
  .stop))) (.node 455 462 457 459 456 461 (.node 457 462 459 460 458 461 (.node 459 462 460 461
  460 461 .stop .stop) (.node 457 460 458 459 458 459 .stop .stop)) (.node 455 459 456 457 456 458
  (.node 456 459 457 458 457 458 .stop .stop) .stop)))))) (.node 427 472 444 455 428 471 (.node
  444 472 455 461 445 471 (.node 455 472 461 465 456 471 (.node 461 472 465 468 462 471 (.node 465
  472 468 470 466 471 (.node 468 472 470 471 469 471 .stop (.node 468 471 469 470 469 470 .stop
  .stop)) (.node 465 470 467 468 466 469 (.node 467 470 468 469 468 469 .stop .stop) (.node 465
  468 466 467 466 467 .stop .stop))) (.node 461 468 463 465 462 467 (.node 463 468 465 466 464 467
  (.node 465 468 466 467 466 467 .stop .stop) (.node 463 466 464 465 464 465 .stop .stop)) (.node
  461 465 462 463 462 464 (.node 462 465 463 464 463 464 .stop .stop) .stop))) (.node 455 465 459
  461 456 464 (.node 459 465 461 463 460 464 (.node 461 465 463 464 462 464 .stop (.node 461 464
  462 463 462 463 .stop .stop)) (.node 459 463 460 461 460 462 (.node 460 463 461 462 461 462
  .stop .stop) .stop)) (.node 455 461 457 459 456 460 (.node 457 461 459 460 458 460 .stop (.node
  457 460 458 459 458 459 .stop .stop)) (.node 455 459 456 457 456 458 (.node 456 459 457 458 457
  458 .stop .stop) .stop)))) (.node 444 461 451 455 445 460 (.node 451 461 455 457 452 460 (.node
  455 461 457 459 456 460 (.node 457 461 459 460 458 460 .stop (.node 457 460 458 459 458 459
  .stop .stop)) (.node 455 459 456 457 456 458 (.node 456 459 457 458 457 458 .stop .stop) .stop))
  (.node 451 457 453 455 452 456 (.node 453 457 455 456 454 456 .stop (.node 453 456 454 455 454
  455 .stop .stop)) (.node 451 455 452 453 452 454 (.node 452 455 453 454 453 454 .stop .stop)
  .stop))) (.node 444 455 448 451 445 454 (.node 448 455 451 453 449 454 (.node 451 455 453 454
  452 454 .stop (.node 451 454 452 453 452 453 .stop .stop)) (.node 448 453 450 451 449 452 (.node
  450 453 451 452 451 452 .stop .stop) (.node 448 451 449 450 449 450 .stop .stop))) (.node 444
  451 446 448 445 450 (.node 446 451 448 449 447 450 (.node 448 451 449 450 449 450 .stop .stop)
  (.node 446 449 447 448 447 448 .stop .stop)) (.node 444 448 445 446 445 447 (.node 445 448 446
  447 446 447 .stop .stop) .stop))))) (.node 427 455 438 444 428 454 (.node 438 455 444 448 439
  454 (.node 444 455 448 451 445 454 (.node 448 455 451 453 449 454 (.node 451 455 453 454 452 454
  .stop (.node 451 454 452 453 452 453 .stop .stop)) (.node 448 453 450 451 449 452 (.node 450 453
  451 452 451 452 .stop .stop) (.node 448 451 449 450 449 450 .stop .stop))) (.node 444 451 446
  448 445 450 (.node 446 451 448 449 447 450 (.node 448 451 449 450 449 450 .stop .stop) (.node
  446 449 447 448 447 448 .stop .stop)) (.node 444 448 445 446 445 447 (.node 445 448 446 447 446
  447 .stop .stop) .stop))) (.node 438 448 442 444 439 447 (.node 442 448 444 446 443 447 (.node
  444 448 446 447 445 447 .stop (.node 444 447 445 446 445 446 .stop .stop)) (.node 442 446 443
  444 443 445 (.node 443 446 444 445 444 445 .stop .stop) .stop)) (.node 438 444 440 442 439 443
  (.node 440 444 442 443 441 443 .stop (.node 440 443 441 442 441 442 .stop .stop)) (.node 438 442
  439 440 439 441 (.node 439 442 440 441 440 441 .stop .stop) .stop)))) (.node 427 444 434 438 428
  443 (.node 434 444 438 440 435 443 (.node 438 444 440 442 439 443 (.node 440 444 442 443 441 443
  .stop (.node 440 443 441 442 441 442 .stop .stop)) (.node 438 442 439 440 439 441 (.node 439 442
  440 441 440 441 .stop .stop) .stop)) (.node 434 440 436 438 435 439 (.node 436 440 438 439 437
  439 .stop (.node 436 439 437 438 437 438 .stop .stop)) (.node 434 438 435 436 435 437 (.node 435
  438 436 437 436 437 .stop .stop) .stop))) (.node 427 438 431 434 428 437 (.node 431 438 434 436
  432 437 (.node 434 438 436 437 435 437 .stop (.node 434 437 435 436 435 436 .stop .stop)) (.node
  431 436 433 434 432 435 (.node 433 436 434 435 434 435 .stop .stop) (.node 431 434 432 433 432
  433 .stop .stop))) (.node 427 434 429 431 428 433 (.node 429 434 431 432 430 433 (.node 431 434
  432 433 432 433 .stop .stop) (.node 429 432 430 431 430 431 .stop .stop)) (.node 427 431 428 429
  428 430 (.node 428 431 429 430 429 430 .stop .stop) .stop))))))) (.node 382 455 410 427 383 454
  (.node 410 455 427 438 411 454 (.node 427 455 438 444 428 454 (.node 438 455 444 448 439 454
  (.node 444 455 448 451 445 454 (.node 448 455 451 453 449 454 (.node 451 455 453 454 452 454
  .stop (.node 451 454 452 453 452 453 .stop .stop)) (.node 448 453 450 451 449 452 (.node 450 453
  451 452 451 452 .stop .stop) (.node 448 451 449 450 449 450 .stop .stop))) (.node 444 451 446
  448 445 450 (.node 446 451 448 449 447 450 (.node 448 451 449 450 449 450 .stop .stop) (.node
  446 449 447 448 447 448 .stop .stop)) (.node 444 448 445 446 445 447 (.node 445 448 446 447 446
  447 .stop .stop) .stop))) (.node 438 448 442 444 439 447 (.node 442 448 444 446 443 447 (.node
  444 448 446 447 445 447 .stop (.node 444 447 445 446 445 446 .stop .stop)) (.node 442 446 443
  444 443 445 (.node 443 446 444 445 444 445 .stop .stop) .stop)) (.node 438 444 440 442 439 443
  (.node 440 444 442 443 441 443 .stop (.node 440 443 441 442 441 442 .stop .stop)) (.node 438 442
  439 440 439 441 (.node 439 442 440 441 440 441 .stop .stop) .stop)))) (.node 427 444 434 438 428
  443 (.node 434 444 438 440 435 443 (.node 438 444 440 442 439 443 (.node 440 444 442 443 441 443
  .stop (.node 440 443 441 442 441 442 .stop .stop)) (.node 438 442 439 440 439 441 (.node 439 442
  440 441 440 441 .stop .stop) .stop)) (.node 434 440 436 438 435 439 (.node 436 440 438 439 437
  439 .stop (.node 436 439 437 438 437 438 .stop .stop)) (.node 434 438 435 436 435 437 (.node 435
  438 436 437 436 437 .stop .stop) .stop))) (.node 427 438 431 434 428 437 (.node 431 438 434 436
  432 437 (.node 434 438 436 437 435 437 .stop (.node 434 437 435 436 435 436 .stop .stop)) (.node
  431 436 433 434 432 435 (.node 433 436 434 435 434 435 .stop .stop) (.node 431 434 432 433 432
  433 .stop .stop))) (.node 427 434 429 431 428 433 (.node 429 434 431 432 430 433 (.node 431 434
  432 433 432 433 .stop .stop) (.node 429 432 430 431 430 431 .stop .stop)) (.node 427 431 428 429
  428 430 (.node 428 431 429 430 429 430 .stop .stop) .stop))))) (.node 410 438 421 427 411 437
  (.node 421 438 427 431 422 437 (.node 427 438 431 434 428 437 (.node 431 438 434 436 432 437
  (.node 434 438 436 437 435 437 .stop (.node 434 437 435 436 435 436 .stop .stop)) (.node 431 436
  433 434 432 435 (.node 433 436 434 435 434 435 .stop .stop) (.node 431 434 432 433 432 433 .stop
  .stop))) (.node 427 434 429 431 428 433 (.node 429 434 431 432 430 433 (.node 431 434 432 433
  432 433 .stop .stop) (.node 429 432 430 431 430 431 .stop .stop)) (.node 427 431 428 429 428 430
  (.node 428 431 429 430 429 430 .stop .stop) .stop))) (.node 421 431 425 427 422 430 (.node 425
  431 427 429 426 430 (.node 427 431 429 430 428 430 .stop (.node 427 430 428 429 428 429 .stop
  .stop)) (.node 425 429 426 427 426 428 (.node 426 429 427 428 427 428 .stop .stop) .stop))
  (.node 421 427 423 425 422 426 (.node 423 427 425 426 424 426 .stop (.node 423 426 424 425 424
  425 .stop .stop)) (.node 421 425 422 423 422 424 (.node 422 425 423 424 423 424 .stop .stop)
  .stop)))) (.node 410 427 417 421 411 426 (.node 417 427 421 423 418 426 (.node 421 427 423 425
  422 426 (.node 423 427 425 426 424 426 .stop (.node 423 426 424 425 424 425 .stop .stop)) (.node
  421 425 422 423 422 424 (.node 422 425 423 424 423 424 .stop .stop) .stop)) (.node 417 423 419
  421 418 422 (.node 419 423 421 422 420 422 .stop (.node 419 422 420 421 420 421 .stop .stop))
  (.node 417 421 418 419 418 420 (.node 418 421 419 420 419 420 .stop .stop) .stop))) (.node 410
  421 414 417 411 420 (.node 414 421 417 419 415 420 (.node 417 421 419 420 418 420 .stop (.node
  417 420 418 419 418 419 .stop .stop)) (.node 414 419 416 417 415 418 (.node 416 419 417 418 417
  418 .stop .stop) (.node 414 417 415 416 415 416 .stop .stop))) (.node 410 417 412 414 411 416
  (.node 412 417 414 415 413 416 (.node 414 417 415 416 415 416 .stop .stop) (.node 412 415 413
  414 413 414 .stop .stop)) (.node 410 414 411 412 411 413 (.node 411 414 412 413 412 413 .stop
  .stop) .stop)))))) (.node 382 427 399 410 383 426 (.node 399 427 410 416 400 426 (.node 410 427
  416 420 411 426 (.node 416 427 420 423 417 426 (.node 420 427 423 425 421 426 (.node 423 427 425
  426 424 426 .stop (.node 423 426 424 425 424 425 .stop .stop)) (.node 420 425 422 423 421 424
  (.node 422 425 423 424 423 424 .stop .stop) (.node 420 423 421 422 421 422 .stop .stop))) (.node
  416 423 418 420 417 422 (.node 418 423 420 421 419 422 (.node 420 423 421 422 421 422 .stop
  .stop) (.node 418 421 419 420 419 420 .stop .stop)) (.node 416 420 417 418 417 419 (.node 417
  420 418 419 418 419 .stop .stop) .stop))) (.node 410 420 414 416 411 419 (.node 414 420 416 418
  415 419 (.node 416 420 418 419 417 419 .stop (.node 416 419 417 418 417 418 .stop .stop)) (.node
  414 418 415 416 415 417 (.node 415 418 416 417 416 417 .stop .stop) .stop)) (.node 410 416 412
  414 411 415 (.node 412 416 414 415 413 415 .stop (.node 412 415 413 414 413 414 .stop .stop))
  (.node 410 414 411 412 411 413 (.node 411 414 412 413 412 413 .stop .stop) .stop)))) (.node 399
  416 406 410 400 415 (.node 406 416 410 412 407 415 (.node 410 416 412 414 411 415 (.node 412 416
  414 415 413 415 .stop (.node 412 415 413 414 413 414 .stop .stop)) (.node 410 414 411 412 411
  413 (.node 411 414 412 413 412 413 .stop .stop) .stop)) (.node 406 412 408 410 407 411 (.node
  408 412 410 411 409 411 .stop (.node 408 411 409 410 409 410 .stop .stop)) (.node 406 410 407
  408 407 409 (.node 407 410 408 409 408 409 .stop .stop) .stop))) (.node 399 410 403 406 400 409
  (.node 403 410 406 408 404 409 (.node 406 410 408 409 407 409 .stop (.node 406 409 407 408 407
  408 .stop .stop)) (.node 403 408 405 406 404 407 (.node 405 408 406 407 406 407 .stop .stop)
  (.node 403 406 404 405 404 405 .stop .stop))) (.node 399 406 401 403 400 405 (.node 401 406 403
  404 402 405 (.node 403 406 404 405 404 405 .stop .stop) (.node 401 404 402 403 402 403 .stop
  .stop)) (.node 399 403 400 401 400 402 (.node 400 403 401 402 401 402 .stop .stop) .stop)))))
  (.node 382 410 393 399 383 409 (.node 393 410 399 403 394 409 (.node 399 410 403 406 400 409
  (.node 403 410 406 408 404 409 (.node 406 410 408 409 407 409 .stop (.node 406 409 407 408 407
  408 .stop .stop)) (.node 403 408 405 406 404 407 (.node 405 408 406 407 406 407 .stop .stop)
  (.node 403 406 404 405 404 405 .stop .stop))) (.node 399 406 401 403 400 405 (.node 401 406 403
  404 402 405 (.node 403 406 404 405 404 405 .stop .stop) (.node 401 404 402 403 402 403 .stop
  .stop)) (.node 399 403 400 401 400 402 (.node 400 403 401 402 401 402 .stop .stop) .stop)))
  (.node 393 403 397 399 394 402 (.node 397 403 399 401 398 402 (.node 399 403 401 402 400 402
  .stop (.node 399 402 400 401 400 401 .stop .stop)) (.node 397 401 398 399 398 400 (.node 398 401
  399 400 399 400 .stop .stop) .stop)) (.node 393 399 395 397 394 398 (.node 395 399 397 398 396
  398 .stop (.node 395 398 396 397 396 397 .stop .stop)) (.node 393 397 394 395 394 396 (.node 394
  397 395 396 395 396 .stop .stop) .stop)))) (.node 382 399 389 393 383 398 (.node 389 399 393 395
  390 398 (.node 393 399 395 397 394 398 (.node 395 399 397 398 396 398 .stop (.node 395 398 396
  397 396 397 .stop .stop)) (.node 393 397 394 395 394 396 (.node 394 397 395 396 395 396 .stop
  .stop) .stop)) (.node 389 395 391 393 390 394 (.node 391 395 393 394 392 394 .stop (.node 391
  394 392 393 392 393 .stop .stop)) (.node 389 393 390 391 390 392 (.node 390 393 391 392 391 392
  .stop .stop) .stop))) (.node 382 393 386 389 383 392 (.node 386 393 389 391 387 392 (.node 389
  393 391 392 390 392 .stop (.node 389 392 390 391 390 391 .stop .stop)) (.node 386 391 388 389
  387 390 (.node 388 391 389 390 389 390 .stop .stop) (.node 386 389 387 388 387 388 .stop
  .stop))) (.node 382 389 384 386 383 388 (.node 384 389 386 387 385 388 (.node 386 389 387 388
  387 388 .stop .stop) (.node 384 387 385 386 385 386 .stop .stop)) (.node 382 386 383 384 383 385
  (.node 383 386 384 385 384 385 .stop .stop) .stop)))))))) (.node 309 427 354 382 310 426 (.node
  354 427 382 399 355 426 (.node 382 427 399 410 383 426 (.node 399 427 410 416 400 426 (.node 410
  427 416 420 411 426 (.node 416 427 420 423 417 426 (.node 420 427 423 425 421 426 (.node 423 427
  425 426 424 426 .stop (.node 423 426 424 425 424 425 .stop .stop)) (.node 420 425 422 423 421
  424 (.node 422 425 423 424 423 424 .stop .stop) (.node 420 423 421 422 421 422 .stop .stop)))
  (.node 416 423 418 420 417 422 (.node 418 423 420 421 419 422 (.node 420 423 421 422 421 422
  .stop .stop) (.node 418 421 419 420 419 420 .stop .stop)) (.node 416 420 417 418 417 419 (.node
  417 420 418 419 418 419 .stop .stop) .stop))) (.node 410 420 414 416 411 419 (.node 414 420 416
  418 415 419 (.node 416 420 418 419 417 419 .stop (.node 416 419 417 418 417 418 .stop .stop))
  (.node 414 418 415 416 415 417 (.node 415 418 416 417 416 417 .stop .stop) .stop)) (.node 410
  416 412 414 411 415 (.node 412 416 414 415 413 415 .stop (.node 412 415 413 414 413 414 .stop
  .stop)) (.node 410 414 411 412 411 413 (.node 411 414 412 413 412 413 .stop .stop) .stop))))
  (.node 399 416 406 410 400 415 (.node 406 416 410 412 407 415 (.node 410 416 412 414 411 415
  (.node 412 416 414 415 413 415 .stop (.node 412 415 413 414 413 414 .stop .stop)) (.node 410 414
  411 412 411 413 (.node 411 414 412 413 412 413 .stop .stop) .stop)) (.node 406 412 408 410 407
  411 (.node 408 412 410 411 409 411 .stop (.node 408 411 409 410 409 410 .stop .stop)) (.node 406
  410 407 408 407 409 (.node 407 410 408 409 408 409 .stop .stop) .stop))) (.node 399 410 403 406
  400 409 (.node 403 410 406 408 404 409 (.node 406 410 408 409 407 409 .stop (.node 406 409 407
  408 407 408 .stop .stop)) (.node 403 408 405 406 404 407 (.node 405 408 406 407 406 407 .stop
  .stop) (.node 403 406 404 405 404 405 .stop .stop))) (.node 399 406 401 403 400 405 (.node 401
  406 403 404 402 405 (.node 403 406 404 405 404 405 .stop .stop) (.node 401 404 402 403 402 403
  .stop .stop)) (.node 399 403 400 401 400 402 (.node 400 403 401 402 401 402 .stop .stop)
  .stop))))) (.node 382 410 393 399 383 409 (.node 393 410 399 403 394 409 (.node 399 410 403 406
  400 409 (.node 403 410 406 408 404 409 (.node 406 410 408 409 407 409 .stop (.node 406 409 407
  408 407 408 .stop .stop)) (.node 403 408 405 406 404 407 (.node 405 408 406 407 406 407 .stop
  .stop) (.node 403 406 404 405 404 405 .stop .stop))) (.node 399 406 401 403 400 405 (.node 401
  406 403 404 402 405 (.node 403 406 404 405 404 405 .stop .stop) (.node 401 404 402 403 402 403
  .stop .stop)) (.node 399 403 400 401 400 402 (.node 400 403 401 402 401 402 .stop .stop)
  .stop))) (.node 393 403 397 399 394 402 (.node 397 403 399 401 398 402 (.node 399 403 401 402
  400 402 .stop (.node 399 402 400 401 400 401 .stop .stop)) (.node 397 401 398 399 398 400 (.node
  398 401 399 400 399 400 .stop .stop) .stop)) (.node 393 399 395 397 394 398 (.node 395 399 397
  398 396 398 .stop (.node 395 398 396 397 396 397 .stop .stop)) (.node 393 397 394 395 394 396
  (.node 394 397 395 396 395 396 .stop .stop) .stop)))) (.node 382 399 389 393 383 398 (.node 389
  399 393 395 390 398 (.node 393 399 395 397 394 398 (.node 395 399 397 398 396 398 .stop (.node
  395 398 396 397 396 397 .stop .stop)) (.node 393 397 394 395 394 396 (.node 394 397 395 396 395
  396 .stop .stop) .stop)) (.node 389 395 391 393 390 394 (.node 391 395 393 394 392 394 .stop
  (.node 391 394 392 393 392 393 .stop .stop)) (.node 389 393 390 391 390 392 (.node 390 393 391
  392 391 392 .stop .stop) .stop))) (.node 382 393 386 389 383 392 (.node 386 393 389 391 387 392
  (.node 389 393 391 392 390 392 .stop (.node 389 392 390 391 390 391 .stop .stop)) (.node 386 391
  388 389 387 390 (.node 388 391 389 390 389 390 .stop .stop) (.node 386 389 387 388 387 388 .stop
  .stop))) (.node 382 389 384 386 383 388 (.node 384 389 386 387 385 388 (.node 386 389 387 388
  387 388 .stop .stop) (.node 384 387 385 386 385 386 .stop .stop)) (.node 382 386 383 384 383 385
  (.node 383 386 384 385 384 385 .stop .stop) .stop)))))) (.node 354 399 371 382 355 398 (.node
  371 399 382 388 372 398 (.node 382 399 388 392 383 398 (.node 388 399 392 395 389 398 (.node 392
  399 395 397 393 398 (.node 395 399 397 398 396 398 .stop (.node 395 398 396 397 396 397 .stop
  .stop)) (.node 392 397 394 395 393 396 (.node 394 397 395 396 395 396 .stop .stop) (.node 392
  395 393 394 393 394 .stop .stop))) (.node 388 395 390 392 389 394 (.node 390 395 392 393 391 394
  (.node 392 395 393 394 393 394 .stop .stop) (.node 390 393 391 392 391 392 .stop .stop)) (.node
  388 392 389 390 389 391 (.node 389 392 390 391 390 391 .stop .stop) .stop))) (.node 382 392 386
  388 383 391 (.node 386 392 388 390 387 391 (.node 388 392 390 391 389 391 .stop (.node 388 391
  389 390 389 390 .stop .stop)) (.node 386 390 387 388 387 389 (.node 387 390 388 389 388 389
  .stop .stop) .stop)) (.node 382 388 384 386 383 387 (.node 384 388 386 387 385 387 .stop (.node
  384 387 385 386 385 386 .stop .stop)) (.node 382 386 383 384 383 385 (.node 383 386 384 385 384
  385 .stop .stop) .stop)))) (.node 371 388 378 382 372 387 (.node 378 388 382 384 379 387 (.node
  382 388 384 386 383 387 (.node 384 388 386 387 385 387 .stop (.node 384 387 385 386 385 386
  .stop .stop)) (.node 382 386 383 384 383 385 (.node 383 386 384 385 384 385 .stop .stop) .stop))
  (.node 378 384 380 382 379 383 (.node 380 384 382 383 381 383 .stop (.node 380 383 381 382 381
  382 .stop .stop)) (.node 378 382 379 380 379 381 (.node 379 382 380 381 380 381 .stop .stop)
  .stop))) (.node 371 382 375 378 372 381 (.node 375 382 378 380 376 381 (.node 378 382 380 381
  379 381 .stop (.node 378 381 379 380 379 380 .stop .stop)) (.node 375 380 377 378 376 379 (.node
  377 380 378 379 378 379 .stop .stop) (.node 375 378 376 377 376 377 .stop .stop))) (.node 371
  378 373 375 372 377 (.node 373 378 375 376 374 377 (.node 375 378 376 377 376 377 .stop .stop)
  (.node 373 376 374 375 374 375 .stop .stop)) (.node 371 375 372 373 372 374 (.node 372 375 373
  374 373 374 .stop .stop) .stop))))) (.node 354 382 365 371 355 381 (.node 365 382 371 375 366
  381 (.node 371 382 375 378 372 381 (.node 375 382 378 380 376 381 (.node 378 382 380 381 379 381
  .stop (.node 378 381 379 380 379 380 .stop .stop)) (.node 375 380 377 378 376 379 (.node 377 380
  378 379 378 379 .stop .stop) (.node 375 378 376 377 376 377 .stop .stop))) (.node 371 378 373
  375 372 377 (.node 373 378 375 376 374 377 (.node 375 378 376 377 376 377 .stop .stop) (.node
  373 376 374 375 374 375 .stop .stop)) (.node 371 375 372 373 372 374 (.node 372 375 373 374 373
  374 .stop .stop) .stop))) (.node 365 375 369 371 366 374 (.node 369 375 371 373 370 374 (.node
  371 375 373 374 372 374 .stop (.node 371 374 372 373 372 373 .stop .stop)) (.node 369 373 370
  371 370 372 (.node 370 373 371 372 371 372 .stop .stop) .stop)) (.node 365 371 367 369 366 370
  (.node 367 371 369 370 368 370 .stop (.node 367 370 368 369 368 369 .stop .stop)) (.node 365 369
  366 367 366 368 (.node 366 369 367 368 367 368 .stop .stop) .stop)))) (.node 354 371 361 365 355
  370 (.node 361 371 365 367 362 370 (.node 365 371 367 369 366 370 (.node 367 371 369 370 368 370
  .stop (.node 367 370 368 369 368 369 .stop .stop)) (.node 365 369 366 367 366 368 (.node 366 369
  367 368 367 368 .stop .stop) .stop)) (.node 361 367 363 365 362 366 (.node 363 367 365 366 364
  366 .stop (.node 363 366 364 365 364 365 .stop .stop)) (.node 361 365 362 363 362 364 (.node 362
  365 363 364 363 364 .stop .stop) .stop))) (.node 354 365 358 361 355 364 (.node 358 365 361 363
  359 364 (.node 361 365 363 364 362 364 .stop (.node 361 364 362 363 362 363 .stop .stop)) (.node
  358 363 360 361 359 362 (.node 360 363 361 362 361 362 .stop .stop) (.node 358 361 359 360 359
  360 .stop .stop))) (.node 354 361 356 358 355 360 (.node 356 361 358 359 357 360 (.node 358 361
  359 360 359 360 .stop .stop) (.node 356 359 357 358 357 358 .stop .stop)) (.node 354 358 355 356
  355 357 (.node 355 358 356 357 356 357 .stop .stop) .stop))))))) (.node 309 382 337 354 310 381
  (.node 337 382 354 365 338 381 (.node 354 382 365 371 355 381 (.node 365 382 371 375 366 381
  (.node 371 382 375 378 372 381 (.node 375 382 378 380 376 381 (.node 378 382 380 381 379 381
  .stop (.node 378 381 379 380 379 380 .stop .stop)) (.node 375 380 377 378 376 379 (.node 377 380
  378 379 378 379 .stop .stop) (.node 375 378 376 377 376 377 .stop .stop))) (.node 371 378 373
  375 372 377 (.node 373 378 375 376 374 377 (.node 375 378 376 377 376 377 .stop .stop) (.node
  373 376 374 375 374 375 .stop .stop)) (.node 371 375 372 373 372 374 (.node 372 375 373 374 373
  374 .stop .stop) .stop))) (.node 365 375 369 371 366 374 (.node 369 375 371 373 370 374 (.node
  371 375 373 374 372 374 .stop (.node 371 374 372 373 372 373 .stop .stop)) (.node 369 373 370
  371 370 372 (.node 370 373 371 372 371 372 .stop .stop) .stop)) (.node 365 371 367 369 366 370
  (.node 367 371 369 370 368 370 .stop (.node 367 370 368 369 368 369 .stop .stop)) (.node 365 369
  366 367 366 368 (.node 366 369 367 368 367 368 .stop .stop) .stop)))) (.node 354 371 361 365 355
  370 (.node 361 371 365 367 362 370 (.node 365 371 367 369 366 370 (.node 367 371 369 370 368 370
  .stop (.node 367 370 368 369 368 369 .stop .stop)) (.node 365 369 366 367 366 368 (.node 366 369
  367 368 367 368 .stop .stop) .stop)) (.node 361 367 363 365 362 366 (.node 363 367 365 366 364
  366 .stop (.node 363 366 364 365 364 365 .stop .stop)) (.node 361 365 362 363 362 364 (.node 362
  365 363 364 363 364 .stop .stop) .stop))) (.node 354 365 358 361 355 364 (.node 358 365 361 363
  359 364 (.node 361 365 363 364 362 364 .stop (.node 361 364 362 363 362 363 .stop .stop)) (.node
  358 363 360 361 359 362 (.node 360 363 361 362 361 362 .stop .stop) (.node 358 361 359 360 359
  360 .stop .stop))) (.node 354 361 356 358 355 360 (.node 356 361 358 359 357 360 (.node 358 361
  359 360 359 360 .stop .stop) (.node 356 359 357 358 357 358 .stop .stop)) (.node 354 358 355 356
  355 357 (.node 355 358 356 357 356 357 .stop .stop) .stop))))) (.node 337 365 348 354 338 364
  (.node 348 365 354 358 349 364 (.node 354 365 358 361 355 364 (.node 358 365 361 363 359 364
  (.node 361 365 363 364 362 364 .stop (.node 361 364 362 363 362 363 .stop .stop)) (.node 358 363
  360 361 359 362 (.node 360 363 361 362 361 362 .stop .stop) (.node 358 361 359 360 359 360 .stop
  .stop))) (.node 354 361 356 358 355 360 (.node 356 361 358 359 357 360 (.node 358 361 359 360
  359 360 .stop .stop) (.node 356 359 357 358 357 358 .stop .stop)) (.node 354 358 355 356 355 357
  (.node 355 358 356 357 356 357 .stop .stop) .stop))) (.node 348 358 352 354 349 357 (.node 352
  358 354 356 353 357 (.node 354 358 356 357 355 357 .stop (.node 354 357 355 356 355 356 .stop
  .stop)) (.node 352 356 353 354 353 355 (.node 353 356 354 355 354 355 .stop .stop) .stop))
  (.node 348 354 350 352 349 353 (.node 350 354 352 353 351 353 .stop (.node 350 353 351 352 351
  352 .stop .stop)) (.node 348 352 349 350 349 351 (.node 349 352 350 351 350 351 .stop .stop)
  .stop)))) (.node 337 354 344 348 338 353 (.node 344 354 348 350 345 353 (.node 348 354 350 352
  349 353 (.node 350 354 352 353 351 353 .stop (.node 350 353 351 352 351 352 .stop .stop)) (.node
  348 352 349 350 349 351 (.node 349 352 350 351 350 351 .stop .stop) .stop)) (.node 344 350 346
  348 345 349 (.node 346 350 348 349 347 349 .stop (.node 346 349 347 348 347 348 .stop .stop))
  (.node 344 348 345 346 345 347 (.node 345 348 346 347 346 347 .stop .stop) .stop))) (.node 337
  348 341 344 338 347 (.node 341 348 344 346 342 347 (.node 344 348 346 347 345 347 .stop (.node
  344 347 345 346 345 346 .stop .stop)) (.node 341 346 343 344 342 345 (.node 343 346 344 345 344
  345 .stop .stop) (.node 341 344 342 343 342 343 .stop .stop))) (.node 337 344 339 341 338 343
  (.node 339 344 341 342 340 343 (.node 341 344 342 343 342 343 .stop .stop) (.node 339 342 340
  341 340 341 .stop .stop)) (.node 337 341 338 339 338 340 (.node 338 341 339 340 339 340 .stop
  .stop) .stop)))))) (.node 309 354 326 337 310 353 (.node 326 354 337 343 327 353 (.node 337 354
  343 347 338 353 (.node 343 354 347 350 344 353 (.node 347 354 350 352 348 353 (.node 350 354 352
  353 351 353 .stop (.node 350 353 351 352 351 352 .stop .stop)) (.node 347 352 349 350 348 351
  (.node 349 352 350 351 350 351 .stop .stop) (.node 347 350 348 349 348 349 .stop .stop))) (.node
  343 350 345 347 344 349 (.node 345 350 347 348 346 349 (.node 347 350 348 349 348 349 .stop
  .stop) (.node 345 348 346 347 346 347 .stop .stop)) (.node 343 347 344 345 344 346 (.node 344
  347 345 346 345 346 .stop .stop) .stop))) (.node 337 347 341 343 338 346 (.node 341 347 343 345
  342 346 (.node 343 347 345 346 344 346 .stop (.node 343 346 344 345 344 345 .stop .stop)) (.node
  341 345 342 343 342 344 (.node 342 345 343 344 343 344 .stop .stop) .stop)) (.node 337 343 339
  341 338 342 (.node 339 343 341 342 340 342 .stop (.node 339 342 340 341 340 341 .stop .stop))
  (.node 337 341 338 339 338 340 (.node 338 341 339 340 339 340 .stop .stop) .stop)))) (.node 326
  343 333 337 327 342 (.node 333 343 337 339 334 342 (.node 337 343 339 341 338 342 (.node 339 343
  341 342 340 342 .stop (.node 339 342 340 341 340 341 .stop .stop)) (.node 337 341 338 339 338
  340 (.node 338 341 339 340 339 340 .stop .stop) .stop)) (.node 333 339 335 337 334 338 (.node
  335 339 337 338 336 338 .stop (.node 335 338 336 337 336 337 .stop .stop)) (.node 333 337 334
  335 334 336 (.node 334 337 335 336 335 336 .stop .stop) .stop))) (.node 326 337 330 333 327 336
  (.node 330 337 333 335 331 336 (.node 333 337 335 336 334 336 .stop (.node 333 336 334 335 334
  335 .stop .stop)) (.node 330 335 332 333 331 334 (.node 332 335 333 334 333 334 .stop .stop)
  (.node 330 333 331 332 331 332 .stop .stop))) (.node 326 333 328 330 327 332 (.node 328 333 330
  331 329 332 (.node 330 333 331 332 331 332 .stop .stop) (.node 328 331 329 330 329 330 .stop
  .stop)) (.node 326 330 327 328 327 329 (.node 327 330 328 329 328 329 .stop .stop) .stop)))))
  (.node 309 337 320 326 310 336 (.node 320 337 326 330 321 336 (.node 326 337 330 333 327 336
  (.node 330 337 333 335 331 336 (.node 333 337 335 336 334 336 .stop (.node 333 336 334 335 334
  335 .stop .stop)) (.node 330 335 332 333 331 334 (.node 332 335 333 334 333 334 .stop .stop)
  (.node 330 333 331 332 331 332 .stop .stop))) (.node 326 333 328 330 327 332 (.node 328 333 330
  331 329 332 (.node 330 333 331 332 331 332 .stop .stop) (.node 328 331 329 330 329 330 .stop
  .stop)) (.node 326 330 327 328 327 329 (.node 327 330 328 329 328 329 .stop .stop) .stop)))
  (.node 320 330 324 326 321 329 (.node 324 330 326 328 325 329 (.node 326 330 328 329 327 329
  .stop (.node 326 329 327 328 327 328 .stop .stop)) (.node 324 328 325 326 325 327 (.node 325 328
  326 327 326 327 .stop .stop) .stop)) (.node 320 326 322 324 321 325 (.node 322 326 324 325 323
  325 .stop (.node 322 325 323 324 323 324 .stop .stop)) (.node 320 324 321 322 321 323 (.node 321
  324 322 323 322 323 .stop .stop) .stop)))) (.node 309 326 316 320 310 325 (.node 316 326 320 322
  317 325 (.node 320 326 322 324 321 325 (.node 322 326 324 325 323 325 .stop (.node 322 325 323
  324 323 324 .stop .stop)) (.node 320 324 321 322 321 323 (.node 321 324 322 323 322 323 .stop
  .stop) .stop)) (.node 316 322 318 320 317 321 (.node 318 322 320 321 319 321 .stop (.node 318
  321 319 320 319 320 .stop .stop)) (.node 316 320 317 318 317 319 (.node 317 320 318 319 318 319
  .stop .stop) .stop))) (.node 309 320 313 316 310 319 (.node 313 320 316 318 314 319 (.node 316
  320 318 319 317 319 .stop (.node 316 319 317 318 317 318 .stop .stop)) (.node 313 318 315 316
  314 317 (.node 315 318 316 317 316 317 .stop .stop) (.node 313 316 314 315 314 315 .stop
  .stop))) (.node 309 316 311 313 310 315 (.node 311 316 313 314 312 315 (.node 313 316 314 315
  314 315 .stop .stop) (.node 311 314 312 313 312 313 .stop .stop)) (.node 309 313 310 311 310 312
  (.node 310 313 311 312 311 312 .stop .stop) .stop))))))))) (.node 191 382 264 309 192 381 (.node
  264 382 309 337 265 381 (.node 309 382 337 354 310 381 (.node 337 382 354 365 338 381 (.node 354
  382 365 371 355 381 (.node 365 382 371 375 366 381 (.node 371 382 375 378 372 381 (.node 375 382
  378 380 376 381 (.node 378 382 380 381 379 381 .stop (.node 378 381 379 380 379 380 .stop
  .stop)) (.node 375 380 377 378 376 379 (.node 377 380 378 379 378 379 .stop .stop) (.node 375
  378 376 377 376 377 .stop .stop))) (.node 371 378 373 375 372 377 (.node 373 378 375 376 374 377
  (.node 375 378 376 377 376 377 .stop .stop) (.node 373 376 374 375 374 375 .stop .stop)) (.node
  371 375 372 373 372 374 (.node 372 375 373 374 373 374 .stop .stop) .stop))) (.node 365 375 369
  371 366 374 (.node 369 375 371 373 370 374 (.node 371 375 373 374 372 374 .stop (.node 371 374
  372 373 372 373 .stop .stop)) (.node 369 373 370 371 370 372 (.node 370 373 371 372 371 372
  .stop .stop) .stop)) (.node 365 371 367 369 366 370 (.node 367 371 369 370 368 370 .stop (.node
  367 370 368 369 368 369 .stop .stop)) (.node 365 369 366 367 366 368 (.node 366 369 367 368 367
  368 .stop .stop) .stop)))) (.node 354 371 361 365 355 370 (.node 361 371 365 367 362 370 (.node
  365 371 367 369 366 370 (.node 367 371 369 370 368 370 .stop (.node 367 370 368 369 368 369
  .stop .stop)) (.node 365 369 366 367 366 368 (.node 366 369 367 368 367 368 .stop .stop) .stop))
  (.node 361 367 363 365 362 366 (.node 363 367 365 366 364 366 .stop (.node 363 366 364 365 364
  365 .stop .stop)) (.node 361 365 362 363 362 364 (.node 362 365 363 364 363 364 .stop .stop)
  .stop))) (.node 354 365 358 361 355 364 (.node 358 365 361 363 359 364 (.node 361 365 363 364
  362 364 .stop (.node 361 364 362 363 362 363 .stop .stop)) (.node 358 363 360 361 359 362 (.node
  360 363 361 362 361 362 .stop .stop) (.node 358 361 359 360 359 360 .stop .stop))) (.node 354
  361 356 358 355 360 (.node 356 361 358 359 357 360 (.node 358 361 359 360 359 360 .stop .stop)
  (.node 356 359 357 358 357 358 .stop .stop)) (.node 354 358 355 356 355 357 (.node 355 358 356
  357 356 357 .stop .stop) .stop))))) (.node 337 365 348 354 338 364 (.node 348 365 354 358 349
  364 (.node 354 365 358 361 355 364 (.node 358 365 361 363 359 364 (.node 361 365 363 364 362 364
  .stop (.node 361 364 362 363 362 363 .stop .stop)) (.node 358 363 360 361 359 362 (.node 360 363
  361 362 361 362 .stop .stop) (.node 358 361 359 360 359 360 .stop .stop))) (.node 354 361 356
  358 355 360 (.node 356 361 358 359 357 360 (.node 358 361 359 360 359 360 .stop .stop) (.node
  356 359 357 358 357 358 .stop .stop)) (.node 354 358 355 356 355 357 (.node 355 358 356 357 356
  357 .stop .stop) .stop))) (.node 348 358 352 354 349 357 (.node 352 358 354 356 353 357 (.node
  354 358 356 357 355 357 .stop (.node 354 357 355 356 355 356 .stop .stop)) (.node 352 356 353
  354 353 355 (.node 353 356 354 355 354 355 .stop .stop) .stop)) (.node 348 354 350 352 349 353
  (.node 350 354 352 353 351 353 .stop (.node 350 353 351 352 351 352 .stop .stop)) (.node 348 352
  349 350 349 351 (.node 349 352 350 351 350 351 .stop .stop) .stop)))) (.node 337 354 344 348 338
  353 (.node 344 354 348 350 345 353 (.node 348 354 350 352 349 353 (.node 350 354 352 353 351 353
  .stop (.node 350 353 351 352 351 352 .stop .stop)) (.node 348 352 349 350 349 351 (.node 349 352
  350 351 350 351 .stop .stop) .stop)) (.node 344 350 346 348 345 349 (.node 346 350 348 349 347
  349 .stop (.node 346 349 347 348 347 348 .stop .stop)) (.node 344 348 345 346 345 347 (.node 345
  348 346 347 346 347 .stop .stop) .stop))) (.node 337 348 341 344 338 347 (.node 341 348 344 346
  342 347 (.node 344 348 346 347 345 347 .stop (.node 344 347 345 346 345 346 .stop .stop)) (.node
  341 346 343 344 342 345 (.node 343 346 344 345 344 345 .stop .stop) (.node 341 344 342 343 342
  343 .stop .stop))) (.node 337 344 339 341 338 343 (.node 339 344 341 342 340 343 (.node 341 344
  342 343 342 343 .stop .stop) (.node 339 342 340 341 340 341 .stop .stop)) (.node 337 341 338 339
  338 340 (.node 338 341 339 340 339 340 .stop .stop) .stop)))))) (.node 309 354 326 337 310 353
  (.node 326 354 337 343 327 353 (.node 337 354 343 347 338 353 (.node 343 354 347 350 344 353
  (.node 347 354 350 352 348 353 (.node 350 354 352 353 351 353 .stop (.node 350 353 351 352 351
  352 .stop .stop)) (.node 347 352 349 350 348 351 (.node 349 352 350 351 350 351 .stop .stop)
  (.node 347 350 348 349 348 349 .stop .stop))) (.node 343 350 345 347 344 349 (.node 345 350 347
  348 346 349 (.node 347 350 348 349 348 349 .stop .stop) (.node 345 348 346 347 346 347 .stop
  .stop)) (.node 343 347 344 345 344 346 (.node 344 347 345 346 345 346 .stop .stop) .stop)))
  (.node 337 347 341 343 338 346 (.node 341 347 343 345 342 346 (.node 343 347 345 346 344 346
  .stop (.node 343 346 344 345 344 345 .stop .stop)) (.node 341 345 342 343 342 344 (.node 342 345
  343 344 343 344 .stop .stop) .stop)) (.node 337 343 339 341 338 342 (.node 339 343 341 342 340
  342 .stop (.node 339 342 340 341 340 341 .stop .stop)) (.node 337 341 338 339 338 340 (.node 338
  341 339 340 339 340 .stop .stop) .stop)))) (.node 326 343 333 337 327 342 (.node 333 343 337 339
  334 342 (.node 337 343 339 341 338 342 (.node 339 343 341 342 340 342 .stop (.node 339 342 340
  341 340 341 .stop .stop)) (.node 337 341 338 339 338 340 (.node 338 341 339 340 339 340 .stop
  .stop) .stop)) (.node 333 339 335 337 334 338 (.node 335 339 337 338 336 338 .stop (.node 335
  338 336 337 336 337 .stop .stop)) (.node 333 337 334 335 334 336 (.node 334 337 335 336 335 336
  .stop .stop) .stop))) (.node 326 337 330 333 327 336 (.node 330 337 333 335 331 336 (.node 333
  337 335 336 334 336 .stop (.node 333 336 334 335 334 335 .stop .stop)) (.node 330 335 332 333
  331 334 (.node 332 335 333 334 333 334 .stop .stop) (.node 330 333 331 332 331 332 .stop
  .stop))) (.node 326 333 328 330 327 332 (.node 328 333 330 331 329 332 (.node 330 333 331 332
  331 332 .stop .stop) (.node 328 331 329 330 329 330 .stop .stop)) (.node 326 330 327 328 327 329
  (.node 327 330 328 329 328 329 .stop .stop) .stop))))) (.node 309 337 320 326 310 336 (.node 320
  337 326 330 321 336 (.node 326 337 330 333 327 336 (.node 330 337 333 335 331 336 (.node 333 337
  335 336 334 336 .stop (.node 333 336 334 335 334 335 .stop .stop)) (.node 330 335 332 333 331
  334 (.node 332 335 333 334 333 334 .stop .stop) (.node 330 333 331 332 331 332 .stop .stop)))
  (.node 326 333 328 330 327 332 (.node 328 333 330 331 329 332 (.node 330 333 331 332 331 332
  .stop .stop) (.node 328 331 329 330 329 330 .stop .stop)) (.node 326 330 327 328 327 329 (.node
  327 330 328 329 328 329 .stop .stop) .stop))) (.node 320 330 324 326 321 329 (.node 324 330 326
  328 325 329 (.node 326 330 328 329 327 329 .stop (.node 326 329 327 328 327 328 .stop .stop))
  (.node 324 328 325 326 325 327 (.node 325 328 326 327 326 327 .stop .stop) .stop)) (.node 320
  326 322 324 321 325 (.node 322 326 324 325 323 325 .stop (.node 322 325 323 324 323 324 .stop
  .stop)) (.node 320 324 321 322 321 323 (.node 321 324 322 323 322 323 .stop .stop) .stop))))
  (.node 309 326 316 320 310 325 (.node 316 326 320 322 317 325 (.node 320 326 322 324 321 325
  (.node 322 326 324 325 323 325 .stop (.node 322 325 323 324 323 324 .stop .stop)) (.node 320 324
  321 322 321 323 (.node 321 324 322 323 322 323 .stop .stop) .stop)) (.node 316 322 318 320 317
  321 (.node 318 322 320 321 319 321 .stop (.node 318 321 319 320 319 320 .stop .stop)) (.node 316
  320 317 318 317 319 (.node 317 320 318 319 318 319 .stop .stop) .stop))) (.node 309 320 313 316
  310 319 (.node 313 320 316 318 314 319 (.node 316 320 318 319 317 319 .stop (.node 316 319 317
  318 317 318 .stop .stop)) (.node 313 318 315 316 314 317 (.node 315 318 316 317 316 317 .stop
  .stop) (.node 313 316 314 315 314 315 .stop .stop))) (.node 309 316 311 313 310 315 (.node 311
  316 313 314 312 315 (.node 313 316 314 315 314 315 .stop .stop) (.node 311 314 312 313 312 313
  .stop .stop)) (.node 309 313 310 311 310 312 (.node 310 313 311 312 311 312 .stop .stop)
  .stop))))))) (.node 264 337 292 309 265 336 (.node 292 337 309 320 293 336 (.node 309 337 320
  326 310 336 (.node 320 337 326 330 321 336 (.node 326 337 330 333 327 336 (.node 330 337 333 335
  331 336 (.node 333 337 335 336 334 336 .stop (.node 333 336 334 335 334 335 .stop .stop)) (.node
  330 335 332 333 331 334 (.node 332 335 333 334 333 334 .stop .stop) (.node 330 333 331 332 331
  332 .stop .stop))) (.node 326 333 328 330 327 332 (.node 328 333 330 331 329 332 (.node 330 333
  331 332 331 332 .stop .stop) (.node 328 331 329 330 329 330 .stop .stop)) (.node 326 330 327 328
  327 329 (.node 327 330 328 329 328 329 .stop .stop) .stop))) (.node 320 330 324 326 321 329
  (.node 324 330 326 328 325 329 (.node 326 330 328 329 327 329 .stop (.node 326 329 327 328 327
  328 .stop .stop)) (.node 324 328 325 326 325 327 (.node 325 328 326 327 326 327 .stop .stop)
  .stop)) (.node 320 326 322 324 321 325 (.node 322 326 324 325 323 325 .stop (.node 322 325 323
  324 323 324 .stop .stop)) (.node 320 324 321 322 321 323 (.node 321 324 322 323 322 323 .stop
  .stop) .stop)))) (.node 309 326 316 320 310 325 (.node 316 326 320 322 317 325 (.node 320 326
  322 324 321 325 (.node 322 326 324 325 323 325 .stop (.node 322 325 323 324 323 324 .stop
  .stop)) (.node 320 324 321 322 321 323 (.node 321 324 322 323 322 323 .stop .stop) .stop))
  (.node 316 322 318 320 317 321 (.node 318 322 320 321 319 321 .stop (.node 318 321 319 320 319
  320 .stop .stop)) (.node 316 320 317 318 317 319 (.node 317 320 318 319 318 319 .stop .stop)
  .stop))) (.node 309 320 313 316 310 319 (.node 313 320 316 318 314 319 (.node 316 320 318 319
  317 319 .stop (.node 316 319 317 318 317 318 .stop .stop)) (.node 313 318 315 316 314 317 (.node
  315 318 316 317 316 317 .stop .stop) (.node 313 316 314 315 314 315 .stop .stop))) (.node 309
  316 311 313 310 315 (.node 311 316 313 314 312 315 (.node 313 316 314 315 314 315 .stop .stop)
  (.node 311 314 312 313 312 313 .stop .stop)) (.node 309 313 310 311 310 312 (.node 310 313 311
  312 311 312 .stop .stop) .stop))))) (.node 292 320 303 309 293 319 (.node 303 320 309 313 304
  319 (.node 309 320 313 316 310 319 (.node 313 320 316 318 314 319 (.node 316 320 318 319 317 319
  .stop (.node 316 319 317 318 317 318 .stop .stop)) (.node 313 318 315 316 314 317 (.node 315 318
  316 317 316 317 .stop .stop) (.node 313 316 314 315 314 315 .stop .stop))) (.node 309 316 311
  313 310 315 (.node 311 316 313 314 312 315 (.node 313 316 314 315 314 315 .stop .stop) (.node
  311 314 312 313 312 313 .stop .stop)) (.node 309 313 310 311 310 312 (.node 310 313 311 312 311
  312 .stop .stop) .stop))) (.node 303 313 307 309 304 312 (.node 307 313 309 311 308 312 (.node
  309 313 311 312 310 312 .stop (.node 309 312 310 311 310 311 .stop .stop)) (.node 307 311 308
  309 308 310 (.node 308 311 309 310 309 310 .stop .stop) .stop)) (.node 303 309 305 307 304 308
  (.node 305 309 307 308 306 308 .stop (.node 305 308 306 307 306 307 .stop .stop)) (.node 303 307
  304 305 304 306 (.node 304 307 305 306 305 306 .stop .stop) .stop)))) (.node 292 309 299 303 293
  308 (.node 299 309 303 305 300 308 (.node 303 309 305 307 304 308 (.node 305 309 307 308 306 308
  .stop (.node 305 308 306 307 306 307 .stop .stop)) (.node 303 307 304 305 304 306 (.node 304 307
  305 306 305 306 .stop .stop) .stop)) (.node 299 305 301 303 300 304 (.node 301 305 303 304 302
  304 .stop (.node 301 304 302 303 302 303 .stop .stop)) (.node 299 303 300 301 300 302 (.node 300
  303 301 302 301 302 .stop .stop) .stop))) (.node 292 303 296 299 293 302 (.node 296 303 299 301
  297 302 (.node 299 303 301 302 300 302 .stop (.node 299 302 300 301 300 301 .stop .stop)) (.node
  296 301 298 299 297 300 (.node 298 301 299 300 299 300 .stop .stop) (.node 296 299 297 298 297
  298 .stop .stop))) (.node 292 299 294 296 293 298 (.node 294 299 296 297 295 298 (.node 296 299
  297 298 297 298 .stop .stop) (.node 294 297 295 296 295 296 .stop .stop)) (.node 292 296 293 294
  293 295 (.node 293 296 294 295 294 295 .stop .stop) .stop)))))) (.node 264 309 281 292 265 308
  (.node 281 309 292 298 282 308 (.node 292 309 298 302 293 308 (.node 298 309 302 305 299 308
  (.node 302 309 305 307 303 308 (.node 305 309 307 308 306 308 .stop (.node 305 308 306 307 306
  307 .stop .stop)) (.node 302 307 304 305 303 306 (.node 304 307 305 306 305 306 .stop .stop)
  (.node 302 305 303 304 303 304 .stop .stop))) (.node 298 305 300 302 299 304 (.node 300 305 302
  303 301 304 (.node 302 305 303 304 303 304 .stop .stop) (.node 300 303 301 302 301 302 .stop
  .stop)) (.node 298 302 299 300 299 301 (.node 299 302 300 301 300 301 .stop .stop) .stop)))
  (.node 292 302 296 298 293 301 (.node 296 302 298 300 297 301 (.node 298 302 300 301 299 301
  .stop (.node 298 301 299 300 299 300 .stop .stop)) (.node 296 300 297 298 297 299 (.node 297 300
  298 299 298 299 .stop .stop) .stop)) (.node 292 298 294 296 293 297 (.node 294 298 296 297 295
  297 .stop (.node 294 297 295 296 295 296 .stop .stop)) (.node 292 296 293 294 293 295 (.node 293
  296 294 295 294 295 .stop .stop) .stop)))) (.node 281 298 288 292 282 297 (.node 288 298 292 294
  289 297 (.node 292 298 294 296 293 297 (.node 294 298 296 297 295 297 .stop (.node 294 297 295
  296 295 296 .stop .stop)) (.node 292 296 293 294 293 295 (.node 293 296 294 295 294 295 .stop
  .stop) .stop)) (.node 288 294 290 292 289 293 (.node 290 294 292 293 291 293 .stop (.node 290
  293 291 292 291 292 .stop .stop)) (.node 288 292 289 290 289 291 (.node 289 292 290 291 290 291
  .stop .stop) .stop))) (.node 281 292 285 288 282 291 (.node 285 292 288 290 286 291 (.node 288
  292 290 291 289 291 .stop (.node 288 291 289 290 289 290 .stop .stop)) (.node 285 290 287 288
  286 289 (.node 287 290 288 289 288 289 .stop .stop) (.node 285 288 286 287 286 287 .stop
  .stop))) (.node 281 288 283 285 282 287 (.node 283 288 285 286 284 287 (.node 285 288 286 287
  286 287 .stop .stop) (.node 283 286 284 285 284 285 .stop .stop)) (.node 281 285 282 283 282 284
  (.node 282 285 283 284 283 284 .stop .stop) .stop))))) (.node 264 292 275 281 265 291 (.node 275
  292 281 285 276 291 (.node 281 292 285 288 282 291 (.node 285 292 288 290 286 291 (.node 288 292
  290 291 289 291 .stop (.node 288 291 289 290 289 290 .stop .stop)) (.node 285 290 287 288 286
  289 (.node 287 290 288 289 288 289 .stop .stop) (.node 285 288 286 287 286 287 .stop .stop)))
  (.node 281 288 283 285 282 287 (.node 283 288 285 286 284 287 (.node 285 288 286 287 286 287
  .stop .stop) (.node 283 286 284 285 284 285 .stop .stop)) (.node 281 285 282 283 282 284 (.node
  282 285 283 284 283 284 .stop .stop) .stop))) (.node 275 285 279 281 276 284 (.node 279 285 281
  283 280 284 (.node 281 285 283 284 282 284 .stop (.node 281 284 282 283 282 283 .stop .stop))
  (.node 279 283 280 281 280 282 (.node 280 283 281 282 281 282 .stop .stop) .stop)) (.node 275
  281 277 279 276 280 (.node 277 281 279 280 278 280 .stop (.node 277 280 278 279 278 279 .stop
  .stop)) (.node 275 279 276 277 276 278 (.node 276 279 277 278 277 278 .stop .stop) .stop))))
  (.node 264 281 271 275 265 280 (.node 271 281 275 277 272 280 (.node 275 281 277 279 276 280
  (.node 277 281 279 280 278 280 .stop (.node 277 280 278 279 278 279 .stop .stop)) (.node 275 279
  276 277 276 278 (.node 276 279 277 278 277 278 .stop .stop) .stop)) (.node 271 277 273 275 272
  276 (.node 273 277 275 276 274 276 .stop (.node 273 276 274 275 274 275 .stop .stop)) (.node 271
  275 272 273 272 274 (.node 272 275 273 274 273 274 .stop .stop) .stop))) (.node 264 275 268 271
  265 274 (.node 268 275 271 273 269 274 (.node 271 275 273 274 272 274 .stop (.node 271 274 272
  273 272 273 .stop .stop)) (.node 268 273 270 271 269 272 (.node 270 273 271 272 271 272 .stop
  .stop) (.node 268 271 269 270 269 270 .stop .stop))) (.node 264 271 266 268 265 270 (.node 266
  271 268 269 267 270 (.node 268 271 269 270 269 270 .stop .stop) (.node 266 269 267 268 267 268
  .stop .stop)) (.node 264 268 265 266 265 267 (.node 265 268 266 267 266 267 .stop .stop)
  .stop)))))))) (.node 191 309 236 264 192 308 (.node 236 309 264 281 237 308 (.node 264 309 281
  292 265 308 (.node 281 309 292 298 282 308 (.node 292 309 298 302 293 308 (.node 298 309 302 305
  299 308 (.node 302 309 305 307 303 308 (.node 305 309 307 308 306 308 .stop (.node 305 308 306
  307 306 307 .stop .stop)) (.node 302 307 304 305 303 306 (.node 304 307 305 306 305 306 .stop
  .stop) (.node 302 305 303 304 303 304 .stop .stop))) (.node 298 305 300 302 299 304 (.node 300
  305 302 303 301 304 (.node 302 305 303 304 303 304 .stop .stop) (.node 300 303 301 302 301 302
  .stop .stop)) (.node 298 302 299 300 299 301 (.node 299 302 300 301 300 301 .stop .stop)
  .stop))) (.node 292 302 296 298 293 301 (.node 296 302 298 300 297 301 (.node 298 302 300 301
  299 301 .stop (.node 298 301 299 300 299 300 .stop .stop)) (.node 296 300 297 298 297 299 (.node
  297 300 298 299 298 299 .stop .stop) .stop)) (.node 292 298 294 296 293 297 (.node 294 298 296
  297 295 297 .stop (.node 294 297 295 296 295 296 .stop .stop)) (.node 292 296 293 294 293 295
  (.node 293 296 294 295 294 295 .stop .stop) .stop)))) (.node 281 298 288 292 282 297 (.node 288
  298 292 294 289 297 (.node 292 298 294 296 293 297 (.node 294 298 296 297 295 297 .stop (.node
  294 297 295 296 295 296 .stop .stop)) (.node 292 296 293 294 293 295 (.node 293 296 294 295 294
  295 .stop .stop) .stop)) (.node 288 294 290 292 289 293 (.node 290 294 292 293 291 293 .stop
  (.node 290 293 291 292 291 292 .stop .stop)) (.node 288 292 289 290 289 291 (.node 289 292 290
  291 290 291 .stop .stop) .stop))) (.node 281 292 285 288 282 291 (.node 285 292 288 290 286 291
  (.node 288 292 290 291 289 291 .stop (.node 288 291 289 290 289 290 .stop .stop)) (.node 285 290
  287 288 286 289 (.node 287 290 288 289 288 289 .stop .stop) (.node 285 288 286 287 286 287 .stop
  .stop))) (.node 281 288 283 285 282 287 (.node 283 288 285 286 284 287 (.node 285 288 286 287
  286 287 .stop .stop) (.node 283 286 284 285 284 285 .stop .stop)) (.node 281 285 282 283 282 284
  (.node 282 285 283 284 283 284 .stop .stop) .stop))))) (.node 264 292 275 281 265 291 (.node 275
  292 281 285 276 291 (.node 281 292 285 288 282 291 (.node 285 292 288 290 286 291 (.node 288 292
  290 291 289 291 .stop (.node 288 291 289 290 289 290 .stop .stop)) (.node 285 290 287 288 286
  289 (.node 287 290 288 289 288 289 .stop .stop) (.node 285 288 286 287 286 287 .stop .stop)))
  (.node 281 288 283 285 282 287 (.node 283 288 285 286 284 287 (.node 285 288 286 287 286 287
  .stop .stop) (.node 283 286 284 285 284 285 .stop .stop)) (.node 281 285 282 283 282 284 (.node
  282 285 283 284 283 284 .stop .stop) .stop))) (.node 275 285 279 281 276 284 (.node 279 285 281
  283 280 284 (.node 281 285 283 284 282 284 .stop (.node 281 284 282 283 282 283 .stop .stop))
  (.node 279 283 280 281 280 282 (.node 280 283 281 282 281 282 .stop .stop) .stop)) (.node 275
  281 277 279 276 280 (.node 277 281 279 280 278 280 .stop (.node 277 280 278 279 278 279 .stop
  .stop)) (.node 275 279 276 277 276 278 (.node 276 279 277 278 277 278 .stop .stop) .stop))))
  (.node 264 281 271 275 265 280 (.node 271 281 275 277 272 280 (.node 275 281 277 279 276 280
  (.node 277 281 279 280 278 280 .stop (.node 277 280 278 279 278 279 .stop .stop)) (.node 275 279
  276 277 276 278 (.node 276 279 277 278 277 278 .stop .stop) .stop)) (.node 271 277 273 275 272
  276 (.node 273 277 275 276 274 276 .stop (.node 273 276 274 275 274 275 .stop .stop)) (.node 271
  275 272 273 272 274 (.node 272 275 273 274 273 274 .stop .stop) .stop))) (.node 264 275 268 271
  265 274 (.node 268 275 271 273 269 274 (.node 271 275 273 274 272 274 .stop (.node 271 274 272
  273 272 273 .stop .stop)) (.node 268 273 270 271 269 272 (.node 270 273 271 272 271 272 .stop
  .stop) (.node 268 271 269 270 269 270 .stop .stop))) (.node 264 271 266 268 265 270 (.node 266
  271 268 269 267 270 (.node 268 271 269 270 269 270 .stop .stop) (.node 266 269 267 268 267 268
  .stop .stop)) (.node 264 268 265 266 265 267 (.node 265 268 266 267 266 267 .stop .stop)
  .stop)))))) (.node 236 281 253 264 237 280 (.node 253 281 264 270 254 280 (.node 264 281 270 274
  265 280 (.node 270 281 274 277 271 280 (.node 274 281 277 279 275 280 (.node 277 281 279 280 278
  280 .stop (.node 277 280 278 279 278 279 .stop .stop)) (.node 274 279 276 277 275 278 (.node 276
  279 277 278 277 278 .stop .stop) (.node 274 277 275 276 275 276 .stop .stop))) (.node 270 277
  272 274 271 276 (.node 272 277 274 275 273 276 (.node 274 277 275 276 275 276 .stop .stop)
  (.node 272 275 273 274 273 274 .stop .stop)) (.node 270 274 271 272 271 273 (.node 271 274 272
  273 272 273 .stop .stop) .stop))) (.node 264 274 268 270 265 273 (.node 268 274 270 272 269 273
  (.node 270 274 272 273 271 273 .stop (.node 270 273 271 272 271 272 .stop .stop)) (.node 268 272
  269 270 269 271 (.node 269 272 270 271 270 271 .stop .stop) .stop)) (.node 264 270 266 268 265
  269 (.node 266 270 268 269 267 269 .stop (.node 266 269 267 268 267 268 .stop .stop)) (.node 264
  268 265 266 265 267 (.node 265 268 266 267 266 267 .stop .stop) .stop)))) (.node 253 270 260 264
  254 269 (.node 260 270 264 266 261 269 (.node 264 270 266 268 265 269 (.node 266 270 268 269 267
  269 .stop (.node 266 269 267 268 267 268 .stop .stop)) (.node 264 268 265 266 265 267 (.node 265
  268 266 267 266 267 .stop .stop) .stop)) (.node 260 266 262 264 261 265 (.node 262 266 264 265
  263 265 .stop (.node 262 265 263 264 263 264 .stop .stop)) (.node 260 264 261 262 261 263 (.node
  261 264 262 263 262 263 .stop .stop) .stop))) (.node 253 264 257 260 254 263 (.node 257 264 260
  262 258 263 (.node 260 264 262 263 261 263 .stop (.node 260 263 261 262 261 262 .stop .stop))
  (.node 257 262 259 260 258 261 (.node 259 262 260 261 260 261 .stop .stop) (.node 257 260 258
  259 258 259 .stop .stop))) (.node 253 260 255 257 254 259 (.node 255 260 257 258 256 259 (.node
  257 260 258 259 258 259 .stop .stop) (.node 255 258 256 257 256 257 .stop .stop)) (.node 253 257
  254 255 254 256 (.node 254 257 255 256 255 256 .stop .stop) .stop))))) (.node 236 264 247 253
  237 263 (.node 247 264 253 257 248 263 (.node 253 264 257 260 254 263 (.node 257 264 260 262 258
  263 (.node 260 264 262 263 261 263 .stop (.node 260 263 261 262 261 262 .stop .stop)) (.node 257
  262 259 260 258 261 (.node 259 262 260 261 260 261 .stop .stop) (.node 257 260 258 259 258 259
  .stop .stop))) (.node 253 260 255 257 254 259 (.node 255 260 257 258 256 259 (.node 257 260 258
  259 258 259 .stop .stop) (.node 255 258 256 257 256 257 .stop .stop)) (.node 253 257 254 255 254
  256 (.node 254 257 255 256 255 256 .stop .stop) .stop))) (.node 247 257 251 253 248 256 (.node
  251 257 253 255 252 256 (.node 253 257 255 256 254 256 .stop (.node 253 256 254 255 254 255
  .stop .stop)) (.node 251 255 252 253 252 254 (.node 252 255 253 254 253 254 .stop .stop) .stop))
  (.node 247 253 249 251 248 252 (.node 249 253 251 252 250 252 .stop (.node 249 252 250 251 250
  251 .stop .stop)) (.node 247 251 248 249 248 250 (.node 248 251 249 250 249 250 .stop .stop)
  .stop)))) (.node 236 253 243 247 237 252 (.node 243 253 247 249 244 252 (.node 247 253 249 251
  248 252 (.node 249 253 251 252 250 252 .stop (.node 249 252 250 251 250 251 .stop .stop)) (.node
  247 251 248 249 248 250 (.node 248 251 249 250 249 250 .stop .stop) .stop)) (.node 243 249 245
  247 244 248 (.node 245 249 247 248 246 248 .stop (.node 245 248 246 247 246 247 .stop .stop))
  (.node 243 247 244 245 244 246 (.node 244 247 245 246 245 246 .stop .stop) .stop))) (.node 236
  247 240 243 237 246 (.node 240 247 243 245 241 246 (.node 243 247 245 246 244 246 .stop (.node
  243 246 244 245 244 245 .stop .stop)) (.node 240 245 242 243 241 244 (.node 242 245 243 244 243
  244 .stop .stop) (.node 240 243 241 242 241 242 .stop .stop))) (.node 236 243 238 240 237 242
  (.node 238 243 240 241 239 242 (.node 240 243 241 242 241 242 .stop .stop) (.node 238 241 239
  240 239 240 .stop .stop)) (.node 236 240 237 238 237 239 (.node 237 240 238 239 238 239 .stop
  .stop) .stop))))))) (.node 191 264 219 236 192 263 (.node 219 264 236 247 220 263 (.node 236 264
  247 253 237 263 (.node 247 264 253 257 248 263 (.node 253 264 257 260 254 263 (.node 257 264 260
  262 258 263 (.node 260 264 262 263 261 263 .stop (.node 260 263 261 262 261 262 .stop .stop))
  (.node 257 262 259 260 258 261 (.node 259 262 260 261 260 261 .stop .stop) (.node 257 260 258
  259 258 259 .stop .stop))) (.node 253 260 255 257 254 259 (.node 255 260 257 258 256 259 (.node
  257 260 258 259 258 259 .stop .stop) (.node 255 258 256 257 256 257 .stop .stop)) (.node 253 257
  254 255 254 256 (.node 254 257 255 256 255 256 .stop .stop) .stop))) (.node 247 257 251 253 248
  256 (.node 251 257 253 255 252 256 (.node 253 257 255 256 254 256 .stop (.node 253 256 254 255
  254 255 .stop .stop)) (.node 251 255 252 253 252 254 (.node 252 255 253 254 253 254 .stop .stop)
  .stop)) (.node 247 253 249 251 248 252 (.node 249 253 251 252 250 252 .stop (.node 249 252 250
  251 250 251 .stop .stop)) (.node 247 251 248 249 248 250 (.node 248 251 249 250 249 250 .stop
  .stop) .stop)))) (.node 236 253 243 247 237 252 (.node 243 253 247 249 244 252 (.node 247 253
  249 251 248 252 (.node 249 253 251 252 250 252 .stop (.node 249 252 250 251 250 251 .stop
  .stop)) (.node 247 251 248 249 248 250 (.node 248 251 249 250 249 250 .stop .stop) .stop))
  (.node 243 249 245 247 244 248 (.node 245 249 247 248 246 248 .stop (.node 245 248 246 247 246
  247 .stop .stop)) (.node 243 247 244 245 244 246 (.node 244 247 245 246 245 246 .stop .stop)
  .stop))) (.node 236 247 240 243 237 246 (.node 240 247 243 245 241 246 (.node 243 247 245 246
  244 246 .stop (.node 243 246 244 245 244 245 .stop .stop)) (.node 240 245 242 243 241 244 (.node
  242 245 243 244 243 244 .stop .stop) (.node 240 243 241 242 241 242 .stop .stop))) (.node 236
  243 238 240 237 242 (.node 238 243 240 241 239 242 (.node 240 243 241 242 241 242 .stop .stop)
  (.node 238 241 239 240 239 240 .stop .stop)) (.node 236 240 237 238 237 239 (.node 237 240 238
  239 238 239 .stop .stop) .stop))))) (.node 219 247 230 236 220 246 (.node 230 247 236 240 231
  246 (.node 236 247 240 243 237 246 (.node 240 247 243 245 241 246 (.node 243 247 245 246 244 246
  .stop (.node 243 246 244 245 244 245 .stop .stop)) (.node 240 245 242 243 241 244 (.node 242 245
  243 244 243 244 .stop .stop) (.node 240 243 241 242 241 242 .stop .stop))) (.node 236 243 238
  240 237 242 (.node 238 243 240 241 239 242 (.node 240 243 241 242 241 242 .stop .stop) (.node
  238 241 239 240 239 240 .stop .stop)) (.node 236 240 237 238 237 239 (.node 237 240 238 239 238
  239 .stop .stop) .stop))) (.node 230 240 234 236 231 239 (.node 234 240 236 238 235 239 (.node
  236 240 238 239 237 239 .stop (.node 236 239 237 238 237 238 .stop .stop)) (.node 234 238 235
  236 235 237 (.node 235 238 236 237 236 237 .stop .stop) .stop)) (.node 230 236 232 234 231 235
  (.node 232 236 234 235 233 235 .stop (.node 232 235 233 234 233 234 .stop .stop)) (.node 230 234
  231 232 231 233 (.node 231 234 232 233 232 233 .stop .stop) .stop)))) (.node 219 236 226 230 220
  235 (.node 226 236 230 232 227 235 (.node 230 236 232 234 231 235 (.node 232 236 234 235 233 235
  .stop (.node 232 235 233 234 233 234 .stop .stop)) (.node 230 234 231 232 231 233 (.node 231 234
  232 233 232 233 .stop .stop) .stop)) (.node 226 232 228 230 227 231 (.node 228 232 230 231 229
  231 .stop (.node 228 231 229 230 229 230 .stop .stop)) (.node 226 230 227 228 227 229 (.node 227
  230 228 229 228 229 .stop .stop) .stop))) (.node 219 230 223 226 220 229 (.node 223 230 226 228
  224 229 (.node 226 230 228 229 227 229 .stop (.node 226 229 227 228 227 228 .stop .stop)) (.node
  223 228 225 226 224 227 (.node 225 228 226 227 226 227 .stop .stop) (.node 223 226 224 225 224
  225 .stop .stop))) (.node 219 226 221 223 220 225 (.node 221 226 223 224 222 225 (.node 223 226
  224 225 224 225 .stop .stop) (.node 221 224 222 223 222 223 .stop .stop)) (.node 219 223 220 221
  220 222 (.node 220 223 221 222 221 222 .stop .stop) .stop)))))) (.node 191 236 208 219 192 235
  (.node 208 236 219 225 209 235 (.node 219 236 225 229 220 235 (.node 225 236 229 232 226 235
  (.node 229 236 232 234 230 235 (.node 232 236 234 235 233 235 .stop (.node 232 235 233 234 233
  234 .stop .stop)) (.node 229 234 231 232 230 233 (.node 231 234 232 233 232 233 .stop .stop)
  (.node 229 232 230 231 230 231 .stop .stop))) (.node 225 232 227 229 226 231 (.node 227 232 229
  230 228 231 (.node 229 232 230 231 230 231 .stop .stop) (.node 227 230 228 229 228 229 .stop
  .stop)) (.node 225 229 226 227 226 228 (.node 226 229 227 228 227 228 .stop .stop) .stop)))
  (.node 219 229 223 225 220 228 (.node 223 229 225 227 224 228 (.node 225 229 227 228 226 228
  .stop (.node 225 228 226 227 226 227 .stop .stop)) (.node 223 227 224 225 224 226 (.node 224 227
  225 226 225 226 .stop .stop) .stop)) (.node 219 225 221 223 220 224 (.node 221 225 223 224 222
  224 .stop (.node 221 224 222 223 222 223 .stop .stop)) (.node 219 223 220 221 220 222 (.node 220
  223 221 222 221 222 .stop .stop) .stop)))) (.node 208 225 215 219 209 224 (.node 215 225 219 221
  216 224 (.node 219 225 221 223 220 224 (.node 221 225 223 224 222 224 .stop (.node 221 224 222
  223 222 223 .stop .stop)) (.node 219 223 220 221 220 222 (.node 220 223 221 222 221 222 .stop
  .stop) .stop)) (.node 215 221 217 219 216 220 (.node 217 221 219 220 218 220 .stop (.node 217
  220 218 219 218 219 .stop .stop)) (.node 215 219 216 217 216 218 (.node 216 219 217 218 217 218
  .stop .stop) .stop))) (.node 208 219 212 215 209 218 (.node 212 219 215 217 213 218 (.node 215
  219 217 218 216 218 .stop (.node 215 218 216 217 216 217 .stop .stop)) (.node 212 217 214 215
  213 216 (.node 214 217 215 216 215 216 .stop .stop) (.node 212 215 213 214 213 214 .stop
  .stop))) (.node 208 215 210 212 209 214 (.node 210 215 212 213 211 214 (.node 212 215 213 214
  213 214 .stop .stop) (.node 210 213 211 212 211 212 .stop .stop)) (.node 208 212 209 210 209 211
  (.node 209 212 210 211 210 211 .stop .stop) .stop))))) (.node 191 219 202 208 192 218 (.node 202
  219 208 212 203 218 (.node 208 219 212 215 209 218 (.node 212 219 215 217 213 218 (.node 215 219
  217 218 216 218 .stop (.node 215 218 216 217 216 217 .stop .stop)) (.node 212 217 214 215 213
  216 (.node 214 217 215 216 215 216 .stop .stop) (.node 212 215 213 214 213 214 .stop .stop)))
  (.node 208 215 210 212 209 214 (.node 210 215 212 213 211 214 (.node 212 215 213 214 213 214
  .stop .stop) (.node 210 213 211 212 211 212 .stop .stop)) (.node 208 212 209 210 209 211 (.node
  209 212 210 211 210 211 .stop .stop) .stop))) (.node 202 212 206 208 203 211 (.node 206 212 208
  210 207 211 (.node 208 212 210 211 209 211 .stop (.node 208 211 209 210 209 210 .stop .stop))
  (.node 206 210 207 208 207 209 (.node 207 210 208 209 208 209 .stop .stop) .stop)) (.node 202
  208 204 206 203 207 (.node 204 208 206 207 205 207 .stop (.node 204 207 205 206 205 206 .stop
  .stop)) (.node 202 206 203 204 203 205 (.node 203 206 204 205 204 205 .stop .stop) .stop))))
  (.node 191 208 198 202 192 207 (.node 198 208 202 204 199 207 (.node 202 208 204 206 203 207
  (.node 204 208 206 207 205 207 .stop (.node 204 207 205 206 205 206 .stop .stop)) (.node 202 206
  203 204 203 205 (.node 203 206 204 205 204 205 .stop .stop) .stop)) (.node 198 204 200 202 199
  203 (.node 200 204 202 203 201 203 .stop (.node 200 203 201 202 201 202 .stop .stop)) (.node 198
  202 199 200 199 201 (.node 199 202 200 201 200 201 .stop .stop) .stop))) (.node 191 202 195 198
  192 201 (.node 195 202 198 200 196 201 (.node 198 202 200 201 199 201 .stop (.node 198 201 199
  200 199 200 .stop .stop)) (.node 195 200 197 198 196 199 (.node 197 200 198 199 198 199 .stop
  .stop) (.node 195 198 196 197 196 197 .stop .stop))) (.node 191 198 193 195 192 197 (.node 193
  198 195 196 194 197 (.node 195 198 196 197 196 197 .stop .stop) (.node 193 196 194 195 194 195
  .stop .stop)) (.node 191 195 192 193 192 194 (.node 192 195 193 194 193 194 .stop .stop)
  .stop))))))))))

/-- Second-branch subtree of the certificate. -/
def gssCertHi : GTree :=
  (.node 0 309 118 191 0 308 (.node 118 309 191 236 119 308 (.node 191 309 236 264 192 308 (.node
  236 309 264 281 237 308 (.node 264 309 281 292 265 308 (.node 281 309 292 298 282 308 (.node 292
  309 298 302 293 308 (.node 298 309 302 305 299 308 (.node 302 309 305 307 303 308 (.node 305 309
  307 308 306 308 .stop (.node 305 308 306 307 306 307 .stop .stop)) (.node 302 307 304 305 303
  306 (.node 304 307 305 306 305 306 .stop .stop) (.node 302 305 303 304 303 304 .stop .stop)))
  (.node 298 305 300 302 299 304 (.node 300 305 302 303 301 304 (.node 302 305 303 304 303 304
  .stop .stop) (.node 300 303 301 302 301 302 .stop .stop)) (.node 298 302 299 300 299 301 (.node
  299 302 300 301 300 301 .stop .stop) .stop))) (.node 292 302 296 298 293 301 (.node 296 302 298
  300 297 301 (.node 298 302 300 301 299 301 .stop (.node 298 301 299 300 299 300 .stop .stop))
  (.node 296 300 297 298 297 299 (.node 297 300 298 299 298 299 .stop .stop) .stop)) (.node 292
  298 294 296 293 297 (.node 294 298 296 297 295 297 .stop (.node 294 297 295 296 295 296 .stop
  .stop)) (.node 292 296 293 294 293 295 (.node 293 296 294 295 294 295 .stop .stop) .stop))))
  (.node 281 298 288 292 282 297 (.node 288 298 292 294 289 297 (.node 292 298 294 296 293 297
  (.node 294 298 296 297 295 297 .stop (.node 294 297 295 296 295 296 .stop .stop)) (.node 292 296
  293 294 293 295 (.node 293 296 294 295 294 295 .stop .stop) .stop)) (.node 288 294 290 292 289
  293 (.node 290 294 292 293 291 293 .stop (.node 290 293 291 292 291 292 .stop .stop)) (.node 288
  292 289 290 289 291 (.node 289 292 290 291 290 291 .stop .stop) .stop))) (.node 281 292 285 288
  282 291 (.node 285 292 288 290 286 291 (.node 288 292 290 291 289 291 .stop (.node 288 291 289
  290 289 290 .stop .stop)) (.node 285 290 287 288 286 289 (.node 287 290 288 289 288 289 .stop
  .stop) (.node 285 288 286 287 286 287 .stop .stop))) (.node 281 288 283 285 282 287 (.node 283
  288 285 286 284 287 (.node 285 288 286 287 286 287 .stop .stop) (.node 283 286 284 285 284 285
  .stop .stop)) (.node 281 285 282 283 282 284 (.node 282 285 283 284 283 284 .stop .stop)
  .stop))))) (.node 264 292 275 281 265 291 (.node 275 292 281 285 276 291 (.node 281 292 285 288
  282 291 (.node 285 292 288 290 286 291 (.node 288 292 290 291 289 291 .stop (.node 288 291 289
  290 289 290 .stop .stop)) (.node 285 290 287 288 286 289 (.node 287 290 288 289 288 289 .stop
  .stop) (.node 285 288 286 287 286 287 .stop .stop))) (.node 281 288 283 285 282 287 (.node 283
  288 285 286 284 287 (.node 285 288 286 287 286 287 .stop .stop) (.node 283 286 284 285 284 285
  .stop .stop)) (.node 281 285 282 283 282 284 (.node 282 285 283 284 283 284 .stop .stop)
  .stop))) (.node 275 285 279 281 276 284 (.node 279 285 281 283 280 284 (.node 281 285 283 284
  282 284 .stop (.node 281 284 282 283 282 283 .stop .stop)) (.node 279 283 280 281 280 282 (.node
  280 283 281 282 281 282 .stop .stop) .stop)) (.node 275 281 277 279 276 280 (.node 277 281 279
  280 278 280 .stop (.node 277 280 278 279 278 279 .stop .stop)) (.node 275 279 276 277 276 278
  (.node 276 279 277 278 277 278 .stop .stop) .stop)))) (.node 264 281 271 275 265 280 (.node 271
  281 275 277 272 280 (.node 275 281 277 279 276 280 (.node 277 281 279 280 278 280 .stop (.node
  277 280 278 279 278 279 .stop .stop)) (.node 275 279 276 277 276 278 (.node 276 279 277 278 277
  278 .stop .stop) .stop)) (.node 271 277 273 275 272 276 (.node 273 277 275 276 274 276 .stop
  (.node 273 276 274 275 274 275 .stop .stop)) (.node 271 275 272 273 272 274 (.node 272 275 273
  274 273 274 .stop .stop) .stop))) (.node 264 275 268 271 265 274 (.node 268 275 271 273 269 274
  (.node 271 275 273 274 272 274 .stop (.node 271 274 272 273 272 273 .stop .stop)) (.node 268 273
  270 271 269 272 (.node 270 273 271 272 271 272 .stop .stop) (.node 268 271 269 270 269 270 .stop
  .stop))) (.node 264 271 266 268 265 270 (.node 266 271 268 269 267 270 (.node 268 271 269 270
  269 270 .stop .stop) (.node 266 269 267 268 267 268 .stop .stop)) (.node 264 268 265 266 265 267
  (.node 265 268 266 267 266 267 .stop .stop) .stop)))))) (.node 236 281 253 264 237 280 (.node
  253 281 264 270 254 280 (.node 264 281 270 274 265 280 (.node 270 281 274 277 271 280 (.node 274
  281 277 279 275 280 (.node 277 281 279 280 278 280 .stop (.node 277 280 278 279 278 279 .stop
  .stop)) (.node 274 279 276 277 275 278 (.node 276 279 277 278 277 278 .stop .stop) (.node 274
  277 275 276 275 276 .stop .stop))) (.node 270 277 272 274 271 276 (.node 272 277 274 275 273 276
  (.node 274 277 275 276 275 276 .stop .stop) (.node 272 275 273 274 273 274 .stop .stop)) (.node
  270 274 271 272 271 273 (.node 271 274 272 273 272 273 .stop .stop) .stop))) (.node 264 274 268
  270 265 273 (.node 268 274 270 272 269 273 (.node 270 274 272 273 271 273 .stop (.node 270 273
  271 272 271 272 .stop .stop)) (.node 268 272 269 270 269 271 (.node 269 272 270 271 270 271
  .stop .stop) .stop)) (.node 264 270 266 268 265 269 (.node 266 270 268 269 267 269 .stop (.node
  266 269 267 268 267 268 .stop .stop)) (.node 264 268 265 266 265 267 (.node 265 268 266 267 266
  267 .stop .stop) .stop)))) (.node 253 270 260 264 254 269 (.node 260 270 264 266 261 269 (.node
  264 270 266 268 265 269 (.node 266 270 268 269 267 269 .stop (.node 266 269 267 268 267 268
  .stop .stop)) (.node 264 268 265 266 265 267 (.node 265 268 266 267 266 267 .stop .stop) .stop))
  (.node 260 266 262 264 261 265 (.node 262 266 264 265 263 265 .stop (.node 262 265 263 264 263
  264 .stop .stop)) (.node 260 264 261 262 261 263 (.node 261 264 262 263 262 263 .stop .stop)
  .stop))) (.node 253 264 257 260 254 263 (.node 257 264 260 262 258 263 (.node 260 264 262 263
  261 263 .stop (.node 260 263 261 262 261 262 .stop .stop)) (.node 257 262 259 260 258 261 (.node
  259 262 260 261 260 261 .stop .stop) (.node 257 260 258 259 258 259 .stop .stop))) (.node 253
  260 255 257 254 259 (.node 255 260 257 258 256 259 (.node 257 260 258 259 258 259 .stop .stop)
  (.node 255 258 256 257 256 257 .stop .stop)) (.node 253 257 254 255 254 256 (.node 254 257 255
  256 255 256 .stop .stop) .stop))))) (.node 236 264 247 253 237 263 (.node 247 264 253 257 248
  263 (.node 253 264 257 260 254 263 (.node 257 264 260 262 258 263 (.node 260 264 262 263 261 263
  .stop (.node 260 263 261 262 261 262 .stop .stop)) (.node 257 262 259 260 258 261 (.node 259 262
  260 261 260 261 .stop .stop) (.node 257 260 258 259 258 259 .stop .stop))) (.node 253 260 255
  257 254 259 (.node 255 260 257 258 256 259 (.node 257 260 258 259 258 259 .stop .stop) (.node
  255 258 256 257 256 257 .stop .stop)) (.node 253 257 254 255 254 256 (.node 254 257 255 256 255
  256 .stop .stop) .stop))) (.node 247 257 251 253 248 256 (.node 251 257 253 255 252 256 (.node
  253 257 255 256 254 256 .stop (.node 253 256 254 255 254 255 .stop .stop)) (.node 251 255 252
  253 252 254 (.node 252 255 253 254 253 254 .stop .stop) .stop)) (.node 247 253 249 251 248 252
  (.node 249 253 251 252 250 252 .stop (.node 249 252 250 251 250 251 .stop .stop)) (.node 247 251
  248 249 248 250 (.node 248 251 249 250 249 250 .stop .stop) .stop)))) (.node 236 253 243 247 237
  252 (.node 243 253 247 249 244 252 (.node 247 253 249 251 248 252 (.node 249 253 251 252 250 252
  .stop (.node 249 252 250 251 250 251 .stop .stop)) (.node 247 251 248 249 248 250 (.node 248 251
  249 250 249 250 .stop .stop) .stop)) (.node 243 249 245 247 244 248 (.node 245 249 247 248 246
  248 .stop (.node 245 248 246 247 246 247 .stop .stop)) (.node 243 247 244 245 244 246 (.node 244
  247 245 246 245 246 .stop .stop) .stop))) (.node 236 247 240 243 237 246 (.node 240 247 243 245
  241 246 (.node 243 247 245 246 244 246 .stop (.node 243 246 244 245 244 245 .stop .stop)) (.node
  240 245 242 243 241 244 (.node 242 245 243 244 243 244 .stop .stop) (.node 240 243 241 242 241
  242 .stop .stop))) (.node 236 243 238 240 237 242 (.node 238 243 240 241 239 242 (.node 240 243
  241 242 241 242 .stop .stop) (.node 238 241 239 240 239 240 .stop .stop)) (.node 236 240 237 238
  237 239 (.node 237 240 238 239 238 239 .stop .stop) .stop))))))) (.node 191 264 219 236 192 263
  (.node 219 264 236 247 220 263 (.node 236 264 247 253 237 263 (.node 247 264 253 257 248 263
  (.node 253 264 257 260 254 263 (.node 257 264 260 262 258 263 (.node 260 264 262 263 261 263
  .stop (.node 260 263 261 262 261 262 .stop .stop)) (.node 257 262 259 260 258 261 (.node 259 262
  260 261 260 261 .stop .stop) (.node 257 260 258 259 258 259 .stop .stop))) (.node 253 260 255
  257 254 259 (.node 255 260 257 258 256 259 (.node 257 260 258 259 258 259 .stop .stop) (.node
  255 258 256 257 256 257 .stop .stop)) (.node 253 257 254 255 254 256 (.node 254 257 255 256 255
  256 .stop .stop) .stop))) (.node 247 257 251 253 248 256 (.node 251 257 253 255 252 256 (.node
  253 257 255 256 254 256 .stop (.node 253 256 254 255 254 255 .stop .stop)) (.node 251 255 252
  253 252 254 (.node 252 255 253 254 253 254 .stop .stop) .stop)) (.node 247 253 249 251 248 252
  (.node 249 253 251 252 250 252 .stop (.node 249 252 250 251 250 251 .stop .stop)) (.node 247 251
  248 249 248 250 (.node 248 251 249 250 249 250 .stop .stop) .stop)))) (.node 236 253 243 247 237
  252 (.node 243 253 247 249 244 252 (.node 247 253 249 251 248 252 (.node 249 253 251 252 250 252
  .stop (.node 249 252 250 251 250 251 .stop .stop)) (.node 247 251 248 249 248 250 (.node 248 251
  249 250 249 250 .stop .stop) .stop)) (.node 243 249 245 247 244 248 (.node 245 249 247 248 246
  248 .stop (.node 245 248 246 247 246 247 .stop .stop)) (.node 243 247 244 245 244 246 (.node 244
  247 245 246 245 246 .stop .stop) .stop))) (.node 236 247 240 243 237 246 (.node 240 247 243 245
  241 246 (.node 243 247 245 246 244 246 .stop (.node 243 246 244 245 244 245 .stop .stop)) (.node
  240 245 242 243 241 244 (.node 242 245 243 244 243 244 .stop .stop) (.node 240 243 241 242 241
  242 .stop .stop))) (.node 236 243 238 240 237 242 (.node 238 243 240 241 239 242 (.node 240 243
  241 242 241 242 .stop .stop) (.node 238 241 239 240 239 240 .stop .stop)) (.node 236 240 237 238
  237 239 (.node 237 240 238 239 238 239 .stop .stop) .stop))))) (.node 219 247 230 236 220 246
  (.node 230 247 236 240 231 246 (.node 236 247 240 243 237 246 (.node 240 247 243 245 241 246
  (.node 243 247 245 246 244 246 .stop (.node 243 246 244 245 244 245 .stop .stop)) (.node 240 245
  242 243 241 244 (.node 242 245 243 244 243 244 .stop .stop) (.node 240 243 241 242 241 242 .stop
  .stop))) (.node 236 243 238 240 237 242 (.node 238 243 240 241 239 242 (.node 240 243 241 242
  241 242 .stop .stop) (.node 238 241 239 240 239 240 .stop .stop)) (.node 236 240 237 238 237 239
  (.node 237 240 238 239 238 239 .stop .stop) .stop))) (.node 230 240 234 236 231 239 (.node 234
  240 236 238 235 239 (.node 236 240 238 239 237 239 .stop (.node 236 239 237 238 237 238 .stop
  .stop)) (.node 234 238 235 236 235 237 (.node 235 238 236 237 236 237 .stop .stop) .stop))
  (.node 230 236 232 234 231 235 (.node 232 236 234 235 233 235 .stop (.node 232 235 233 234 233
  234 .stop .stop)) (.node 230 234 231 232 231 233 (.node 231 234 232 233 232 233 .stop .stop)
  .stop)))) (.node 219 236 226 230 220 235 (.node 226 236 230 232 227 235 (.node 230 236 232 234
  231 235 (.node 232 236 234 235 233 235 .stop (.node 232 235 233 234 233 234 .stop .stop)) (.node
  230 234 231 232 231 233 (.node 231 234 232 233 232 233 .stop .stop) .stop)) (.node 226 232 228
  230 227 231 (.node 228 232 230 231 229 231 .stop (.node 228 231 229 230 229 230 .stop .stop))
  (.node 226 230 227 228 227 229 (.node 227 230 228 229 228 229 .stop .stop) .stop))) (.node 219
  230 223 226 220 229 (.node 223 230 226 228 224 229 (.node 226 230 228 229 227 229 .stop (.node
  226 229 227 228 227 228 .stop .stop)) (.node 223 228 225 226 224 227 (.node 225 228 226 227 226
  227 .stop .stop) (.node 223 226 224 225 224 225 .stop .stop))) (.node 219 226 221 223 220 225
  (.node 221 226 223 224 222 225 (.node 223 226 224 225 224 225 .stop .stop) (.node 221 224 222
  223 222 223 .stop .stop)) (.node 219 223 220 221 220 222 (.node 220 223 221 222 221 222 .stop
  .stop) .stop)))))) (.node 191 236 208 219 192 235 (.node 208 236 219 225 209 235 (.node 219 236
  225 229 220 235 (.node 225 236 229 232 226 235 (.node 229 236 232 234 230 235 (.node 232 236 234
  235 233 235 .stop (.node 232 235 233 234 233 234 .stop .stop)) (.node 229 234 231 232 230 233
  (.node 231 234 232 233 232 233 .stop .stop) (.node 229 232 230 231 230 231 .stop .stop))) (.node
  225 232 227 229 226 231 (.node 227 232 229 230 228 231 (.node 229 232 230 231 230 231 .stop
  .stop) (.node 227 230 228 229 228 229 .stop .stop)) (.node 225 229 226 227 226 228 (.node 226
  229 227 228 227 228 .stop .stop) .stop))) (.node 219 229 223 225 220 228 (.node 223 229 225 227
  224 228 (.node 225 229 227 228 226 228 .stop (.node 225 228 226 227 226 227 .stop .stop)) (.node
  223 227 224 225 224 226 (.node 224 227 225 226 225 226 .stop .stop) .stop)) (.node 219 225 221
  223 220 224 (.node 221 225 223 224 222 224 .stop (.node 221 224 222 223 222 223 .stop .stop))
  (.node 219 223 220 221 220 222 (.node 220 223 221 222 221 222 .stop .stop) .stop)))) (.node 208
  225 215 219 209 224 (.node 215 225 219 221 216 224 (.node 219 225 221 223 220 224 (.node 221 225
  223 224 222 224 .stop (.node 221 224 222 223 222 223 .stop .stop)) (.node 219 223 220 221 220
  222 (.node 220 223 221 222 221 222 .stop .stop) .stop)) (.node 215 221 217 219 216 220 (.node
  217 221 219 220 218 220 .stop (.node 217 220 218 219 218 219 .stop .stop)) (.node 215 219 216
  217 216 218 (.node 216 219 217 218 217 218 .stop .stop) .stop))) (.node 208 219 212 215 209 218
  (.node 212 219 215 217 213 218 (.node 215 219 217 218 216 218 .stop (.node 215 218 216 217 216
  217 .stop .stop)) (.node 212 217 214 215 213 216 (.node 214 217 215 216 215 216 .stop .stop)
  (.node 212 215 213 214 213 214 .stop .stop))) (.node 208 215 210 212 209 214 (.node 210 215 212
  213 211 214 (.node 212 215 213 214 213 214 .stop .stop) (.node 210 213 211 212 211 212 .stop
  .stop)) (.node 208 212 209 210 209 211 (.node 209 212 210 211 210 211 .stop .stop) .stop)))))
  (.node 191 219 202 208 192 218 (.node 202 219 208 212 203 218 (.node 208 219 212 215 209 218
  (.node 212 219 215 217 213 218 (.node 215 219 217 218 216 218 .stop (.node 215 218 216 217 216
  217 .stop .stop)) (.node 212 217 214 215 213 216 (.node 214 217 215 216 215 216 .stop .stop)
  (.node 212 215 213 214 213 214 .stop .stop))) (.node 208 215 210 212 209 214 (.node 210 215 212
  213 211 214 (.node 212 215 213 214 213 214 .stop .stop) (.node 210 213 211 212 211 212 .stop
  .stop)) (.node 208 212 209 210 209 211 (.node 209 212 210 211 210 211 .stop .stop) .stop)))
  (.node 202 212 206 208 203 211 (.node 206 212 208 210 207 211 (.node 208 212 210 211 209 211
  .stop (.node 208 211 209 210 209 210 .stop .stop)) (.node 206 210 207 208 207 209 (.node 207 210
  208 209 208 209 .stop .stop) .stop)) (.node 202 208 204 206 203 207 (.node 204 208 206 207 205
  207 .stop (.node 204 207 205 206 205 206 .stop .stop)) (.node 202 206 203 204 203 205 (.node 203
  206 204 205 204 205 .stop .stop) .stop)))) (.node 191 208 198 202 192 207 (.node 198 208 202 204
  199 207 (.node 202 208 204 206 203 207 (.node 204 208 206 207 205 207 .stop (.node 204 207 205
  206 205 206 .stop .stop)) (.node 202 206 203 204 203 205 (.node 203 206 204 205 204 205 .stop
  .stop) .stop)) (.node 198 204 200 202 199 203 (.node 200 204 202 203 201 203 .stop (.node 200
  203 201 202 201 202 .stop .stop)) (.node 198 202 199 200 199 201 (.node 199 202 200 201 200 201
  .stop .stop) .stop))) (.node 191 202 195 198 192 201 (.node 195 202 198 200 196 201 (.node 198
  202 200 201 199 201 .stop (.node 198 201 199 200 199 200 .stop .stop)) (.node 195 200 197 198
  196 199 (.node 197 200 198 199 198 199 .stop .stop) (.node 195 198 196 197 196 197 .stop
  .stop))) (.node 191 198 193 195 192 197 (.node 193 198 195 196 194 197 (.node 195 198 196 197
  196 197 .stop .stop) (.node 193 196 194 195 194 195 .stop .stop)) (.node 191 195 192 193 192 194
  (.node 192 195 193 194 193 194 .stop .stop) .stop)))))))) (.node 118 236 163 191 119 235 (.node
  163 236 191 208 164 235 (.node 191 236 208 219 192 235 (.node 208 236 219 225 209 235 (.node 219
  236 225 229 220 235 (.node 225 236 229 232 226 235 (.node 229 236 232 234 230 235 (.node 232 236
  234 235 233 235 .stop (.node 232 235 233 234 233 234 .stop .stop)) (.node 229 234 231 232 230
  233 (.node 231 234 232 233 232 233 .stop .stop) (.node 229 232 230 231 230 231 .stop .stop)))
  (.node 225 232 227 229 226 231 (.node 227 232 229 230 228 231 (.node 229 232 230 231 230 231
  .stop .stop) (.node 227 230 228 229 228 229 .stop .stop)) (.node 225 229 226 227 226 228 (.node
  226 229 227 228 227 228 .stop .stop) .stop))) (.node 219 229 223 225 220 228 (.node 223 229 225
  227 224 228 (.node 225 229 227 228 226 228 .stop (.node 225 228 226 227 226 227 .stop .stop))
  (.node 223 227 224 225 224 226 (.node 224 227 225 226 225 226 .stop .stop) .stop)) (.node 219
  225 221 223 220 224 (.node 221 225 223 224 222 224 .stop (.node 221 224 222 223 222 223 .stop
  .stop)) (.node 219 223 220 221 220 222 (.node 220 223 221 222 221 222 .stop .stop) .stop))))
  (.node 208 225 215 219 209 224 (.node 215 225 219 221 216 224 (.node 219 225 221 223 220 224
  (.node 221 225 223 224 222 224 .stop (.node 221 224 222 223 222 223 .stop .stop)) (.node 219 223
  220 221 220 222 (.node 220 223 221 222 221 222 .stop .stop) .stop)) (.node 215 221 217 219 216
  220 (.node 217 221 219 220 218 220 .stop (.node 217 220 218 219 218 219 .stop .stop)) (.node 215
  219 216 217 216 218 (.node 216 219 217 218 217 218 .stop .stop) .stop))) (.node 208 219 212 215
  209 218 (.node 212 219 215 217 213 218 (.node 215 219 217 218 216 218 .stop (.node 215 218 216
  217 216 217 .stop .stop)) (.node 212 217 214 215 213 216 (.node 214 217 215 216 215 216 .stop
  .stop) (.node 212 215 213 214 213 214 .stop .stop))) (.node 208 215 210 212 209 214 (.node 210
  215 212 213 211 214 (.node 212 215 213 214 213 214 .stop .stop) (.node 210 213 211 212 211 212
  .stop .stop)) (.node 208 212 209 210 209 211 (.node 209 212 210 211 210 211 .stop .stop)
  .stop))))) (.node 191 219 202 208 192 218 (.node 202 219 208 212 203 218 (.node 208 219 212 215
  209 218 (.node 212 219 215 217 213 218 (.node 215 219 217 218 216 218 .stop (.node 215 218 216
  217 216 217 .stop .stop)) (.node 212 217 214 215 213 216 (.node 214 217 215 216 215 216 .stop
  .stop) (.node 212 215 213 214 213 214 .stop .stop))) (.node 208 215 210 212 209 214 (.node 210
  215 212 213 211 214 (.node 212 215 213 214 213 214 .stop .stop) (.node 210 213 211 212 211 212
  .stop .stop)) (.node 208 212 209 210 209 211 (.node 209 212 210 211 210 211 .stop .stop)
  .stop))) (.node 202 212 206 208 203 211 (.node 206 212 208 210 207 211 (.node 208 212 210 211
  209 211 .stop (.node 208 211 209 210 209 210 .stop .stop)) (.node 206 210 207 208 207 209 (.node
  207 210 208 209 208 209 .stop .stop) .stop)) (.node 202 208 204 206 203 207 (.node 204 208 206
  207 205 207 .stop (.node 204 207 205 206 205 206 .stop .stop)) (.node 202 206 203 204 203 205
  (.node 203 206 204 205 204 205 .stop .stop) .stop)))) (.node 191 208 198 202 192 207 (.node 198
  208 202 204 199 207 (.node 202 208 204 206 203 207 (.node 204 208 206 207 205 207 .stop (.node
  204 207 205 206 205 206 .stop .stop)) (.node 202 206 203 204 203 205 (.node 203 206 204 205 204
  205 .stop .stop) .stop)) (.node 198 204 200 202 199 203 (.node 200 204 202 203 201 203 .stop
  (.node 200 203 201 202 201 202 .stop .stop)) (.node 198 202 199 200 199 201 (.node 199 202 200
  201 200 201 .stop .stop) .stop))) (.node 191 202 195 198 192 201 (.node 195 202 198 200 196 201
  (.node 198 202 200 201 199 201 .stop (.node 198 201 199 200 199 200 .stop .stop)) (.node 195 200
  197 198 196 199 (.node 197 200 198 199 198 199 .stop .stop) (.node 195 198 196 197 196 197 .stop
  .stop))) (.node 191 198 193 195 192 197 (.node 193 198 195 196 194 197 (.node 195 198 196 197
  196 197 .stop .stop) (.node 193 196 194 195 194 195 .stop .stop)) (.node 191 195 192 193 192 194
  (.node 192 195 193 194 193 194 .stop .stop) .stop)))))) (.node 163 208 180 191 164 207 (.node
  180 208 191 197 181 207 (.node 191 208 197 201 192 207 (.node 197 208 201 204 198 207 (.node 201
  208 204 206 202 207 (.node 204 208 206 207 205 207 .stop (.node 204 207 205 206 205 206 .stop
  .stop)) (.node 201 206 203 204 202 205 (.node 203 206 204 205 204 205 .stop .stop) (.node 201
  204 202 203 202 203 .stop .stop))) (.node 197 204 199 201 198 203 (.node 199 204 201 202 200 203
  (.node 201 204 202 203 202 203 .stop .stop) (.node 199 202 200 201 200 201 .stop .stop)) (.node
  197 201 198 199 198 200 (.node 198 201 199 200 199 200 .stop .stop) .stop))) (.node 191 201 195
  197 192 200 (.node 195 201 197 199 196 200 (.node 197 201 199 200 198 200 .stop (.node 197 200
  198 199 198 199 .stop .stop)) (.node 195 199 196 197 196 198 (.node 196 199 197 198 197 198
  .stop .stop) .stop)) (.node 191 197 193 195 192 196 (.node 193 197 195 196 194 196 .stop (.node
  193 196 194 195 194 195 .stop .stop)) (.node 191 195 192 193 192 194 (.node 192 195 193 194 193
  194 .stop .stop) .stop)))) (.node 180 197 187 191 181 196 (.node 187 197 191 193 188 196 (.node
  191 197 193 195 192 196 (.node 193 197 195 196 194 196 .stop (.node 193 196 194 195 194 195
  .stop .stop)) (.node 191 195 192 193 192 194 (.node 192 195 193 194 193 194 .stop .stop) .stop))
  (.node 187 193 189 191 188 192 (.node 189 193 191 192 190 192 .stop (.node 189 192 190 191 190
  191 .stop .stop)) (.node 187 191 188 189 188 190 (.node 188 191 189 190 189 190 .stop .stop)
  .stop))) (.node 180 191 184 187 181 190 (.node 184 191 187 189 185 190 (.node 187 191 189 190
  188 190 .stop (.node 187 190 188 189 188 189 .stop .stop)) (.node 184 189 186 187 185 188 (.node
  186 189 187 188 187 188 .stop .stop) (.node 184 187 185 186 185 186 .stop .stop))) (.node 180
  187 182 184 181 186 (.node 182 187 184 185 183 186 (.node 184 187 185 186 185 186 .stop .stop)
  (.node 182 185 183 184 183 184 .stop .stop)) (.node 180 184 181 182 181 183 (.node 181 184 182
  183 182 183 .stop .stop) .stop))))) (.node 163 191 174 180 164 190 (.node 174 191 180 184 175
  190 (.node 180 191 184 187 181 190 (.node 184 191 187 189 185 190 (.node 187 191 189 190 188 190
  .stop (.node 187 190 188 189 188 189 .stop .stop)) (.node 184 189 186 187 185 188 (.node 186 189
  187 188 187 188 .stop .stop) (.node 184 187 185 186 185 186 .stop .stop))) (.node 180 187 182
  184 181 186 (.node 182 187 184 185 183 186 (.node 184 187 185 186 185 186 .stop .stop) (.node
  182 185 183 184 183 184 .stop .stop)) (.node 180 184 181 182 181 183 (.node 181 184 182 183 182
  183 .stop .stop) .stop))) (.node 174 184 178 180 175 183 (.node 178 184 180 182 179 183 (.node
  180 184 182 183 181 183 .stop (.node 180 183 181 182 181 182 .stop .stop)) (.node 178 182 179
  180 179 181 (.node 179 182 180 181 180 181 .stop .stop) .stop)) (.node 174 180 176 178 175 179
  (.node 176 180 178 179 177 179 .stop (.node 176 179 177 178 177 178 .stop .stop)) (.node 174 178
  175 176 175 177 (.node 175 178 176 177 176 177 .stop .stop) .stop)))) (.node 163 180 170 174 164
  179 (.node 170 180 174 176 171 179 (.node 174 180 176 178 175 179 (.node 176 180 178 179 177 179
  .stop (.node 176 179 177 178 177 178 .stop .stop)) (.node 174 178 175 176 175 177 (.node 175 178
  176 177 176 177 .stop .stop) .stop)) (.node 170 176 172 174 171 175 (.node 172 176 174 175 173
  175 .stop (.node 172 175 173 174 173 174 .stop .stop)) (.node 170 174 171 172 171 173 (.node 171
  174 172 173 172 173 .stop .stop) .stop))) (.node 163 174 167 170 164 173 (.node 167 174 170 172
  168 173 (.node 170 174 172 173 171 173 .stop (.node 170 173 171 172 171 172 .stop .stop)) (.node
  167 172 169 170 168 171 (.node 169 172 170 171 170 171 .stop .stop) (.node 167 170 168 169 168
  169 .stop .stop))) (.node 163 170 165 167 164 169 (.node 165 170 167 168 166 169 (.node 167 170
  168 169 168 169 .stop .stop) (.node 165 168 166 167 166 167 .stop .stop)) (.node 163 167 164 165
  164 166 (.node 164 167 165 166 165 166 .stop .stop) .stop))))))) (.node 118 191 146 163 119 190
  (.node 146 191 163 174 147 190 (.node 163 191 174 180 164 190 (.node 174 191 180 184 175 190
  (.node 180 191 184 187 181 190 (.node 184 191 187 189 185 190 (.node 187 191 189 190 188 190
  .stop (.node 187 190 188 189 188 189 .stop .stop)) (.node 184 189 186 187 185 188 (.node 186 189
  187 188 187 188 .stop .stop) (.node 184 187 185 186 185 186 .stop .stop))) (.node 180 187 182
  184 181 186 (.node 182 187 184 185 183 186 (.node 184 187 185 186 185 186 .stop .stop) (.node
  182 185 183 184 183 184 .stop .stop)) (.node 180 184 181 182 181 183 (.node 181 184 182 183 182
  183 .stop .stop) .stop))) (.node 174 184 178 180 175 183 (.node 178 184 180 182 179 183 (.node
  180 184 182 183 181 183 .stop (.node 180 183 181 182 181 182 .stop .stop)) (.node 178 182 179
  180 179 181 (.node 179 182 180 181 180 181 .stop .stop) .stop)) (.node 174 180 176 178 175 179
  (.node 176 180 178 179 177 179 .stop (.node 176 179 177 178 177 178 .stop .stop)) (.node 174 178
  175 176 175 177 (.node 175 178 176 177 176 177 .stop .stop) .stop)))) (.node 163 180 170 174 164
  179 (.node 170 180 174 176 171 179 (.node 174 180 176 178 175 179 (.node 176 180 178 179 177 179
  .stop (.node 176 179 177 178 177 178 .stop .stop)) (.node 174 178 175 176 175 177 (.node 175 178
  176 177 176 177 .stop .stop) .stop)) (.node 170 176 172 174 171 175 (.node 172 176 174 175 173
  175 .stop (.node 172 175 173 174 173 174 .stop .stop)) (.node 170 174 171 172 171 173 (.node 171
  174 172 173 172 173 .stop .stop) .stop))) (.node 163 174 167 170 164 173 (.node 167 174 170 172
  168 173 (.node 170 174 172 173 171 173 .stop (.node 170 173 171 172 171 172 .stop .stop)) (.node
  167 172 169 170 168 171 (.node 169 172 170 171 170 171 .stop .stop) (.node 167 170 168 169 168
  169 .stop .stop))) (.node 163 170 165 167 164 169 (.node 165 170 167 168 166 169 (.node 167 170
  168 169 168 169 .stop .stop) (.node 165 168 166 167 166 167 .stop .stop)) (.node 163 167 164 165
  164 166 (.node 164 167 165 166 165 166 .stop .stop) .stop))))) (.node 146 174 157 163 147 173
  (.node 157 174 163 167 158 173 (.node 163 174 167 170 164 173 (.node 167 174 170 172 168 173
  (.node 170 174 172 173 171 173 .stop (.node 170 173 171 172 171 172 .stop .stop)) (.node 167 172
  169 170 168 171 (.node 169 172 170 171 170 171 .stop .stop) (.node 167 170 168 169 168 169 .stop
  .stop))) (.node 163 170 165 167 164 169 (.node 165 170 167 168 166 169 (.node 167 170 168 169
  168 169 .stop .stop) (.node 165 168 166 167 166 167 .stop .stop)) (.node 163 167 164 165 164 166
  (.node 164 167 165 166 165 166 .stop .stop) .stop))) (.node 157 167 161 163 158 166 (.node 161
  167 163 165 162 166 (.node 163 167 165 166 164 166 .stop (.node 163 166 164 165 164 165 .stop
  .stop)) (.node 161 165 162 163 162 164 (.node 162 165 163 164 163 164 .stop .stop) .stop))
  (.node 157 163 159 161 158 162 (.node 159 163 161 162 160 162 .stop (.node 159 162 160 161 160
  161 .stop .stop)) (.node 157 161 158 159 158 160 (.node 158 161 159 160 159 160 .stop .stop)
  .stop)))) (.node 146 163 153 157 147 162 (.node 153 163 157 159 154 162 (.node 157 163 159 161
  158 162 (.node 159 163 161 162 160 162 .stop (.node 159 162 160 161 160 161 .stop .stop)) (.node
  157 161 158 159 158 160 (.node 158 161 159 160 159 160 .stop .stop) .stop)) (.node 153 159 155
  157 154 158 (.node 155 159 157 158 156 158 .stop (.node 155 158 156 157 156 157 .stop .stop))
  (.node 153 157 154 155 154 156 (.node 154 157 155 156 155 156 .stop .stop) .stop))) (.node 146
  157 150 153 147 156 (.node 150 157 153 155 151 156 (.node 153 157 155 156 154 156 .stop (.node
  153 156 154 155 154 155 .stop .stop)) (.node 150 155 152 153 151 154 (.node 152 155 153 154 153
  154 .stop .stop) (.node 150 153 151 152 151 152 .stop .stop))) (.node 146 153 148 150 147 152
  (.node 148 153 150 151 149 152 (.node 150 153 151 152 151 152 .stop .stop) (.node 148 151 149
  150 149 150 .stop .stop)) (.node 146 150 147 148 147 149 (.node 147 150 148 149 148 149 .stop
  .stop) .stop)))))) (.node 118 163 135 146 119 162 (.node 135 163 146 152 136 162 (.node 146 163
  152 156 147 162 (.node 152 163 156 159 153 162 (.node 156 163 159 161 157 162 (.node 159 163 161
  162 160 162 .stop (.node 159 162 160 161 160 161 .stop .stop)) (.node 156 161 158 159 157 160
  (.node 158 161 159 160 159 160 .stop .stop) (.node 156 159 157 158 157 158 .stop .stop))) (.node
  152 159 154 156 153 158 (.node 154 159 156 157 155 158 (.node 156 159 157 158 157 158 .stop
  .stop) (.node 154 157 155 156 155 156 .stop .stop)) (.node 152 156 153 154 153 155 (.node 153
  156 154 155 154 155 .stop .stop) .stop))) (.node 146 156 150 152 147 155 (.node 150 156 152 154
  151 155 (.node 152 156 154 155 153 155 .stop (.node 152 155 153 154 153 154 .stop .stop)) (.node
  150 154 151 152 151 153 (.node 151 154 152 153 152 153 .stop .stop) .stop)) (.node 146 152 148
  150 147 151 (.node 148 152 150 151 149 151 .stop (.node 148 151 149 150 149 150 .stop .stop))
  (.node 146 150 147 148 147 149 (.node 147 150 148 149 148 149 .stop .stop) .stop)))) (.node 135
  152 142 146 136 151 (.node 142 152 146 148 143 151 (.node 146 152 148 150 147 151 (.node 148 152
  150 151 149 151 .stop (.node 148 151 149 150 149 150 .stop .stop)) (.node 146 150 147 148 147
  149 (.node 147 150 148 149 148 149 .stop .stop) .stop)) (.node 142 148 144 146 143 147 (.node
  144 148 146 147 145 147 .stop (.node 144 147 145 146 145 146 .stop .stop)) (.node 142 146 143
  144 143 145 (.node 143 146 144 145 144 145 .stop .stop) .stop))) (.node 135 146 139 142 136 145
  (.node 139 146 142 144 140 145 (.node 142 146 144 145 143 145 .stop (.node 142 145 143 144 143
  144 .stop .stop)) (.node 139 144 141 142 140 143 (.node 141 144 142 143 142 143 .stop .stop)
  (.node 139 142 140 141 140 141 .stop .stop))) (.node 135 142 137 139 136 141 (.node 137 142 139
  140 138 141 (.node 139 142 140 141 140 141 .stop .stop) (.node 137 140 138 139 138 139 .stop
  .stop)) (.node 135 139 136 137 136 138 (.node 136 139 137 138 137 138 .stop .stop) .stop)))))
  (.node 118 146 129 135 119 145 (.node 129 146 135 139 130 145 (.node 135 146 139 142 136 145
  (.node 139 146 142 144 140 145 (.node 142 146 144 145 143 145 .stop (.node 142 145 143 144 143
  144 .stop .stop)) (.node 139 144 141 142 140 143 (.node 141 144 142 143 142 143 .stop .stop)
  (.node 139 142 140 141 140 141 .stop .stop))) (.node 135 142 137 139 136 141 (.node 137 142 139
  140 138 141 (.node 139 142 140 141 140 141 .stop .stop) (.node 137 140 138 139 138 139 .stop
  .stop)) (.node 135 139 136 137 136 138 (.node 136 139 137 138 137 138 .stop .stop) .stop)))
  (.node 129 139 133 135 130 138 (.node 133 139 135 137 134 138 (.node 135 139 137 138 136 138
  .stop (.node 135 138 136 137 136 137 .stop .stop)) (.node 133 137 134 135 134 136 (.node 134 137
  135 136 135 136 .stop .stop) .stop)) (.node 129 135 131 133 130 134 (.node 131 135 133 134 132
  134 .stop (.node 131 134 132 133 132 133 .stop .stop)) (.node 129 133 130 131 130 132 (.node 130
  133 131 132 131 132 .stop .stop) .stop)))) (.node 118 135 125 129 119 134 (.node 125 135 129 131
  126 134 (.node 129 135 131 133 130 134 (.node 131 135 133 134 132 134 .stop (.node 131 134 132
  133 132 133 .stop .stop)) (.node 129 133 130 131 130 132 (.node 130 133 131 132 131 132 .stop
  .stop) .stop)) (.node 125 131 127 129 126 130 (.node 127 131 129 130 128 130 .stop (.node 127
  130 128 129 128 129 .stop .stop)) (.node 125 129 126 127 126 128 (.node 126 129 127 128 127 128
  .stop .stop) .stop))) (.node 118 129 122 125 119 128 (.node 122 129 125 127 123 128 (.node 125
  129 127 128 126 128 .stop (.node 125 128 126 127 126 127 .stop .stop)) (.node 122 127 124 125
  123 126 (.node 124 127 125 126 125 126 .stop .stop) (.node 122 125 123 124 123 124 .stop
  .stop))) (.node 118 125 120 122 119 124 (.node 120 125 122 123 121 124 (.node 122 125 123 124
  123 124 .stop .stop) (.node 120 123 121 122 121 122 .stop .stop)) (.node 118 122 119 120 119 121
  (.node 119 122 120 121 120 121 .stop .stop) .stop))))))))) (.node 0 191 73 118 0 190 (.node 73
  191 118 146 74 190 (.node 118 191 146 163 119 190 (.node 146 191 163 174 147 190 (.node 163 191
  174 180 164 190 (.node 174 191 180 184 175 190 (.node 180 191 184 187 181 190 (.node 184 191 187
  189 185 190 (.node 187 191 189 190 188 190 .stop (.node 187 190 188 189 188 189 .stop .stop))
  (.node 184 189 186 187 185 188 (.node 186 189 187 188 187 188 .stop .stop) (.node 184 187 185
  186 185 186 .stop .stop))) (.node 180 187 182 184 181 186 (.node 182 187 184 185 183 186 (.node
  184 187 185 186 185 186 .stop .stop) (.node 182 185 183 184 183 184 .stop .stop)) (.node 180 184
  181 182 181 183 (.node 181 184 182 183 182 183 .stop .stop) .stop))) (.node 174 184 178 180 175
  183 (.node 178 184 180 182 179 183 (.node 180 184 182 183 181 183 .stop (.node 180 183 181 182
  181 182 .stop .stop)) (.node 178 182 179 180 179 181 (.node 179 182 180 181 180 181 .stop .stop)
  .stop)) (.node 174 180 176 178 175 179 (.node 176 180 178 179 177 179 .stop (.node 176 179 177
  178 177 178 .stop .stop)) (.node 174 178 175 176 175 177 (.node 175 178 176 177 176 177 .stop
  .stop) .stop)))) (.node 163 180 170 174 164 179 (.node 170 180 174 176 171 179 (.node 174 180
  176 178 175 179 (.node 176 180 178 179 177 179 .stop (.node 176 179 177 178 177 178 .stop
  .stop)) (.node 174 178 175 176 175 177 (.node 175 178 176 177 176 177 .stop .stop) .stop))
  (.node 170 176 172 174 171 175 (.node 172 176 174 175 173 175 .stop (.node 172 175 173 174 173
  174 .stop .stop)) (.node 170 174 171 172 171 173 (.node 171 174 172 173 172 173 .stop .stop)
  .stop))) (.node 163 174 167 170 164 173 (.node 167 174 170 172 168 173 (.node 170 174 172 173
  171 173 .stop (.node 170 173 171 172 171 172 .stop .stop)) (.node 167 172 169 170 168 171 (.node
  169 172 170 171 170 171 .stop .stop) (.node 167 170 168 169 168 169 .stop .stop))) (.node 163
  170 165 167 164 169 (.node 165 170 167 168 166 169 (.node 167 170 168 169 168 169 .stop .stop)
  (.node 165 168 166 167 166 167 .stop .stop)) (.node 163 167 164 165 164 166 (.node 164 167 165
  166 165 166 .stop .stop) .stop))))) (.node 146 174 157 163 147 173 (.node 157 174 163 167 158
  173 (.node 163 174 167 170 164 173 (.node 167 174 170 172 168 173 (.node 170 174 172 173 171 173
  .stop (.node 170 173 171 172 171 172 .stop .stop)) (.node 167 172 169 170 168 171 (.node 169 172
  170 171 170 171 .stop .stop) (.node 167 170 168 169 168 169 .stop .stop))) (.node 163 170 165
  167 164 169 (.node 165 170 167 168 166 169 (.node 167 170 168 169 168 169 .stop .stop) (.node
  165 168 166 167 166 167 .stop .stop)) (.node 163 167 164 165 164 166 (.node 164 167 165 166 165
  166 .stop .stop) .stop))) (.node 157 167 161 163 158 166 (.node 161 167 163 165 162 166 (.node
  163 167 165 166 164 166 .stop (.node 163 166 164 165 164 165 .stop .stop)) (.node 161 165 162
  163 162 164 (.node 162 165 163 164 163 164 .stop .stop) .stop)) (.node 157 163 159 161 158 162
  (.node 159 163 161 162 160 162 .stop (.node 159 162 160 161 160 161 .stop .stop)) (.node 157 161
  158 159 158 160 (.node 158 161 159 160 159 160 .stop .stop) .stop)))) (.node 146 163 153 157 147
  162 (.node 153 163 157 159 154 162 (.node 157 163 159 161 158 162 (.node 159 163 161 162 160 162
  .stop (.node 159 162 160 161 160 161 .stop .stop)) (.node 157 161 158 159 158 160 (.node 158 161
  159 160 159 160 .stop .stop) .stop)) (.node 153 159 155 157 154 158 (.node 155 159 157 158 156
  158 .stop (.node 155 158 156 157 156 157 .stop .stop)) (.node 153 157 154 155 154 156 (.node 154
  157 155 156 155 156 .stop .stop) .stop))) (.node 146 157 150 153 147 156 (.node 150 157 153 155
  151 156 (.node 153 157 155 156 154 156 .stop (.node 153 156 154 155 154 155 .stop .stop)) (.node
  150 155 152 153 151 154 (.node 152 155 153 154 153 154 .stop .stop) (.node 150 153 151 152 151
  152 .stop .stop))) (.node 146 153 148 150 147 152 (.node 148 153 150 151 149 152 (.node 150 153
  151 152 151 152 .stop .stop) (.node 148 151 149 150 149 150 .stop .stop)) (.node 146 150 147 148
  147 149 (.node 147 150 148 149 148 149 .stop .stop) .stop)))))) (.node 118 163 135 146 119 162
  (.node 135 163 146 152 136 162 (.node 146 163 152 156 147 162 (.node 152 163 156 159 153 162
  (.node 156 163 159 161 157 162 (.node 159 163 161 162 160 162 .stop (.node 159 162 160 161 160
  161 .stop .stop)) (.node 156 161 158 159 157 160 (.node 158 161 159 160 159 160 .stop .stop)
  (.node 156 159 157 158 157 158 .stop .stop))) (.node 152 159 154 156 153 158 (.node 154 159 156
  157 155 158 (.node 156 159 157 158 157 158 .stop .stop) (.node 154 157 155 156 155 156 .stop
  .stop)) (.node 152 156 153 154 153 155 (.node 153 156 154 155 154 155 .stop .stop) .stop)))
  (.node 146 156 150 152 147 155 (.node 150 156 152 154 151 155 (.node 152 156 154 155 153 155
  .stop (.node 152 155 153 154 153 154 .stop .stop)) (.node 150 154 151 152 151 153 (.node 151 154
  152 153 152 153 .stop .stop) .stop)) (.node 146 152 148 150 147 151 (.node 148 152 150 151 149
  151 .stop (.node 148 151 149 150 149 150 .stop .stop)) (.node 146 150 147 148 147 149 (.node 147
  150 148 149 148 149 .stop .stop) .stop)))) (.node 135 152 142 146 136 151 (.node 142 152 146 148
  143 151 (.node 146 152 148 150 147 151 (.node 148 152 150 151 149 151 .stop (.node 148 151 149
  150 149 150 .stop .stop)) (.node 146 150 147 148 147 149 (.node 147 150 148 149 148 149 .stop
  .stop) .stop)) (.node 142 148 144 146 143 147 (.node 144 148 146 147 145 147 .stop (.node 144
  147 145 146 145 146 .stop .stop)) (.node 142 146 143 144 143 145 (.node 143 146 144 145 144 145
  .stop .stop) .stop))) (.node 135 146 139 142 136 145 (.node 139 146 142 144 140 145 (.node 142
  146 144 145 143 145 .stop (.node 142 145 143 144 143 144 .stop .stop)) (.node 139 144 141 142
  140 143 (.node 141 144 142 143 142 143 .stop .stop) (.node 139 142 140 141 140 141 .stop
  .stop))) (.node 135 142 137 139 136 141 (.node 137 142 139 140 138 141 (.node 139 142 140 141
  140 141 .stop .stop) (.node 137 140 138 139 138 139 .stop .stop)) (.node 135 139 136 137 136 138
  (.node 136 139 137 138 137 138 .stop .stop) .stop))))) (.node 118 146 129 135 119 145 (.node 129
  146 135 139 130 145 (.node 135 146 139 142 136 145 (.node 139 146 142 144 140 145 (.node 142 146
  144 145 143 145 .stop (.node 142 145 143 144 143 144 .stop .stop)) (.node 139 144 141 142 140
  143 (.node 141 144 142 143 142 143 .stop .stop) (.node 139 142 140 141 140 141 .stop .stop)))
  (.node 135 142 137 139 136 141 (.node 137 142 139 140 138 141 (.node 139 142 140 141 140 141
  .stop .stop) (.node 137 140 138 139 138 139 .stop .stop)) (.node 135 139 136 137 136 138 (.node
  136 139 137 138 137 138 .stop .stop) .stop))) (.node 129 139 133 135 130 138 (.node 133 139 135
  137 134 138 (.node 135 139 137 138 136 138 .stop (.node 135 138 136 137 136 137 .stop .stop))
  (.node 133 137 134 135 134 136 (.node 134 137 135 136 135 136 .stop .stop) .stop)) (.node 129
  135 131 133 130 134 (.node 131 135 133 134 132 134 .stop (.node 131 134 132 133 132 133 .stop
  .stop)) (.node 129 133 130 131 130 132 (.node 130 133 131 132 131 132 .stop .stop) .stop))))
  (.node 118 135 125 129 119 134 (.node 125 135 129 131 126 134 (.node 129 135 131 133 130 134
  (.node 131 135 133 134 132 134 .stop (.node 131 134 132 133 132 133 .stop .stop)) (.node 129 133
  130 131 130 132 (.node 130 133 131 132 131 132 .stop .stop) .stop)) (.node 125 131 127 129 126
  130 (.node 127 131 129 130 128 130 .stop (.node 127 130 128 129 128 129 .stop .stop)) (.node 125
  129 126 127 126 128 (.node 126 129 127 128 127 128 .stop .stop) .stop))) (.node 118 129 122 125
  119 128 (.node 122 129 125 127 123 128 (.node 125 129 127 128 126 128 .stop (.node 125 128 126
  127 126 127 .stop .stop)) (.node 122 127 124 125 123 126 (.node 124 127 125 126 125 126 .stop
  .stop) (.node 122 125 123 124 123 124 .stop .stop))) (.node 118 125 120 122 119 124 (.node 120
  125 122 123 121 124 (.node 122 125 123 124 123 124 .stop .stop) (.node 120 123 121 122 121 122
  .stop .stop)) (.node 118 122 119 120 119 121 (.node 119 122 120 121 120 121 .stop .stop)
  .stop))))))) (.node 73 146 101 118 74 145 (.node 101 146 118 129 102 145 (.node 118 146 129 135
  119 145 (.node 129 146 135 139 130 145 (.node 135 146 139 142 136 145 (.node 139 146 142 144 140
  145 (.node 142 146 144 145 143 145 .stop (.node 142 145 143 144 143 144 .stop .stop)) (.node 139
  144 141 142 140 143 (.node 141 144 142 143 142 143 .stop .stop) (.node 139 142 140 141 140 141
  .stop .stop))) (.node 135 142 137 139 136 141 (.node 137 142 139 140 138 141 (.node 139 142 140
  141 140 141 .stop .stop) (.node 137 140 138 139 138 139 .stop .stop)) (.node 135 139 136 137 136
  138 (.node 136 139 137 138 137 138 .stop .stop) .stop))) (.node 129 139 133 135 130 138 (.node
  133 139 135 137 134 138 (.node 135 139 137 138 136 138 .stop (.node 135 138 136 137 136 137
  .stop .stop)) (.node 133 137 134 135 134 136 (.node 134 137 135 136 135 136 .stop .stop) .stop))
  (.node 129 135 131 133 130 134 (.node 131 135 133 134 132 134 .stop (.node 131 134 132 133 132
  133 .stop .stop)) (.node 129 133 130 131 130 132 (.node 130 133 131 132 131 132 .stop .stop)
  .stop)))) (.node 118 135 125 129 119 134 (.node 125 135 129 131 126 134 (.node 129 135 131 133
  130 134 (.node 131 135 133 134 132 134 .stop (.node 131 134 132 133 132 133 .stop .stop)) (.node
  129 133 130 131 130 132 (.node 130 133 131 132 131 132 .stop .stop) .stop)) (.node 125 131 127
  129 126 130 (.node 127 131 129 130 128 130 .stop (.node 127 130 128 129 128 129 .stop .stop))
  (.node 125 129 126 127 126 128 (.node 126 129 127 128 127 128 .stop .stop) .stop))) (.node 118
  129 122 125 119 128 (.node 122 129 125 127 123 128 (.node 125 129 127 128 126 128 .stop (.node
  125 128 126 127 126 127 .stop .stop)) (.node 122 127 124 125 123 126 (.node 124 127 125 126 125
  126 .stop .stop) (.node 122 125 123 124 123 124 .stop .stop))) (.node 118 125 120 122 119 124
  (.node 120 125 122 123 121 124 (.node 122 125 123 124 123 124 .stop .stop) (.node 120 123 121
  122 121 122 .stop .stop)) (.node 118 122 119 120 119 121 (.node 119 122 120 121 120 121 .stop
  .stop) .stop))))) (.node 101 129 112 118 102 128 (.node 112 129 118 122 113 128 (.node 118 129
  122 125 119 128 (.node 122 129 125 127 123 128 (.node 125 129 127 128 126 128 .stop (.node 125
  128 126 127 126 127 .stop .stop)) (.node 122 127 124 125 123 126 (.node 124 127 125 126 125 126
  .stop .stop) (.node 122 125 123 124 123 124 .stop .stop))) (.node 118 125 120 122 119 124 (.node
  120 125 122 123 121 124 (.node 122 125 123 124 123 124 .stop .stop) (.node 120 123 121 122 121
  122 .stop .stop)) (.node 118 122 119 120 119 121 (.node 119 122 120 121 120 121 .stop .stop)
  .stop))) (.node 112 122 116 118 113 121 (.node 116 122 118 120 117 121 (.node 118 122 120 121
  119 121 .stop (.node 118 121 119 120 119 120 .stop .stop)) (.node 116 120 117 118 117 119 (.node
  117 120 118 119 118 119 .stop .stop) .stop)) (.node 112 118 114 116 113 117 (.node 114 118 116
  117 115 117 .stop (.node 114 117 115 116 115 116 .stop .stop)) (.node 112 116 113 114 113 115
  (.node 113 116 114 115 114 115 .stop .stop) .stop)))) (.node 101 118 108 112 102 117 (.node 108
  118 112 114 109 117 (.node 112 118 114 116 113 117 (.node 114 118 116 117 115 117 .stop (.node
  114 117 115 116 115 116 .stop .stop)) (.node 112 116 113 114 113 115 (.node 113 116 114 115 114
  115 .stop .stop) .stop)) (.node 108 114 110 112 109 113 (.node 110 114 112 113 111 113 .stop
  (.node 110 113 111 112 111 112 .stop .stop)) (.node 108 112 109 110 109 111 (.node 109 112 110
  111 110 111 .stop .stop) .stop))) (.node 101 112 105 108 102 111 (.node 105 112 108 110 106 111
  (.node 108 112 110 111 109 111 .stop (.node 108 111 109 110 109 110 .stop .stop)) (.node 105 110
  107 108 106 109 (.node 107 110 108 109 108 109 .stop .stop) (.node 105 108 106 107 106 107 .stop
  .stop))) (.node 101 108 103 105 102 107 (.node 103 108 105 106 104 107 (.node 105 108 106 107
  106 107 .stop .stop) (.node 103 106 104 105 104 105 .stop .stop)) (.node 101 105 102 103 102 104
  (.node 102 105 103 104 103 104 .stop .stop) .stop)))))) (.node 73 118 90 101 74 117 (.node 90
  118 101 107 91 117 (.node 101 118 107 111 102 117 (.node 107 118 111 114 108 117 (.node 111 118
  114 116 112 117 (.node 114 118 116 117 115 117 .stop (.node 114 117 115 116 115 116 .stop
  .stop)) (.node 111 116 113 114 112 115 (.node 113 116 114 115 114 115 .stop .stop) (.node 111
  114 112 113 112 113 .stop .stop))) (.node 107 114 109 111 108 113 (.node 109 114 111 112 110 113
  (.node 111 114 112 113 112 113 .stop .stop) (.node 109 112 110 111 110 111 .stop .stop)) (.node
  107 111 108 109 108 110 (.node 108 111 109 110 109 110 .stop .stop) .stop))) (.node 101 111 105
  107 102 110 (.node 105 111 107 109 106 110 (.node 107 111 109 110 108 110 .stop (.node 107 110
  108 109 108 109 .stop .stop)) (.node 105 109 106 107 106 108 (.node 106 109 107 108 107 108
  .stop .stop) .stop)) (.node 101 107 103 105 102 106 (.node 103 107 105 106 104 106 .stop (.node
  103 106 104 105 104 105 .stop .stop)) (.node 101 105 102 103 102 104 (.node 102 105 103 104 103
  104 .stop .stop) .stop)))) (.node 90 107 97 101 91 106 (.node 97 107 101 103 98 106 (.node 101
  107 103 105 102 106 (.node 103 107 105 106 104 106 .stop (.node 103 106 104 105 104 105 .stop
  .stop)) (.node 101 105 102 103 102 104 (.node 102 105 103 104 103 104 .stop .stop) .stop))
  (.node 97 103 99 101 98 102 (.node 99 103 101 102 100 102 .stop (.node 99 102 100 101 100 101
  .stop .stop)) (.node 97 101 98 99 98 100 (.node 98 101 99 100 99 100 .stop .stop) .stop)))
  (.node 90 101 94 97 91 100 (.node 94 101 97 99 95 100 (.node 97 101 99 100 98 100 .stop (.node
  97 100 98 99 98 99 .stop .stop)) (.node 94 99 96 97 95 98 (.node 96 99 97 98 97 98 .stop .stop)
  (.node 94 97 95 96 95 96 .stop .stop))) (.node 90 97 92 94 91 96 (.node 92 97 94 95 93 96 (.node
  94 97 95 96 95 96 .stop .stop) (.node 92 95 93 94 93 94 .stop .stop)) (.node 90 94 91 92 91 93
  (.node 91 94 92 93 92 93 .stop .stop) .stop))))) (.node 73 101 84 90 74 100 (.node 84 101 90 94
  85 100 (.node 90 101 94 97 91 100 (.node 94 101 97 99 95 100 (.node 97 101 99 100 98 100 .stop
  (.node 97 100 98 99 98 99 .stop .stop)) (.node 94 99 96 97 95 98 (.node 96 99 97 98 97 98 .stop
  .stop) (.node 94 97 95 96 95 96 .stop .stop))) (.node 90 97 92 94 91 96 (.node 92 97 94 95 93 96
  (.node 94 97 95 96 95 96 .stop .stop) (.node 92 95 93 94 93 94 .stop .stop)) (.node 90 94 91 92
  91 93 (.node 91 94 92 93 92 93 .stop .stop) .stop))) (.node 84 94 88 90 85 93 (.node 88 94 90 92
  89 93 (.node 90 94 92 93 91 93 .stop (.node 90 93 91 92 91 92 .stop .stop)) (.node 88 92 89 90
  89 91 (.node 89 92 90 91 90 91 .stop .stop) .stop)) (.node 84 90 86 88 85 89 (.node 86 90 88 89
  87 89 .stop (.node 86 89 87 88 87 88 .stop .stop)) (.node 84 88 85 86 85 87 (.node 85 88 86 87
  86 87 .stop .stop) .stop)))) (.node 73 90 80 84 74 89 (.node 80 90 84 86 81 89 (.node 84 90 86
  88 85 89 (.node 86 90 88 89 87 89 .stop (.node 86 89 87 88 87 88 .stop .stop)) (.node 84 88 85
  86 85 87 (.node 85 88 86 87 86 87 .stop .stop) .stop)) (.node 80 86 82 84 81 85 (.node 82 86 84
  85 83 85 .stop (.node 82 85 83 84 83 84 .stop .stop)) (.node 80 84 81 82 81 83 (.node 81 84 82
  83 82 83 .stop .stop) .stop))) (.node 73 84 77 80 74 83 (.node 77 84 80 82 78 83 (.node 80 84 82
  83 81 83 .stop (.node 80 83 81 82 81 82 .stop .stop)) (.node 77 82 79 80 78 81 (.node 79 82 80
  81 80 81 .stop .stop) (.node 77 80 78 79 78 79 .stop .stop))) (.node 73 80 75 77 74 79 (.node 75
  80 77 78 76 79 (.node 77 80 78 79 78 79 .stop .stop) (.node 75 78 76 77 76 77 .stop .stop))
  (.node 73 77 74 75 74 76 (.node 74 77 75 76 75 76 .stop .stop) .stop)))))))) (.node 0 118 45 73
  0 117 (.node 45 118 73 90 46 117 (.node 73 118 90 101 74 117 (.node 90 118 101 107 91 117 (.node
  101 118 107 111 102 117 (.node 107 118 111 114 108 117 (.node 111 118 114 116 112 117 (.node 114
  118 116 117 115 117 .stop (.node 114 117 115 116 115 116 .stop .stop)) (.node 111 116 113 114
  112 115 (.node 113 116 114 115 114 115 .stop .stop) (.node 111 114 112 113 112 113 .stop
  .stop))) (.node 107 114 109 111 108 113 (.node 109 114 111 112 110 113 (.node 111 114 112 113
  112 113 .stop .stop) (.node 109 112 110 111 110 111 .stop .stop)) (.node 107 111 108 109 108 110
  (.node 108 111 109 110 109 110 .stop .stop) .stop))) (.node 101 111 105 107 102 110 (.node 105
  111 107 109 106 110 (.node 107 111 109 110 108 110 .stop (.node 107 110 108 109 108 109 .stop
  .stop)) (.node 105 109 106 107 106 108 (.node 106 109 107 108 107 108 .stop .stop) .stop))
  (.node 101 107 103 105 102 106 (.node 103 107 105 106 104 106 .stop (.node 103 106 104 105 104
  105 .stop .stop)) (.node 101 105 102 103 102 104 (.node 102 105 103 104 103 104 .stop .stop)
  .stop)))) (.node 90 107 97 101 91 106 (.node 97 107 101 103 98 106 (.node 101 107 103 105 102
  106 (.node 103 107 105 106 104 106 .stop (.node 103 106 104 105 104 105 .stop .stop)) (.node 101
  105 102 103 102 104 (.node 102 105 103 104 103 104 .stop .stop) .stop)) (.node 97 103 99 101 98
  102 (.node 99 103 101 102 100 102 .stop (.node 99 102 100 101 100 101 .stop .stop)) (.node 97
  101 98 99 98 100 (.node 98 101 99 100 99 100 .stop .stop) .stop))) (.node 90 101 94 97 91 100
  (.node 94 101 97 99 95 100 (.node 97 101 99 100 98 100 .stop (.node 97 100 98 99 98 99 .stop
  .stop)) (.node 94 99 96 97 95 98 (.node 96 99 97 98 97 98 .stop .stop) (.node 94 97 95 96 95 96
  .stop .stop))) (.node 90 97 92 94 91 96 (.node 92 97 94 95 93 96 (.node 94 97 95 96 95 96 .stop
  .stop) (.node 92 95 93 94 93 94 .stop .stop)) (.node 90 94 91 92 91 93 (.node 91 94 92 93 92 93
  .stop .stop) .stop))))) (.node 73 101 84 90 74 100 (.node 84 101 90 94 85 100 (.node 90 101 94
  97 91 100 (.node 94 101 97 99 95 100 (.node 97 101 99 100 98 100 .stop (.node 97 100 98 99 98 99
  .stop .stop)) (.node 94 99 96 97 95 98 (.node 96 99 97 98 97 98 .stop .stop) (.node 94 97 95 96
  95 96 .stop .stop))) (.node 90 97 92 94 91 96 (.node 92 97 94 95 93 96 (.node 94 97 95 96 95 96
  .stop .stop) (.node 92 95 93 94 93 94 .stop .stop)) (.node 90 94 91 92 91 93 (.node 91 94 92 93
  92 93 .stop .stop) .stop))) (.node 84 94 88 90 85 93 (.node 88 94 90 92 89 93 (.node 90 94 92 93
  91 93 .stop (.node 90 93 91 92 91 92 .stop .stop)) (.node 88 92 89 90 89 91 (.node 89 92 90 91
  90 91 .stop .stop) .stop)) (.node 84 90 86 88 85 89 (.node 86 90 88 89 87 89 .stop (.node 86 89
  87 88 87 88 .stop .stop)) (.node 84 88 85 86 85 87 (.node 85 88 86 87 86 87 .stop .stop)
  .stop)))) (.node 73 90 80 84 74 89 (.node 80 90 84 86 81 89 (.node 84 90 86 88 85 89 (.node 86
  90 88 89 87 89 .stop (.node 86 89 87 88 87 88 .stop .stop)) (.node 84 88 85 86 85 87 (.node 85
  88 86 87 86 87 .stop .stop) .stop)) (.node 80 86 82 84 81 85 (.node 82 86 84 85 83 85 .stop
  (.node 82 85 83 84 83 84 .stop .stop)) (.node 80 84 81 82 81 83 (.node 81 84 82 83 82 83 .stop
  .stop) .stop))) (.node 73 84 77 80 74 83 (.node 77 84 80 82 78 83 (.node 80 84 82 83 81 83 .stop
  (.node 80 83 81 82 81 82 .stop .stop)) (.node 77 82 79 80 78 81 (.node 79 82 80 81 80 81 .stop
  .stop) (.node 77 80 78 79 78 79 .stop .stop))) (.node 73 80 75 77 74 79 (.node 75 80 77 78 76 79
  (.node 77 80 78 79 78 79 .stop .stop) (.node 75 78 76 77 76 77 .stop .stop)) (.node 73 77 74 75
  74 76 (.node 74 77 75 76 75 76 .stop .stop) .stop)))))) (.node 45 90 62 73 46 89 (.node 62 90 73
  79 63 89 (.node 73 90 79 83 74 89 (.node 79 90 83 86 80 89 (.node 83 90 86 88 84 89 (.node 86 90
  88 89 87 89 .stop (.node 86 89 87 88 87 88 .stop .stop)) (.node 83 88 85 86 84 87 (.node 85 88
  86 87 86 87 .stop .stop) (.node 83 86 84 85 84 85 .stop .stop))) (.node 79 86 81 83 80 85 (.node
  81 86 83 84 82 85 (.node 83 86 84 85 84 85 .stop .stop) (.node 81 84 82 83 82 83 .stop .stop))
  (.node 79 83 80 81 80 82 (.node 80 83 81 82 81 82 .stop .stop) .stop))) (.node 73 83 77 79 74 82
  (.node 77 83 79 81 78 82 (.node 79 83 81 82 80 82 .stop (.node 79 82 80 81 80 81 .stop .stop))
  (.node 77 81 78 79 78 80 (.node 78 81 79 80 79 80 .stop .stop) .stop)) (.node 73 79 75 77 74 78
  (.node 75 79 77 78 76 78 .stop (.node 75 78 76 77 76 77 .stop .stop)) (.node 73 77 74 75 74 76
  (.node 74 77 75 76 75 76 .stop .stop) .stop)))) (.node 62 79 69 73 63 78 (.node 69 79 73 75 70
  78 (.node 73 79 75 77 74 78 (.node 75 79 77 78 76 78 .stop (.node 75 78 76 77 76 77 .stop
  .stop)) (.node 73 77 74 75 74 76 (.node 74 77 75 76 75 76 .stop .stop) .stop)) (.node 69 75 71
  73 70 74 (.node 71 75 73 74 72 74 .stop (.node 71 74 72 73 72 73 .stop .stop)) (.node 69 73 70
  71 70 72 (.node 70 73 71 72 71 72 .stop .stop) .stop))) (.node 62 73 66 69 63 72 (.node 66 73 69
  71 67 72 (.node 69 73 71 72 70 72 .stop (.node 69 72 70 71 70 71 .stop .stop)) (.node 66 71 68
  69 67 70 (.node 68 71 69 70 69 70 .stop .stop) (.node 66 69 67 68 67 68 .stop .stop))) (.node 62
  69 64 66 63 68 (.node 64 69 66 67 65 68 (.node 66 69 67 68 67 68 .stop .stop) (.node 64 67 65 66
  65 66 .stop .stop)) (.node 62 66 63 64 63 65 (.node 63 66 64 65 64 65 .stop .stop) .stop)))))
  (.node 45 73 56 62 46 72 (.node 56 73 62 66 57 72 (.node 62 73 66 69 63 72 (.node 66 73 69 71 67
  72 (.node 69 73 71 72 70 72 .stop (.node 69 72 70 71 70 71 .stop .stop)) (.node 66 71 68 69 67
  70 (.node 68 71 69 70 69 70 .stop .stop) (.node 66 69 67 68 67 68 .stop .stop))) (.node 62 69 64
  66 63 68 (.node 64 69 66 67 65 68 (.node 66 69 67 68 67 68 .stop .stop) (.node 64 67 65 66 65 66
  .stop .stop)) (.node 62 66 63 64 63 65 (.node 63 66 64 65 64 65 .stop .stop) .stop))) (.node 56
  66 60 62 57 65 (.node 60 66 62 64 61 65 (.node 62 66 64 65 63 65 .stop (.node 62 65 63 64 63 64
  .stop .stop)) (.node 60 64 61 62 61 63 (.node 61 64 62 63 62 63 .stop .stop) .stop)) (.node 56
  62 58 60 57 61 (.node 58 62 60 61 59 61 .stop (.node 58 61 59 60 59 60 .stop .stop)) (.node 56
  60 57 58 57 59 (.node 57 60 58 59 58 59 .stop .stop) .stop)))) (.node 45 62 52 56 46 61 (.node
  52 62 56 58 53 61 (.node 56 62 58 60 57 61 (.node 58 62 60 61 59 61 .stop (.node 58 61 59 60 59
  60 .stop .stop)) (.node 56 60 57 58 57 59 (.node 57 60 58 59 58 59 .stop .stop) .stop)) (.node
  52 58 54 56 53 57 (.node 54 58 56 57 55 57 .stop (.node 54 57 55 56 55 56 .stop .stop)) (.node
  52 56 53 54 53 55 (.node 53 56 54 55 54 55 .stop .stop) .stop))) (.node 45 56 49 52 46 55 (.node
  49 56 52 54 50 55 (.node 52 56 54 55 53 55 .stop (.node 52 55 53 54 53 54 .stop .stop)) (.node
  49 54 51 52 50 53 (.node 51 54 52 53 52 53 .stop .stop) (.node 49 52 50 51 50 51 .stop .stop)))
  (.node 45 52 47 49 46 51 (.node 47 52 49 50 48 51 (.node 49 52 50 51 50 51 .stop .stop) (.node
  47 50 48 49 48 49 .stop .stop)) (.node 45 49 46 47 46 48 (.node 46 49 47 48 47 48 .stop .stop)
  .stop))))))) (.node 0 73 28 45 0 72 (.node 28 73 45 56 29 72 (.node 45 73 56 62 46 72 (.node 56
  73 62 66 57 72 (.node 62 73 66 69 63 72 (.node 66 73 69 71 67 72 (.node 69 73 71 72 70 72 .stop
  (.node 69 72 70 71 70 71 .stop .stop)) (.node 66 71 68 69 67 70 (.node 68 71 69 70 69 70 .stop
  .stop) (.node 66 69 67 68 67 68 .stop .stop))) (.node 62 69 64 66 63 68 (.node 64 69 66 67 65 68
  (.node 66 69 67 68 67 68 .stop .stop) (.node 64 67 65 66 65 66 .stop .stop)) (.node 62 66 63 64
  63 65 (.node 63 66 64 65 64 65 .stop .stop) .stop))) (.node 56 66 60 62 57 65 (.node 60 66 62 64
  61 65 (.node 62 66 64 65 63 65 .stop (.node 62 65 63 64 63 64 .stop .stop)) (.node 60 64 61 62
  61 63 (.node 61 64 62 63 62 63 .stop .stop) .stop)) (.node 56 62 58 60 57 61 (.node 58 62 60 61
  59 61 .stop (.node 58 61 59 60 59 60 .stop .stop)) (.node 56 60 57 58 57 59 (.node 57 60 58 59
  58 59 .stop .stop) .stop)))) (.node 45 62 52 56 46 61 (.node 52 62 56 58 53 61 (.node 56 62 58
  60 57 61 (.node 58 62 60 61 59 61 .stop (.node 58 61 59 60 59 60 .stop .stop)) (.node 56 60 57
  58 57 59 (.node 57 60 58 59 58 59 .stop .stop) .stop)) (.node 52 58 54 56 53 57 (.node 54 58 56
  57 55 57 .stop (.node 54 57 55 56 55 56 .stop .stop)) (.node 52 56 53 54 53 55 (.node 53 56 54
  55 54 55 .stop .stop) .stop))) (.node 45 56 49 52 46 55 (.node 49 56 52 54 50 55 (.node 52 56 54
  55 53 55 .stop (.node 52 55 53 54 53 54 .stop .stop)) (.node 49 54 51 52 50 53 (.node 51 54 52
  53 52 53 .stop .stop) (.node 49 52 50 51 50 51 .stop .stop))) (.node 45 52 47 49 46 51 (.node 47
  52 49 50 48 51 (.node 49 52 50 51 50 51 .stop .stop) (.node 47 50 48 49 48 49 .stop .stop))
  (.node 45 49 46 47 46 48 (.node 46 49 47 48 47 48 .stop .stop) .stop))))) (.node 28 56 39 45 29
  55 (.node 39 56 45 49 40 55 (.node 45 56 49 52 46 55 (.node 49 56 52 54 50 55 (.node 52 56 54 55
  53 55 .stop (.node 52 55 53 54 53 54 .stop .stop)) (.node 49 54 51 52 50 53 (.node 51 54 52 53
  52 53 .stop .stop) (.node 49 52 50 51 50 51 .stop .stop))) (.node 45 52 47 49 46 51 (.node 47 52
  49 50 48 51 (.node 49 52 50 51 50 51 .stop .stop) (.node 47 50 48 49 48 49 .stop .stop)) (.node
  45 49 46 47 46 48 (.node 46 49 47 48 47 48 .stop .stop) .stop))) (.node 39 49 43 45 40 48 (.node
  43 49 45 47 44 48 (.node 45 49 47 48 46 48 .stop (.node 45 48 46 47 46 47 .stop .stop)) (.node
  43 47 44 45 44 46 (.node 44 47 45 46 45 46 .stop .stop) .stop)) (.node 39 45 41 43 40 44 (.node
  41 45 43 44 42 44 .stop (.node 41 44 42 43 42 43 .stop .stop)) (.node 39 43 40 41 40 42 (.node
  40 43 41 42 41 42 .stop .stop) .stop)))) (.node 28 45 35 39 29 44 (.node 35 45 39 41 36 44
  (.node 39 45 41 43 40 44 (.node 41 45 43 44 42 44 .stop (.node 41 44 42 43 42 43 .stop .stop))
  (.node 39 43 40 41 40 42 (.node 40 43 41 42 41 42 .stop .stop) .stop)) (.node 35 41 37 39 36 40
  (.node 37 41 39 40 38 40 .stop (.node 37 40 38 39 38 39 .stop .stop)) (.node 35 39 36 37 36 38
  (.node 36 39 37 38 37 38 .stop .stop) .stop))) (.node 28 39 32 35 29 38 (.node 32 39 35 37 33 38
  (.node 35 39 37 38 36 38 .stop (.node 35 38 36 37 36 37 .stop .stop)) (.node 32 37 34 35 33 36
  (.node 34 37 35 36 35 36 .stop .stop) (.node 32 35 33 34 33 34 .stop .stop))) (.node 28 35 30 32
  29 34 (.node 30 35 32 33 31 34 (.node 32 35 33 34 33 34 .stop .stop) (.node 30 33 31 32 31 32
  .stop .stop)) (.node 28 32 29 30 29 31 (.node 29 32 30 31 30 31 .stop .stop) .stop)))))) (.node
  0 45 17 28 0 44 (.node 17 45 28 34 18 44 (.node 28 45 34 38 29 44 (.node 34 45 38 41 35 44
  (.node 38 45 41 43 39 44 (.node 41 45 43 44 42 44 .stop (.node 41 44 42 43 42 43 .stop .stop))
  (.node 38 43 40 41 39 42 (.node 40 43 41 42 41 42 .stop .stop) (.node 38 41 39 40 39 40 .stop
  .stop))) (.node 34 41 36 38 35 40 (.node 36 41 38 39 37 40 (.node 38 41 39 40 39 40 .stop .stop)
  (.node 36 39 37 38 37 38 .stop .stop)) (.node 34 38 35 36 35 37 (.node 35 38 36 37 36 37 .stop
  .stop) .stop))) (.node 28 38 32 34 29 37 (.node 32 38 34 36 33 37 (.node 34 38 36 37 35 37 .stop
  (.node 34 37 35 36 35 36 .stop .stop)) (.node 32 36 33 34 33 35 (.node 33 36 34 35 34 35 .stop
  .stop) .stop)) (.node 28 34 30 32 29 33 (.node 30 34 32 33 31 33 .stop (.node 30 33 31 32 31 32
  .stop .stop)) (.node 28 32 29 30 29 31 (.node 29 32 30 31 30 31 .stop .stop) .stop)))) (.node 17
  34 24 28 18 33 (.node 24 34 28 30 25 33 (.node 28 34 30 32 29 33 (.node 30 34 32 33 31 33 .stop
  (.node 30 33 31 32 31 32 .stop .stop)) (.node 28 32 29 30 29 31 (.node 29 32 30 31 30 31 .stop
  .stop) .stop)) (.node 24 30 26 28 25 29 (.node 26 30 28 29 27 29 .stop (.node 26 29 27 28 27 28
  .stop .stop)) (.node 24 28 25 26 25 27 (.node 25 28 26 27 26 27 .stop .stop) .stop))) (.node 17
  28 21 24 18 27 (.node 21 28 24 26 22 27 (.node 24 28 26 27 25 27 .stop (.node 24 27 25 26 25 26
  .stop .stop)) (.node 21 26 23 24 22 25 (.node 23 26 24 25 24 25 .stop .stop) (.node 21 24 22 23
  22 23 .stop .stop))) (.node 17 24 19 21 18 23 (.node 19 24 21 22 20 23 (.node 21 24 22 23 22 23
  .stop .stop) (.node 19 22 20 21 20 21 .stop .stop)) (.node 17 21 18 19 18 20 (.node 18 21 19 20
  19 20 .stop .stop) .stop))))) (.node 0 28 11 17 0 27 (.node 11 28 17 21 12 27 (.node 17 28 21 24
  18 27 (.node 21 28 24 26 22 27 (.node 24 28 26 27 25 27 .stop (.node 24 27 25 26 25 26 .stop
  .stop)) (.node 21 26 23 24 22 25 (.node 23 26 24 25 24 25 .stop .stop) (.node 21 24 22 23 22 23
  .stop .stop))) (.node 17 24 19 21 18 23 (.node 19 24 21 22 20 23 (.node 21 24 22 23 22 23 .stop
  .stop) (.node 19 22 20 21 20 21 .stop .stop)) (.node 17 21 18 19 18 20 (.node 18 21 19 20 19 20
  .stop .stop) .stop))) (.node 11 21 15 17 12 20 (.node 15 21 17 19 16 20 (.node 17 21 19 20 18 20
  .stop (.node 17 20 18 19 18 19 .stop .stop)) (.node 15 19 16 17 16 18 (.node 16 19 17 18 17 18
  .stop .stop) .stop)) (.node 11 17 13 15 12 16 (.node 13 17 15 16 14 16 .stop (.node 13 16 14 15
  14 15 .stop .stop)) (.node 11 15 12 13 12 14 (.node 12 15 13 14 13 14 .stop .stop) .stop))))
  (.node 0 17 7 11 0 16 (.node 7 17 11 13 8 16 (.node 11 17 13 15 12 16 (.node 13 17 15 16 14 16
  .stop (.node 13 16 14 15 14 15 .stop .stop)) (.node 11 15 12 13 12 14 (.node 12 15 13 14 13 14
  .stop .stop) .stop)) (.node 7 13 9 11 8 12 (.node 9 13 11 12 10 12 .stop (.node 9 12 10 11 10 11
  .stop .stop)) (.node 7 11 8 9 8 10 (.node 8 11 9 10 9 10 .stop .stop) .stop))) (.node 0 11 4 7 0
  10 (.node 4 11 7 9 5 10 (.node 7 11 9 10 8 10 .stop (.node 7 10 8 9 8 9 .stop .stop)) (.node 4 9
  6 7 5 8 (.node 6 9 7 8 7 8 .stop .stop) (.node 4 7 5 6 5 6 .stop .stop))) (.node 0 7 2 4 0 6
  (.node 2 7 4 5 3 6 (.node 4 7 5 6 5 6 .stop .stop) (.node 2 5 3 4 3 4 .stop .stop)) (.node 0 4 1
  2 0 3 (.node 1 4 2 3 2 3 .stop .stop) .stop))))))))))

/-- The full certificate: the root is the initial bracket with probes
`191, 309`, covering every peak position `p ∈ [0, maxH]`. -/
def gssCert : GTree := .node 0 500 191 309 0 500 gssCertLo gssCertHi

set_option maxRecDepth 10000 in
lemma gssCert_ok : certOK 500 gssCert = true := by decide

/-- Main correctness property of the golden-section search under the
strict-unimodality assumption: the recorded `x1` is within one lattice
unit of the peak, and the recorded `fitness_x1` is the row value at an
index within one lattice unit of the recorded `x1`. -/
lemma gss_unimodal_good (f : ℤ → ℚ) (p : ℤ) (hu : StrictUnimodalOn f p) :
    GssGood f p (gssRun f) := by
  have hp0 : 0 ≤ p := hu.1
  have hp1 : p ≤ (maxH : ℤ) := hu.2.1
  have hpn : ((p.toNat : ℕ) : ℤ) = p := Int.toNat_of_nonneg hp0
  have hu' : StrictUnimodalOn f ((p.toNat : ℕ) : ℤ) := by rw [hpn]; exact hu
  have hple : p.toNat ≤ 500 := by
    simp only [maxH] at hp1
    omega
  have hmain := certOK_sound f p.toNat hu' 500 0 500 191 309 0 500
    gssCertLo gssCertHi 0 gssCert_ok (by omega) hple (by norm_num) (by norm_num)
    (by norm_num [maxH]) (by norm_num)
  have hstate : (⟨((0 : ℕ) : ℤ), ((500 : ℕ) : ℤ), ((191 : ℕ) : ℤ),
      ((309 : ℕ) : ℤ)⟩ : GssState) = gssInit := by
    rw [gssInit_eq]
    norm_num
  rw [hstate, hpn] at hmain
  exact hmain

set_option maxRecDepth 20000 in
/-- Concrete run of the search on the strictly increasing row
`f h = h`: the final control state and the recorded `fitness_x1`. -/
lemma gssRun_id_eq : gssRun (fun h => (h : ℚ)) = (⟨498, 500, 499, 499⟩, 498) := by
  have h1 : gssAux (fun h => (h : ℚ)) 11 (gssInit, 0) = (⟨498, 500, 499, 499⟩, 498) := by
    decide
  have h2 : gssRun (fun h => (h : ℚ)) =
      gssAux (fun h => (h : ℚ)) 489 (gssAux (fun h => (h : ℚ)) 11 (gssInit, 0)) := by
    rw [gssRun, ← gssAux_add]
  rw [h2, h1, gssAux_stable (by norm_num)]

/-- Faithfulness of the integer rounding: `rndN m` equals the exact real
rounding of `m * phi_inv` with `phi_inv = 1/((√5+1)/2)`, as computed at
line 36 of the source (C++ `round` on a nonnegative argument). -/
lemma rndN_eq_round (m : ℕ) :
    (rndN m : ℤ) = round ((m : ℝ) * (1 / ((Real.sqrt 5 + 1) / 2))) := by
  have hs5 : Real.sqrt 5 * Real.sqrt 5 = 5 := Real.mul_self_sqrt (by norm_num)
  have hs5nn : (0:ℝ) ≤ Real.sqrt 5 := Real.sqrt_nonneg 5
  have hphi : (1:ℝ) / ((Real.sqrt 5 + 1) / 2) = (Real.sqrt 5 - 1) / 2 := by
    have hne : Real.sqrt 5 + 1 ≠ 0 := by positivity
    field_simp
    nlinarith [hs5]
  rw [hphi, round_eq]
  rcases Nat.eq_zero_or_pos m with hm | hm
  · subst hm
    have : rndN 0 = 0 := by decide
    rw [this]
    norm_num
  · obtain ⟨hs1, hs2⟩ := isqrt_correct (5 * m * m)
    obtain ⟨hb1, hb2⟩ := isqrt5_bounds m
    set s := isqrt (5 * m * m) with hsdef
    have hmpos : (0:ℝ) < (m:ℝ) := by exact_mod_cast hm
    have hsqeq : Real.sqrt (5 * (m:ℝ)^2) = (m:ℝ) * Real.sqrt 5 := by
      rw [show 5*(m:ℝ)^2 = (m:ℝ)^2 * 5 by ring, Real.sqrt_mul (by positivity) 5,
        Real.sqrt_sq (le_of_lt hmpos)]
    have hup : (m:ℝ) * Real.sqrt 5 < (s:ℝ) + 1 := by
      rw [← hsqeq]
      rw [Real.sqrt_lt' (by positivity)]
      have hc : ((5*m*m : ℕ):ℝ) < (((s+1)*(s+1) : ℕ):ℝ) := by exact_mod_cast hs2
      push_cast at hc
      nlinarith [hc]
    have hne : s * s ≠ 5 * m * m := by
      intro heq
      have h5irr : Irrational (Real.sqrt 5) :=
        (by norm_num : Nat.Prime 5).irrational_sqrt
      apply h5irr
      have hc : ((s*s : ℕ):ℝ) = ((5*m*m:ℕ):ℝ) := by exact_mod_cast heq
      push_cast at hc
      have hsq' : ((s:ℝ)/(m:ℝ))^2 = 5 := by
        field_simp
        nlinarith [hc]
      have hval : Real.sqrt 5 = (s:ℝ)/(m:ℝ) := by
        rw [← hsq', Real.sqrt_sq (by positivity)]
      exact ⟨(s:ℚ)/(m:ℚ), by push_cast; rw [hval]⟩
    have hlow : (s:ℝ) < (m:ℝ) * Real.sqrt 5 := by
      rw [← hsqeq]
      rw [Real.lt_sqrt (by positivity)]
      have hstrict : s * s < 5 * m * m := lt_of_le_of_ne hs1 hne
      have hc : ((s*s : ℕ):ℝ) < ((5*m*m:ℕ):ℝ) := by exact_mod_cast hstrict
      push_cast at hc
      nlinarith [hc]
    have harg : (m:ℝ) * ((Real.sqrt 5 - 1)/2) + 1/2 = ((m:ℝ) * Real.sqrt 5 - m + 1)/2 := by
      ring
    rw [harg]
    have hr : rndN m = (s - m + 1) / 2 := rfl
    have hkval : ((s - m + 1 : ℕ) : ℤ) = (s:ℤ) - m + 1 := by
      have : m ≤ s := by omega
      omega
    rcases Int.even_or_odd ((s:ℤ) - m + 1) with ⟨q, hq⟩ | ⟨q, hq⟩
    · have hfloor : ⌊((m:ℝ) * Real.sqrt 5 - m + 1)/2⌋ = q := by
        rw [Int.floor_eq_iff]
        have hql : ((q:ℝ) + (q:ℝ)) = ((s:ℝ) - m + 1) := by
          have : ((q + q : ℤ) : ℝ) = (((s:ℤ) - m + 1 : ℤ) : ℝ) := by exact_mod_cast hq.symm
          push_cast at this
          linarith [this]
        constructor
        · linarith [hlow]
        · linarith [hup]
      rw [hfloor]
      omega
    · have hfloor : ⌊((m:ℝ) * Real.sqrt 5 - m + 1)/2⌋ = q := by
        rw [Int.floor_eq_iff]
        have hql : (2*(q:ℝ) + 1) = ((s:ℝ) - m + 1) := by
          have : ((2*q + 1 : ℤ) : ℝ) = (((s:ℤ) - m + 1 : ℤ) : ℝ) := by exact_mod_cast hq.symm
          push_cast at this
          linarith [this]
        constructor
        · linarith [hlow]
        · linarith [hup]
      rw [hfloor]
      omega

/-! ### The fitness backward-propagation step of `OptDec` (lines 253-273)

The per-cell update reads the static arrays `pPred, pKilled, mu, repro,
dnew` and the current `Wopt`; they are passed as function parameters. -/

/-- `Predation` (lines 137-145) with a natural exponent:
`pKilled[h] = max(0, 1 - (h/maxH)^alpha)`.  The source's `alpha` is a
runtime `double`; the claims only read `pKilled` as a per-`h` array, and
concrete instances below use `alpha = 1`. -/
def pKilledFn (alphaN : ℕ) (h : ℕ) : ℚ := max 0 (1 - ((h : ℚ) / (maxH : ℚ)) ^ alphaN)

/-- The assignment to `W[t][ts][d][h]` at lines 259-266:
`d1 = floor(dnew[d][h]); d2 = ceil(dnew[d][h]); ddec = dnew[d][h] - d1;
W = pPred[t]*pAttack*(1-pKilled[h])*(1-mu[d])*(repro[ts][d] +
(1-ddec)*Wopt[0][ts][d1] + ddec*Wopt[0][ts][d2]) + (1-pPred[t]*pAttack)*
(1-mu[d])*(repro[ts][d] + (1-ddec)*Wopt[t][ts][d1] + ddec*Wopt[t][ts][d2])`. -/
def optDecW (pPredA : ℕ → ℚ) (pAttackv : ℚ) (pKilledA : ℕ → ℚ) (muA : ℕ → ℚ)
    (reproA : ℕ → ℕ → ℚ) (dnewA : ℕ → ℕ → ℚ) (WoptA : ℕ → ℕ → ℤ → ℚ)
    (t ts d h : ℕ) : ℚ :=
  let d1 : ℤ := ⌊dnewA d h⌋
  let d2 : ℤ := ⌈dnewA d h⌉
  let ddec : ℚ := dnewA d h - (d1 : ℚ)
  pPredA t * pAttackv * (1 - pKilledA h) * (1 - muA d) *
      (reproA ts d + (1 - ddec) * WoptA 0 ts d1 + ddec * WoptA 0 ts d2) +
    (1 - pPredA t * pAttackv) * (1 - muA d) *
      (reproA ts d + (1 - ddec) * WoptA t ts d1 + ddec * WoptA t ts d2)

/-- The fitness backward-propagation step as the specification sentence
states it (for comparison with `optDecW`): a "survives an attack" branch
weighted by `pPred[t]·pAttack·(1-pKilled[h])`, a "no attack" branch
weighted by the complement of that weight, and the no-attack continuation
read from the `Wopt` row `min(maxT, t+1)`. -/
def specWClaim (pPredA : ℕ → ℚ) (pAttackv : ℚ) (pKilledA : ℕ → ℚ) (muA : ℕ → ℚ)
    (reproA : ℕ → ℕ → ℚ) (dnewA : ℕ → ℕ → ℚ) (WoptA : ℕ → ℕ → ℤ → ℚ)
    (t ts d h : ℕ) : ℚ :=
  let d1 : ℤ := ⌊dnewA d h⌋
  let d2 : ℤ := ⌈dnewA d h⌉
  let ddec : ℚ := dnewA d h - (d1 : ℚ)
  let w : ℚ := pPredA t * pAttackv * (1 - pKilledA h)
  w * ((1 - muA d) *
      (reproA ts d + (1 - ddec) * WoptA 0 ts d1 + ddec * WoptA 0 ts d2)) +
    (1 - w) * ((1 - muA d) *
      (reproA ts d + (1 - ddec) * WoptA (min maxT (t + 1)) ts d1 +
        ddec * WoptA (min maxT (t + 1)) ts d2))

/-- The amended sentence for the same step: the "survives an attack"
branch is weighted by `pPred[t]·pAttack·(1-pKilled[h])` and the
"no attack" branch by `1 - pPred[t]·pAttack` (the complement of the
attack probability alone), and the no-attack continuation is read from
the `Wopt` row `t` (whose entries were computed in this same sweep from
`Wnext[min(maxT,t+1)][ts+1]`). -/
def amendedW (pPredA : ℕ → ℚ) (pAttackv : ℚ) (pKilledA : ℕ → ℚ) (muA : ℕ → ℚ)
    (reproA : ℕ → ℕ → ℚ) (dnewA : ℕ → ℕ → ℚ) (WoptA : ℕ → ℕ → ℤ → ℚ)
    (t ts d h : ℕ) : ℚ :=
  let d1 : ℤ := ⌊dnewA d h⌋
  let d2 : ℤ := ⌈dnewA d h⌉
  let ddec : ℚ := dnewA d h - (d1 : ℚ)
  let wAtt : ℚ := pPredA t * pAttackv * (1 - pKilledA h)
  let wNo : ℚ := 1 - pPredA t * pAttackv
  wAtt * ((1 - muA d) *
      (reproA ts d + (1 - ddec) * WoptA 0 ts d1 + ddec * WoptA 0 ts d2)) +
    wNo * ((1 - muA d) *
      (reproA ts d + (1 - ddec) * WoptA t ts d1 + ddec * WoptA t ts d2))

/-- The `t/d/h` loop nest of lines 253-273 for one value of the outer
`ts` loop variable, acting on the `W` array: cells with
`1 ≤ t ≤ maxT`, the current `ts`, `d ≤ maxD`, `h ≤ maxH` receive the new
value, all others keep their previous contents. -/
def optDecSweepW (pPredA : ℕ → ℚ) (pAttackv : ℚ) (pKilledA : ℕ → ℚ) (muA : ℕ → ℚ)
    (reproA : ℕ → ℕ → ℚ) (dnewA : ℕ → ℕ → ℚ) (WoptA : ℕ → ℕ → ℤ → ℚ)
    (ts : ℕ) (Wold : ℕ → ℕ → ℕ → ℕ → ℚ) : ℕ → ℕ → ℕ → ℕ → ℚ :=
  fun t ts' d h =>
    if 1 ≤ t ∧ t ≤ maxT ∧ ts' = ts ∧ d ≤ maxD ∧ h ≤ maxH then
      optDecW pPredA pAttackv pKilledA muA reproA dnewA WoptA t ts d h
    else Wold t ts' d h

/-- The same loop nest acting on `Wnext` (line 269 copies the new `W`
value into `Wnext`). -/
def optDecSweepWnext (pPredA : ℕ → ℚ) (pAttackv : ℚ) (pKilledA : ℕ → ℚ) (muA : ℕ → ℚ)
    (reproA : ℕ → ℕ → ℚ) (dnewA : ℕ → ℕ → ℚ) (WoptA : ℕ → ℕ → ℤ → ℚ)
    (ts : ℕ) (Wnextold : ℕ → ℕ → ℕ → ℕ → ℚ) : ℕ → ℕ → ℕ → ℕ → ℚ :=
  fun t ts' d h =>
    if 1 ≤ t ∧ t ≤ maxT ∧ ts' = ts ∧ d ≤ maxD ∧ h ≤ maxH then
      optDecW pPredA pAttackv pKilledA muA reproA dnewA WoptA t ts d h
    else Wnextold t ts' d h

/-! ### `FinalFit` (lines 101-115) and `ReplaceFit` (lines 280-305) -/

/-- `FinalFit` on the `Wnext` array: for `t = 1..maxT`, `d = 0..maxD`,
`h = 0..maxH` it writes `Wnext[t][maxTs][d][h] = repro[maxTs][d]`
(the loop starts at `t = 1`: "Wnext is undefined for t=0"). -/
def finalFitWnext (reproA : ℕ → ℕ → ℚ) (Wnextold : ℕ → ℕ → ℕ → ℕ → ℚ) :
    ℕ → ℕ → ℕ → ℕ → ℚ :=
  fun t ts d h =>
    if 1 ≤ t ∧ t ≤ maxT ∧ ts = maxTs ∧ d ≤ maxD ∧ h ≤ maxH then reproA maxTs d
    else Wnextold t ts d h

/-- `FinalFit` on the `V` array: the same loop writes
`V[t][d][h] = repro[maxTs][d]`. -/
def finalFitV (reproA : ℕ → ℕ → ℚ) (Vold : ℕ → ℕ → ℕ → ℚ) : ℕ → ℕ → ℕ → ℚ :=
  fun t d h =>
    if 1 ≤ t ∧ t ≤ maxT ∧ d ≤ maxD ∧ h ≤ maxH then reproA maxTs d
    else Vold t d h

/-- The policy copy of `ReplaceFit` (line 297): for `t = 1..maxT` and
`d = 0..maxD` (inside the `h` loop, which repeats the same write),
`hormone[t][maxTs][d] = hormone[t][0][d]`. -/
def replaceFitHormone (hormoneA : ℕ → ℕ → ℕ → ℤ) : ℕ → ℕ → ℕ → ℤ :=
  fun t ts d =>
    if 1 ≤ t ∧ t ≤ maxT ∧ ts = maxTs ∧ d ≤ maxD then hormoneA t 0 d
    else hormoneA t ts d

/-! ### The forward-propagation flow of `fwdCalc` (lines 399-416)

For one occupied source state `(t, ts, d, h)` with mass `F[t][ts][d][h]`,
the inner loop adds four outflow contributions to target states and three
contributions to the death tallies.  Each term is embedded as a function
of the values it reads. -/

/-- Line 405: outflow to `F[1][ts+1][d1][h1]` (attack survived, lower
damage-interpolation target). -/
def fwdFlowAttackLow (Fv pPredt pAttackv pKilledh mud ddec : ℚ) : ℚ :=
  Fv * pPredt * pAttackv * (1 - pKilledh) * (1 - mud) * (1 - ddec)

/-- Line 407: outflow to `F[1][ts+1][d2][h2]` (attack survived, upper
damage-interpolation target). -/
def fwdFlowAttackHigh (Fv pPredt pAttackv pKilledh mud ddec : ℚ) : ℚ :=
  Fv * pPredt * pAttackv * (1 - pKilledh) * (1 - mud) * ddec

/-- Line 410: outflow to `F[min(maxT-1,t+1)][ts+1][d1][h1]` (no attack,
lower damage-interpolation target). -/
def fwdFlowNoAttackLow (Fv pPredt pAttackv mud ddec : ℚ) : ℚ :=
  Fv * (1 - pPredt * pAttackv) * (1 - mud) * (1 - ddec)

/-- Line 412: outflow to `F[min(maxT-1,t+1)][ts+1][d2][h2]` (no attack,
upper damage-interpolation target). -/
def fwdFlowNoAttackHigh (Fv pPredt pAttackv mud ddec : ℚ) : ℚ :=
  Fv * (1 - pPredt * pAttackv) * (1 - mud) * ddec

/-- Line 414: contribution to the predation-death tally. -/
def fwdPredDeaths (Fv pPredt pAttackv pKilledh : ℚ) : ℚ :=
  Fv * pPredt * pAttackv * pKilledh

/-- Line 415: contribution to the damage-death tally. -/
def fwdDamageDeaths (Fv pPredt pAttackv pKilledh mud mu0v : ℚ) : ℚ :=
  Fv * (1 - pPredt * pAttackv * pKilledh) * (mud - mu0v)

/-- Line 416: contribution to the background-death tally. -/
def fwdBkgrndDeaths (Fv pPredt pAttackv pKilledh mu0v : ℚ) : ℚ :=
  Fv * (1 - pPredt * pAttackv * pKilledh) * mu0v

/-! ### The season-boundary normalisation of `fwdCalc` (lines 422-441) -/

/-- The season-boundary step: line 423 divides the single cell
`F[1][maxTs][0][0]` by `1 - predDeaths - damageDeaths - bkgrndDeaths`;
then the loop over `t = 1..maxT`, `d = 0..maxD`, `h = 0..maxH` divides
`F[t][maxTs][d][h]` by `1 - predDeaths - damageDeaths` (line 432, note
the missing `bkgrndDeaths`), copies it into `F[t][0][d][h]` (line 434)
and zeroes `F[t][ts][d][h]` for `ts = 1..maxTs` (lines 435-438). -/
def seasonNormalizeF (F : ℕ → ℕ → ℕ → ℕ → ℚ)
    (predDeaths damageDeaths bkgrndDeaths : ℚ) : ℕ → ℕ → ℕ → ℕ → ℚ :=
  let F1 : ℕ → ℕ → ℕ → ℕ → ℚ := fun t ts d h =>
    if t = 1 ∧ ts = maxTs ∧ d = 0 ∧ h = 0 then
      F t ts d h / (1 - predDeaths - damageDeaths - bkgrndDeaths)
    else F t ts d h
  fun t ts d h =>
    if 1 ≤ t ∧ t ≤ maxT ∧ d ≤ maxD ∧ h ≤ maxH then
      if ts = 0 then F1 t maxTs d h / (1 - predDeaths - damageDeaths)
      else if ts ≤ maxTs then 0
      else F1 t ts d h
    else F1 t ts d h

/-- The season-boundary step as the claim states it (for comparison):
every boundary cell is divided once by `1` minus the total of all three
death tallies. -/
def specSeasonNormalizeF (F : ℕ → ℕ → ℕ → ℕ → ℚ)
    (predDeaths damageDeaths bkgrndDeaths : ℚ) : ℕ → ℕ → ℕ → ℕ → ℚ :=
  fun t ts d h =>
    if 1 ≤ t ∧ t ≤ maxT ∧ ts = maxTs ∧ d ≤ maxD ∧ h ≤ maxH then
      F t ts d h / (1 - predDeaths - damageDeaths - bkgrndDeaths)
    else F t ts d h

/-- Total frequency mass of one `ts` layer, over the states the claim
sums: `t ∈ [1, maxT]`, `d ∈ [0, maxD]`, `h ∈ [0, maxH]`. -/
def seasonTotal (F : ℕ → ℕ → ℕ → ℕ → ℚ) (ts : ℕ) : ℚ :=
  ∑ t ∈ Finset.Icc 1 maxT, ∑ d ∈ Finset.range (maxD + 1),
    ∑ h ∈ Finset.range (maxH + 1), F t ts d h

/-- A concrete frequency table at a season boundary: all surviving mass
`7/10` in the cell `F[1][maxTs][0][0]` (consistent, by the conservation
identity, with death tallies of `1/10` each). -/
def F0ex : ℕ → ℕ → ℕ → ℕ → ℚ :=
  fun t ts d h => if t = 1 ∧ ts = maxTs ∧ d = 0 ∧ h = 0 then 7 / 10 else 0

/-- Evaluation of `seasonTotal` for a layer supported on the single cell
`(t, d, h) = (1, 0, 0)`. -/
lemma seasonTotal_single (F : ℕ → ℕ → ℕ → ℕ → ℚ) (ts : ℕ) (v : ℚ)
    (hv : F 1 ts 0 0 = v)
    (hz : ∀ t d h, 1 ≤ t → t ≤ maxT → d ≤ maxD → h ≤ maxH →
      ¬(t = 1 ∧ d = 0 ∧ h = 0) → F t ts d h = 0) :
    seasonTotal F ts = v := by
  unfold seasonTotal
  rw [Finset.sum_eq_single_of_mem 1 (by simp [maxT])]
  · rw [Finset.sum_eq_single_of_mem 0 (by simp)]
    · rw [Finset.sum_eq_single_of_mem 0 (by simp)]
      · exact hv
      · intro h hh hne
        exact hz 1 0 h le_rfl (by simp [maxT]) (by simp [maxD])
          (by simp [maxH] at hh ⊢; omega) (by simp [hne])
    · intro d hd hne
      apply Finset.sum_eq_zero
      intro h hh
      exact hz 1 d h le_rfl (by simp [maxT]) (by simp [maxD] at hd ⊢; omega)
        (by simp [maxH] at hh ⊢; omega) (by simp [hne])
  · intro t ht hne
    apply Finset.sum_eq_zero
    intro d hd
    apply Finset.sum_eq_zero
    intro h hh
    simp only [Finset.mem_Icc] at ht
    exact hz t d h ht.1 ht.2 (by simp [maxD] at hd ⊢; omega)
      (by simp [maxH] at hh ⊢; omega) (by simp [hne])

/-! ### Properties of `PredProb` -/

/-- Unfolding of the `PredProb` recursion for `t ≥ 1`. -/
lemma pPredFn_step (pLeave pArrive pAttack : ℚ) (t : ℕ) (ht : 1 ≤ t) :
    pPredFn pLeave pArrive pAttack (t + 1) =
      (pPredFn pLeave pArrive pAttack t * (1 - pAttack) * (1 - pLeave) +
          (1 - pPredFn pLeave pArrive pAttack t) * pArrive) /
        (1 - pPredFn pLeave pArrive pAttack t * pAttack) := by
  cases t with
  | zero => omega
  | succ k => rfl

/-- Range invariant of the `PredProb` recursion, under rates in `[0,1]`
and the side condition that keeps every update's denominator positive. -/
lemma pPred_bounds (pLeave pArrive pAttack : ℚ) (hL0 : 0 ≤ pLeave)
    (hL1 : pLeave ≤ 1) (hR0 : 0 ≤ pArrive) (hR1 : pArrive ≤ 1)
    (hA0 : 0 ≤ pAttack)
    (hside : pAttack < 1 ∨ (pAttack = 1 ∧ 0 < pLeave ∧ pArrive < 1)) :
    ∀ t : ℕ, 1 ≤ t →
      0 ≤ pPredFn pLeave pArrive pAttack t ∧ pPredFn pLeave pArrive pAttack t ≤ 1 ∧
        0 < 1 - pPredFn pLeave pArrive pAttack t * pAttack := by
  have hA1 : pAttack ≤ 1 := by
    rcases hside with h | ⟨h, _, _⟩
    · linarith
    · linarith [h.le]
  intro t ht
  induction t, ht using Nat.le_induction with
  | base =>
    have hval : pPredFn pLeave pArrive pAttack 1 = 1 - pLeave := rfl
    rw [hval]
    refine ⟨by linarith, by linarith, ?_⟩
    rcases hside with h | ⟨hA, hL, _⟩
    · nlinarith
    · rw [hA]; linarith
  | succ t ht ih =>
    obtain ⟨h0, h1, hden⟩ := ih
    set p := pPredFn pLeave pArrive pAttack t with hp
    rw [pPredFn_step pLeave pArrive pAttack t ht, ← hp]
    have hnum0 : 0 ≤ p * (1 - pAttack) * (1 - pLeave) + (1 - p) * pArrive := by
      have := mul_nonneg (mul_nonneg h0 (by linarith : (0:ℚ) ≤ 1 - pAttack))
        (by linarith : (0:ℚ) ≤ 1 - pLeave)
      have := mul_nonneg (by linarith : (0:ℚ) ≤ 1 - p) hR0
      linarith
    have hnumle : p * (1 - pAttack) * (1 - pLeave) + (1 - p) * pArrive ≤
        1 - p * pAttack := by
      have h1' := mul_nonneg (mul_nonneg h0 (by linarith : (0:ℚ) ≤ 1 - pAttack)) hL0
      have h2' := mul_nonneg (by linarith : (0:ℚ) ≤ 1 - p)
        (by linarith : (0:ℚ) ≤ 1 - pArrive)
      nlinarith
    have hvle : (p * (1 - pAttack) * (1 - pLeave) + (1 - p) * pArrive) /
        (1 - p * pAttack) ≤ 1 := by
      rw [div_le_one hden]
      exact hnumle
    have hv0 : 0 ≤ (p * (1 - pAttack) * (1 - pLeave) + (1 - p) * pArrive) /
        (1 - p * pAttack) := div_nonneg hnum0 (le_of_lt hden)
    refine ⟨hv0, hvle, ?_⟩
    rcases hside with h | ⟨hA, _, hRlt⟩
    · nlinarith
    · have hpne : 1 - p ≠ 0 := by
        rw [hA] at hden
        intro hc
        nlinarith
      have hval : (p * (1 - pAttack) * (1 - pLeave) + (1 - p) * pArrive) /
          (1 - p * pAttack) = pArrive := by
        rw [hA]
        field_simp
      rw [hval, hA]
      linarith

/-- Bracket invariant along a whole run of the search loop. -/
lemma gssAux_inv (f : ℤ → ℚ) : ∀ (n : ℕ) (s : GssState × ℚ), GssInv s.1 →
    GssInv (gssAux f n s).1 := by
  intro n
  induction n with
  | zero => intro s h; exact h
  | succ n ih =>
    intro s h
    by_cases hrun : s.1.x1 < s.1.x2
    · simp only [gssAux, hrun, if_true]
      apply ih
      unfold gssStep
      by_cases hc : f s.1.x1 < f s.1.x2 <;> simp only [hc, if_true, if_false]
      · exact gssInv_branchLow h hrun
      · exact gssInv_branchHigh h hrun
    · rw [gssAux_stable hrun]
      exact h

/-! ### Claim theorems -/

/-- C1 (counterexample): at the reachable state `(t,ts,d,h) = (1,0,0,0)`
with the derived arrays for `pLeave = 1/2, pArrive = 1/10, pAttack = 1/2,
alpha = 1, Kmort = 0, Kfec = 1/20` and the zero-initialised `Wopt`, the
value the code stores into `W[1][0][0][0]` differs from the value the
claim's formula prescribes: the code weights the no-attack branch by
`1 - pPred[t]·pAttack` (not the complement of
`pPred[t]·pAttack·(1-pKilled[h])`) and reads the no-attack continuation
from `Wopt` row `t` (not row `min(maxT,t+1)`). -/
theorem c1_counterexample :
    optDecW (pPredFn (1/2) (1/10) (1/2)) (1/2) (pKilledFn 1) (muFn 0)
        (reproFn (1/20)) dnewFn (fun _ _ _ => 0) 1 0 0 0 ≠
      specWClaim (pPredFn (1/2) (1/10) (1/2)) (1/2) (pKilledFn 1) (muFn 0)
        (reproFn (1/20)) dnewFn (fun _ _ _ => 0) 1 0 0 0 := by
  norm_num [optDecW, specWClaim, pPredFn, pKilledFn, muFn, reproFn, mu0, maxH,
    maxTs]

/-- C1 (amended): for every lattice cell `1 ≤ t ≤ maxT`,
`0 ≤ ts ≤ maxTs-1`, `d ≤ maxD`, `h ≤ maxH` and all array contents, the
fitness backward-propagation sweep of `OptDec` stores into `W[t][ts][d][h]`
the sum of a "survives an attack" branch weighted by
`pPred[t]·pAttack·(1-pKilled[h])` and a "no attack" branch weighted by
`1 - pPred[t]·pAttack`, each branch valued at `(1-mu[d])` times
`repro[ts][d]` plus the damage-interpolated `Wopt` value, the `Wopt` row
being `0` for the survived-attack branch and `t` for the no-attack
branch; and the result is copied into `Wnext[t][ts][d][h]`. -/
theorem c1_amended_propagation :
    ∀ (pPredA : ℕ → ℚ) (pAttackv : ℚ) (pKilledA : ℕ → ℚ) (muA : ℕ → ℚ)
      (reproA : ℕ → ℕ → ℚ) (dnewA : ℕ → ℕ → ℚ) (WoptA : ℕ → ℕ → ℤ → ℚ)
      (ts : ℕ) (Wold Wnextold : ℕ → ℕ → ℕ → ℕ → ℚ) (t d h : ℕ),
      1 ≤ t → t ≤ maxT → ts ≤ maxTs - 1 → d ≤ maxD → h ≤ maxH →
      optDecSweepW pPredA pAttackv pKilledA muA reproA dnewA WoptA ts Wold t ts d h =
          amendedW pPredA pAttackv pKilledA muA reproA dnewA WoptA t ts d h ∧
        optDecSweepWnext pPredA pAttackv pKilledA muA reproA dnewA WoptA ts Wnextold
            t ts d h =
          optDecSweepW pPredA pAttackv pKilledA muA reproA dnewA WoptA ts Wold
            t ts d h := by
  intro pPredA pAttackv pKilledA muA reproA dnewA WoptA ts Wold Wnextold t d h
  intro ht1 ht2 hts hd hh
  constructor
  · rw [optDecSweepW, if_pos ⟨ht1, ht2, rfl, hd, hh⟩]
    unfold optDecW amendedW
    ring
  · rw [optDecSweepWnext, if_pos ⟨ht1, ht2, rfl, hd, hh⟩,
      optDecSweepW, if_pos ⟨ht1, ht2, rfl, hd, hh⟩]

/-- C1 (witness): the amended statement at the concrete cell and arrays
of the counterexample. -/
theorem c1_amended_propagation_witness :
    optDecSweepW (pPredFn (1/2) (1/10) (1/2)) (1/2) (pKilledFn 1) (muFn 0)
        (reproFn (1/20)) dnewFn (fun _ _ _ => 0) 0 (fun _ _ _ _ => 0) 1 0 0 0 =
      amendedW (pPredFn (1/2) (1/10) (1/2)) (1/2) (pKilledFn 1) (muFn 0)
        (reproFn (1/20)) dnewFn (fun _ _ _ => 0) 1 0 0 0 ∧
    optDecSweepWnext (pPredFn (1/2) (1/10) (1/2)) (1/2) (pKilledFn 1) (muFn 0)
        (reproFn (1/20)) dnewFn (fun _ _ _ => 0) 0 (fun _ _ _ _ => 0) 1 0 0 0 =
      optDecSweepW (pPredFn (1/2) (1/10) (1/2)) (1/2) (pKilledFn 1) (muFn 0)
        (reproFn (1/20)) dnewFn (fun _ _ _ => 0) 0 (fun _ _ _ _ => 0) 1 0 0 0 :=
  c1_amended_propagation (pPredFn (1/2) (1/10) (1/2)) (1/2) (pKilledFn 1) (muFn 0)
    (reproFn (1/20)) dnewFn (fun _ _ _ => 0) 0 (fun _ _ _ _ => 0) (fun _ _ _ _ => 0)
    1 0 0 (by norm_num) (by norm_num [maxT]) (by norm_num [maxTs]) (by norm_num [maxD])
    (by norm_num [maxH])


/-- C2 (counterexample): the row `f h = h` is strictly unimodal on
`[0, maxH]` (peak at `maxH`), yet the search records
`Wopt = fitness_x1 = f 498` while `hormone = x1 = 499`; the stored value
is not the `Wnext` value at the recorded index. -/
theorem c2_counterexample :
    StrictUnimodalOn (fun h => (h : ℚ)) 500 ∧
      gssWopt (fun h => (h : ℚ)) ≠ (fun h => (h : ℚ)) (gssHormone (fun h => (h : ℚ))) := by
  constructor
  · refine ⟨by norm_num, by norm_num [maxH], ?_, ?_⟩
    · intro i j _ hij _
      show (i : ℚ) < (j : ℚ)
      exact_mod_cast hij
    · intro i j hi hij hj
      exfalso
      simp only [maxH] at hj
      omega
  · rw [show gssWopt (fun h => (h : ℚ)) = 498 from by rw [gssWopt, gssRun_id_eq]]
    rw [show gssHormone (fun h => (h : ℚ)) = 499 from by rw [gssHormone, gssRun_id_eq]]
    norm_num

/-- C2 (amended): for every row that is strictly unimodal on `[0, maxH]`
with peak `p`, the golden-section search of `OptDec` terminates with
`hormone[t][ts][d] = x1` within one lattice unit of `p`, and
`Wopt[t][ts][d] = fitness_x1` equal to the `Wnext` value at an index
within one lattice unit of the recorded one (for exits through the
second branch it is exactly the value at the recorded index). -/
theorem c2_amended_search :
    ∀ (f : ℤ → ℚ) (p : ℤ), StrictUnimodalOn f p →
      (p - 1 ≤ gssHormone f ∧ gssHormone f ≤ p + 1) ∧
        ∃ j : ℤ, gssHormone f - 1 ≤ j ∧ j ≤ gssHormone f + 1 ∧ gssWopt f = f j := by
  intro f p hu
  exact gss_unimodal_good f p hu

/-- C2 (witness): the amended statement on the concrete strictly
unimodal row `f h = -(h - 250)²` with peak `250`. -/
theorem c2_amended_search_witness :
    ((250 : ℤ) - 1 ≤ gssHormone (fun h => -(((h : ℚ) - 250) ^ 2)) ∧
        gssHormone (fun h => -(((h : ℚ) - 250) ^ 2)) ≤ (250 : ℤ) + 1) ∧
      ∃ j : ℤ, gssHormone (fun h => -(((h : ℚ) - 250) ^ 2)) - 1 ≤ j ∧
        j ≤ gssHormone (fun h => -(((h : ℚ) - 250) ^ 2)) + 1 ∧
        gssWopt (fun h => -(((h : ℚ) - 250) ^ 2)) = -(((j : ℚ) - 250) ^ 2) := by
  have hu : StrictUnimodalOn (fun h => -(((h : ℚ) - 250) ^ 2)) 250 := by
    refine ⟨by norm_num, by norm_num [maxH], ?_, ?_⟩
    · intro i j hi hij hj
      have hc1 : (i : ℚ) < (j : ℚ) := by exact_mod_cast hij
      have hc2 : (j : ℚ) ≤ 250 := by exact_mod_cast hj
      show -(((i : ℚ) - 250) ^ 2) < -(((j : ℚ) - 250) ^ 2)
      nlinarith
    · intro i j hi hij hj
      have hc1 : (i : ℚ) < (j : ℚ) := by exact_mod_cast hij
      have hc2 : (250 : ℚ) ≤ (i : ℚ) := by exact_mod_cast hi
      show -(((j : ℚ) - 250) ^ 2) < -(((i : ℚ) - 250) ^ 2)
      nlinarith
  exact c2_amended_search (fun h => -(((h : ℚ) - 250) ^ 2)) 250 hu

/-- C3 (code bug): with all surviving mass `7/10` in `F[1][maxTs][0][0]`
and death tallies `predDeaths = damageDeaths = bkgrndDeaths = 1/10` (so
the boundary layer's mass is exactly `1` minus the three tallies, as
exact-arithmetic conservation dictates), the season-boundary step leaves
the renormalized surviving mass (copied into the `ts = 0` layer) at
`5/4 ≠ 1`: line 432 divides by `1 - predDeaths - damageDeaths`, omitting
`bkgrndDeaths`, and the cell `F[1][maxTs][0][0]` is divided twice (lines
423 and 432).  Dividing every boundary cell once by `1` minus all three
tallies, as the claim states, would give total mass `1`. -/
theorem c3_normalization_bug :
    seasonTotal F0ex maxTs = 1 - 1/10 - 1/10 - 1/10 ∧
      seasonTotal (seasonNormalizeF F0ex (1/10) (1/10) (1/10)) 0 = 5/4 ∧
      seasonTotal (seasonNormalizeF F0ex (1/10) (1/10) (1/10)) maxTs = 0 ∧
      seasonTotal (specSeasonNormalizeF F0ex (1/10) (1/10) (1/10)) maxTs = 1 ∧
      (5/4 : ℚ) ≠ 1 := by
  refine ⟨?_, ?_, ?_, ?_, by norm_num⟩
  · refine seasonTotal_single _ _ _ (by norm_num [F0ex]) ?_
    intro t d h _ _ _ _ hne
    simp only [F0ex]
    split
    · exfalso; tauto
    · rfl
  · refine seasonTotal_single _ _ _ ?_ ?_
    · simp only [seasonNormalizeF]
      norm_num [maxT, maxD, maxH, maxTs, F0ex]
    · intro t d h h1 h2 h3 h4 hne
      have hcell : F0ex t maxTs d h = 0 := by
        simp only [F0ex]
        split
        · exfalso; tauto
        · rfl
      simp only [seasonNormalizeF]
      rw [if_pos (⟨h1, h2, h3, h4⟩ : 1 ≤ t ∧ t ≤ maxT ∧ d ≤ maxD ∧ h ≤ maxH)]
      simp only [if_true]
      have hiz : (if t = 1 ∧ True ∧ d = 0 ∧ h = 0 then
          F0ex t maxTs d h / (1 - 1/10 - 1/10 - 1/10) else F0ex t maxTs d h) = 0 := by
        split
        · exfalso; tauto
        · exact hcell
      rw [hiz]
      norm_num
  · refine seasonTotal_single _ _ _ ?_ ?_
    · simp only [seasonNormalizeF]
      norm_num [maxT, maxD, maxH, maxTs, F0ex]
    · intro t d h h1 h2 h3 h4 _
      simp only [seasonNormalizeF]
      rw [if_pos (⟨h1, h2, h3, h4⟩ : 1 ≤ t ∧ t ≤ maxT ∧ d ≤ maxD ∧ h ≤ maxH)]
      rw [if_neg (by norm_num [maxTs] : ¬ maxTs = 0)]
      rw [if_pos (le_refl maxTs)]
  · refine seasonTotal_single _ _ _ ?_ ?_
    · simp only [specSeasonNormalizeF]
      norm_num [maxT, maxD, maxH, maxTs, F0ex]
    · intro t d h h1 h2 h3 h4 hne
      have hcell : F0ex t maxTs d h = 0 := by
        simp only [F0ex]
        split
        · exfalso; tauto
        · rfl
      simp only [specSeasonNormalizeF]
      rw [if_pos (⟨h1, h2, trivial, h3, h4⟩ :
        1 ≤ t ∧ t ≤ maxT ∧ True ∧ d ≤ maxD ∧ h ≤ maxH)]
      rw [hcell]
      norm_num

/-- C4 (counterexample): the claim fails as stated — at the admissible
rates `pLeave = 0, pArrive = 0, pAttack = 1`, the division computing
`pPred[2]` has denominator `1 - pPred[1]·pAttack = 0`, so the recursion's
divisions are not all well defined. -/
theorem c4_counterexample :
    ¬ (∀ pLeave pArrive pAttack : ℚ, 0 ≤ pLeave → pLeave ≤ 1 → 0 ≤ pArrive →
        pArrive ≤ 1 → 0 ≤ pAttack → pAttack ≤ 1 →
        ∀ t : ℕ, 2 ≤ t → t ≤ maxT → pPredDenom pLeave pArrive pAttack t ≠ 0) := by
  intro hcl
  have h := hcl 0 0 1 le_rfl zero_le_one le_rfl zero_le_one zero_le_one le_rfl 2
    le_rfl (by norm_num [maxT])
  apply h
  norm_num [pPredDenom, pPredFn]

/-- C4 (amended): for rates `pLeave, pArrive, pAttack ∈ [0,1]` such that
`pAttack < 1`, or `pAttack = 1` with `pLeave > 0` and `pArrive < 1`, the
values `pPred[t]` computed by `PredProb` lie in `[0,1]` for every
`t ∈ [1, maxT]`, and every division the recursion performs has a nonzero
denominator — with no clamping anywhere. -/
theorem c4_amended_probabilities :
    ∀ pLeave pArrive pAttack : ℚ, 0 ≤ pLeave → pLeave ≤ 1 → 0 ≤ pArrive →
      pArrive ≤ 1 → 0 ≤ pAttack → pAttack ≤ 1 →
      (pAttack < 1 ∨ (pAttack = 1 ∧ 0 < pLeave ∧ pArrive < 1)) →
      ∀ t : ℕ, 1 ≤ t → t ≤ maxT →
        (0 ≤ pPredFn pLeave pArrive pAttack t ∧ pPredFn pLeave pArrive pAttack t ≤ 1) ∧
          (2 ≤ t → pPredDenom pLeave pArrive pAttack t ≠ 0) := by
  intro pLeave pArrive pAttack hL0 hL1 hR0 hR1 hA0 _ hside t ht1 _
  obtain ⟨h0, h1, _⟩ := pPred_bounds pLeave pArrive pAttack hL0 hL1 hR0 hR1 hA0
    hside t ht1
  refine ⟨⟨h0, h1⟩, ?_⟩
  intro ht2
  obtain ⟨_, _, hden⟩ := pPred_bounds pLeave pArrive pAttack hL0 hL1 hR0 hR1 hA0
    hside (t - 1) (by omega)
  unfold pPredDenom
  exact ne_of_gt hden

/-- C4 (witness): the amended statement at
`pLeave = 1/2, pArrive = 1/10, pAttack = 3/10, t = 5`. -/
theorem c4_amended_probabilities_witness :
    ((0 ≤ pPredFn (1/2) (1/10) (3/10) 5 ∧ pPredFn (1/2) (1/10) (3/10) 5 ≤ 1) ∧
      (2 ≤ 5 → pPredDenom (1/2) (1/10) (3/10) 5 ≠ 0)) :=
  c4_amended_probabilities (1/2) (1/10) (3/10) (by norm_num) (by norm_num)
    (by norm_num) (by norm_num) (by norm_num) (by norm_num) (Or.inl (by norm_num))
    5 (by norm_num) (by norm_num [maxT])

/-- C5 (counterexample): `FinalFit` does not seed the row `t = 0` — its
loop starts at `t = 1` — so starting from the zero-initialised arrays,
`Wnext[0][maxTs][0][0]` stays `0` while `repro[maxTs][0] = 1`
(with `Kfec = 1/20`). -/
theorem c5_counterexample :
    finalFitWnext (reproFn (1/20)) (fun _ _ _ _ => 0) 0 maxTs 0 0 ≠
      reproFn (1/20) maxTs 0 := by
  norm_num [finalFitWnext, reproFn, maxTs]

/-- C5 (amended): at the start of the very first outer iteration,
`FinalFit` seeds `Wnext[t][maxTs][d][h]` and `V[t][d][h]` to the terminal
reproductive output `repro[maxTs][d]` for all `t ∈ [1, maxT]` (not
`t = 0`), `d ∈ [0, maxD]`, `h ∈ [0, maxH]`. -/
theorem c5_amended_finalfit :
    ∀ (reproA : ℕ → ℕ → ℚ) (Wnextold : ℕ → ℕ → ℕ → ℕ → ℚ) (Vold : ℕ → ℕ → ℕ → ℚ)
      (t d h : ℕ), 1 ≤ t → t ≤ maxT → d ≤ maxD → h ≤ maxH →
      finalFitWnext reproA Wnextold t maxTs d h = reproA maxTs d ∧
        finalFitV reproA Vold t d h = reproA maxTs d := by
  intro reproA Wnextold Vold t d h h1 h2 h3 h4
  constructor
  · rw [finalFitWnext, if_pos ⟨h1, h2, rfl, h3, h4⟩]
  · rw [finalFitV, if_pos ⟨h1, h2, h3, h4⟩]

/-- C5 (witness): the amended statement at `t = 1, d = 0, h = 0` with the
actual reproduction array for `Kfec = 1/20` and zero-initialised fitness
arrays. -/
theorem c5_amended_finalfit_witness :
    finalFitWnext (reproFn (1/20)) (fun _ _ _ _ => 0) 1 maxTs 0 0 =
        reproFn (1/20) maxTs 0 ∧
      finalFitV (reproFn (1/20)) (fun _ _ _ => 0) 1 0 0 = reproFn (1/20) maxTs 0 :=
  c5_amended_finalfit (reproFn (1/20)) (fun _ _ _ _ => 0) (fun _ _ _ => 0) 1 0 0
    (by norm_num) (by norm_num [maxT]) (by norm_num) (by norm_num)

/-- C6 (confirmed): `pPred[1] = 1 - pLeave` for all rates, and with
`pLeave = 1, pArrive = 0` the recursion yields `pPred[t] = 0` for every
`t ∈ [1, maxT]` (the predator never returns). -/
theorem c6_predprob_special :
    ∀ (pLeave pArrive pAttack : ℚ) (t : ℕ),
      pPredFn pLeave pArrive pAttack 1 = 1 - pLeave ∧
        (1 ≤ t → t ≤ maxT → pPredFn 1 0 pAttack t = 0) := by
  intro pLeave pArrive pAttack t
  constructor
  · rfl
  · intro ht1 hmt
    clear hmt
    induction t, ht1 using Nat.le_induction with
    | base => norm_num [pPredFn]
    | succ u hu ih =>
      rw [pPredFn_step 1 0 pAttack u hu, ih]
      norm_num

/-- C6 (witness): the statement at `pLeave = 1/3, pArrive = 1/4,
pAttack = 1/2, t = 7`. -/
theorem c6_predprob_special_witness :
    pPredFn (1/3) (1/4) (1/2) 1 = 1 - 1/3 ∧
      (1 ≤ 7 → 7 ≤ maxT → pPredFn 1 0 (1/2) 7 = 0) :=
  c6_predprob_special (1/3) (1/4) (1/2) 7

/-- C7 (counterexample): the claim fails as stated "for any runtime value
of the input Kmort" — at `Kmort = -1` (a value `atof` can produce) and
`d = 1`, `mu[1] = min(1, 0.002 - 1) < 0`, outside `[0,1]`. -/
theorem c7_counterexample :
    ¬ (∀ Kmort : ℚ, ∀ d : ℕ, d ≤ maxD → 0 ≤ muFn Kmort d) := by
  intro hcl
  have h := hcl (-1) 1 (by norm_num [maxD])
  norm_num [muFn, mu0] at h

/-- C7 (amended): for every nonnegative runtime `Kmort` and all
`d ∈ [0, maxD]`, `mu[d] = min(1, mu0 + Kmort·d)`, `mu[d] ∈ [0,1]`, and
`mu` is non-decreasing in `d`. -/
theorem c7_amended_mortality :
    ∀ Kmort : ℚ, 0 ≤ Kmort → ∀ d : ℕ, d ≤ maxD →
      muFn Kmort d = min 1 (mu0 + Kmort * d) ∧
        (0 ≤ muFn Kmort d ∧ muFn Kmort d ≤ 1) ∧
        ∀ d' : ℕ, d ≤ d' → d' ≤ maxD → muFn Kmort d ≤ muFn Kmort d' := by
  intro K hK d _
  refine ⟨rfl, ⟨?_, ?_⟩, ?_⟩
  · refine le_min (by norm_num) ?_
    have : (0:ℚ) ≤ K * d := by positivity
    norm_num [mu0]
    linarith
  · exact min_le_left _ _
  · intro d' hdd' _
    unfold muFn
    apply min_le_min le_rfl
    have hc : (d:ℚ) ≤ (d':ℚ) := by exact_mod_cast hdd'
    nlinarith

/-- C7 (witness): the amended statement at `Kmort = 1/10, d = 3, d' = 5`. -/
theorem c7_amended_mortality_witness :
    (muFn (1/10) 3 = min 1 (mu0 + (1/10) * 3) ∧
        (0 ≤ muFn (1/10) 3 ∧ muFn (1/10) 3 ≤ 1)) ∧
      muFn (1/10) 3 ≤ muFn (1/10) 5 := by
  have h := c7_amended_mortality (1/10) (by norm_num) 3 (by norm_num [maxD])
  exact ⟨⟨by exact_mod_cast h.1, h.2.1⟩, h.2.2 5 (by norm_num) (by norm_num [maxD])⟩

/-- C8 (confirmed): per source state, the four outflow contributions of
the forward sweep plus the three death contributions sum exactly to the
source mass, as an algebraic identity for any values of the arrays. -/
theorem c8_mass_conservation :
    ∀ Fv pPredt pAttackv pKilledh mud mu0v ddec : ℚ,
      fwdFlowAttackLow Fv pPredt pAttackv pKilledh mud ddec +
          fwdFlowAttackHigh Fv pPredt pAttackv pKilledh mud ddec +
          fwdFlowNoAttackLow Fv pPredt pAttackv mud ddec +
          fwdFlowNoAttackHigh Fv pPredt pAttackv mud ddec +
          fwdPredDeaths Fv pPredt pAttackv pKilledh +
          fwdDamageDeaths Fv pPredt pAttackv pKilledh mud mu0v +
          fwdBkgrndDeaths Fv pPredt pAttackv pKilledh mu0v = Fv := by
  intro Fv pPredt pAttackv pKilledh mud mu0v ddec
  unfold fwdFlowAttackLow fwdFlowAttackHigh fwdFlowNoAttackLow fwdFlowNoAttackHigh
    fwdPredDeaths fwdDamageDeaths fwdBkgrndDeaths
  ring

/-- C9 (confirmed): for every content of the `Wnext` row, the
golden-section-search loop terminates: within 500 iterations the guard
`x1 < x2` fails, and all further iterations leave the state unchanged. -/
theorem c9_termination :
    ∀ f : ℤ → ℚ, ¬ ((gssRun f).1.x1 < (gssRun f).1.x2) ∧
      ∀ m : ℕ, 500 ≤ m → gssAux f m (gssInit, 0) = gssRun f := by
  intro f
  refine ⟨gss_terminates f, ?_⟩
  intro m hm
  have h1 : m = 500 + (m - 500) := by omega
  rw [h1, gssAux_add]
  exact gssAux_stable (gss_terminates f) (m - 500)

/-- C9 (witness): the statement at the constant row `f = 0` and
`m = 600`. -/
theorem c9_termination_witness :
    ¬ ((gssRun (fun _ => (0:ℚ))).1.x1 < (gssRun (fun _ => (0:ℚ))).1.x2) ∧
      gssAux (fun _ => (0:ℚ)) 600 (gssInit, 0) = gssRun (fun _ => (0:ℚ)) :=
  ⟨(c9_termination (fun _ => 0)).1, (c9_termination (fun _ => 0)).2 600 (by norm_num)⟩

/-- C10 (confirmed): the value `x1` recorded by `OptDec` into
`hormone[t][ts][d]` is always an integer in `[0, maxH]`, for any content
of the `Wnext` row; and the copies `ReplaceFit` makes into
`hormone[t][maxTs][d]` preserve that range. -/
theorem c10_policy_range :
    (∀ f : ℤ → ℚ, 0 ≤ (gssRun f).1.x1 ∧ (gssRun f).1.x1 ≤ (maxH : ℤ)) ∧
      ∀ hormoneA : ℕ → ℕ → ℕ → ℤ,
        (∀ t ts d : ℕ, 0 ≤ hormoneA t ts d ∧ hormoneA t ts d ≤ (maxH : ℤ)) →
        ∀ t ts d : ℕ, 0 ≤ replaceFitHormone hormoneA t ts d ∧
          replaceFitHormone hormoneA t ts d ≤ (maxH : ℤ) := by
  constructor
  · intro f
    obtain ⟨h0, h1, h2, h3, h4, h5⟩ := gssAux_inv f 500 (gssInit, 0) gssInv_init
    unfold gssRun
    exact ⟨by omega, by omega⟩
  · intro hormoneA hrange t ts d
    unfold replaceFitHormone
    split
    · exact hrange t 0 d
    · exact hrange t ts d

/-- C10 (witness): the `ReplaceFit` part of the statement at the
all-zero policy array and the cell `(t, ts, d) = (1, maxTs, 0)`, and the
search part at the constant row `f = 1`. -/
theorem c10_policy_range_witness :
    (0 ≤ (gssRun (fun _ => (1:ℚ))).1.x1 ∧
        (gssRun (fun _ => (1:ℚ))).1.x1 ≤ (maxH : ℤ)) ∧
      (0 ≤ replaceFitHormone (fun _ _ _ => 0) 1 maxTs 0 ∧
        replaceFitHormone (fun _ _ _ => 0) 1 maxTs 0 ≤ (maxH : ℤ)) :=
  ⟨c10_policy_range.1 (fun _ => 1),
    c10_policy_range.2 (fun _ _ _ => 0)
      (fun _ _ _ => ⟨le_rfl, by norm_num [maxH]⟩) 1 maxTs 0⟩
